import Mathlib

/-!
# Lottery backend: purchase and draw orchestration

A shallow embedding of `backend/services/lotteryService.js`,
`backend/services/databaseService.js` and `backend/config/db.js`.

* The three systems of record (PostgreSQL tables, MongoDB collections, the
  Solana gateway) are fields of one `World`; every call that leaves the
  process is appended to `World.calls`, every `logger.error` to `World.logs`.
* An `async` function is an `Op`: a function from a world to a result or a
  thrown error, together with the world it leaves behind.  A thrown error
  undoes nothing.
* Whether an external call fails is decided by the environment (`Env.failure`);
  `Date.now()`, `Math.random()` and the random comparator given to
  `Array.prototype.sort` are read from the environment as well.
* JavaScript numbers are exact: integers for counts, rationals for amounts.
-/

namespace Lottery

/-! ## Data model -/

/-- A row of the `users` table. -/
structure User where
  id : Nat
  wallet_address : String
deriving DecidableEq, Repr

/-- A row of the `lottery_pools` table. -/
structure Pool where
  id : String
  pool_address : String
  creator_id : Nat
  name : String
  description : String
  ticket_price : Rat
  min_players : Int
  max_players : Int
  start_time : Nat
  end_time : Nat
  status : String
  prize_amount : Rat
  winner : Option String
deriving DecidableEq, Repr

/-- A row of the `transactions` table. -/
structure TransactionRow where
  id : Nat
  pool_id : String
  user_id : Nat
  signature : String
  amount : Rat
  type : String
  status : String
  confirmed_at : Option Nat
deriving DecidableEq, Repr

/-- The argument of `databaseService.createTransaction`. -/
structure TransactionData where
  poolId : String
  userId : Nat
  signature : String
  amount : Rat
  type : String
deriving DecidableEq, Repr

/-- One element of `PoolEntry.tickets`. -/
structure Ticket where
  ticketNumber : String
  purchaseTimestamp : Nat
  transactionSignature : String
deriving DecidableEq, Repr

/-- A document of the `PoolEntry` collection (`PoolEntrySchema`). -/
structure PoolEntry where
  poolId : String
  walletAddress : String
  tickets : List Ticket
  totalTickets : Int
  joinedAt : Nat
  lastUpdated : Nat
deriving DecidableEq, Repr

/-- A document of the `RealTimeStats` collection (`RealTimeStatsSchema`). -/
structure RealTimeStats where
  poolId : String
  activeParticipants : Rat
  totalTicketsSold : Rat
  currentPrizePool : Rat
  lastUpdated : Nat
deriving DecidableEq, Repr

/-- A value inside a MongoDB update document: a number or a sub-document of numbers. -/
inductive UpdateValue where
  | num (v : Rat)
  | doc (fields : List (String × Rat))
deriving DecidableEq, Repr

/-- An update document: field names (or operator names) with their values. -/
abbrev UpdateData := List (String × UpdateValue)

/-- The `content` of a notification. -/
structure NotificationContent where
  title : String
  body : String
  poolId : String
  quantity : Option Int
  amount : Rat
deriving DecidableEq, Repr

/-- The argument of `databaseService.queueNotification`. -/
structure NotificationData where
  recipient : String
  type : String
  content : NotificationContent
  scheduledFor : Nat
deriving DecidableEq, Repr

/-- A document of the `NotificationQueue` collection. -/
structure Notification where
  recipient : String
  type : String
  status : String
  content : NotificationContent
  scheduledFor : Nat
  attempts : Nat
deriving DecidableEq, Repr

/-- One element of the winner list built by `determineWinners`. -/
structure Winner where
  walletAddress : String
  ticketNumber : String
  prize : Rat
  transactionSignature : Option String
deriving DecidableEq, Repr

/-- The `drawTransaction` handle returned by the ledger for a draw. -/
structure DrawTransaction where
  signature : String
  blockTime : Nat
  slot : Nat
deriving DecidableEq, Repr

/-- A document of the `DrawHistory` collection; also the argument of `createDrawHistory`. -/
structure DrawHistory where
  drawId : String
  poolId : String
  drawTimestamp : Nat
  winningNumbers : List Int
  winners : List Winner
  drawTransaction : DrawTransaction
  totalPrizePool : Rat
  participants : Nat
deriving DecidableEq, Repr

/-- A document of the `ActivityLog` collection; also the argument of `logActivity`. -/
structure ActivityLog where
  activityType : String
  walletAddress : Option String
  poolId : Option String
  data : List (String × String)
deriving DecidableEq, Repr

/-- One prize payment reported by the ledger gateway. -/
structure PrizeTransaction where
  winner : String
  txRef : String
deriving DecidableEq, Repr

/-- A call that leaves the process: to the ledger gateway, to PostgreSQL or to MongoDB. -/
inductive Call where
  | getUserByWallet (walletAddress : String)
  | createUser (walletAddress : String)
  | pgConnect
  | pgQuery (text : String)
  | pgRelease
  | solanaPurchaseTickets (buyerWallet : String) (quantity : Int) (totalCost : Rat)
  | updatePoolEntry (poolId walletAddress : String) (ticketData : List Ticket)
  | updateRealTimeStats (poolId : String) (updateData : UpdateData)
  | queueNotification (notificationData : NotificationData)
  | getPoolById (poolId : String)
  | getPoolEntries (poolId : String)
  | solanaDrawLottery (poolId : String)
  | createDrawHistory (drawData : DrawHistory)
  | solanaDistributePrizes (winners : List Winner)
  | updatePoolStatus (poolId status : String) (winner : Option String)
  | solanaCreateLotteryPool (creator : String) (ticketPrice : Rat) (minPlayers maxPlayers : Int)
  | createRealTimeStats (poolId : String)
  | logActivity (activityData : ActivityLog)
  | findRealTimeStats (poolId : String)
deriving DecidableEq, Repr

/-- The relational tables; `withTransaction` rolls these back as a whole. -/
structure PgTables where
  users : List User
  pools : List Pool
  transactions : List TransactionRow
deriving DecidableEq, Repr

/-- Everything the service layer can read or change. -/
structure World where
  pg : PgTables
  poolEntries : List PoolEntry
  realTimeStats : List RealTimeStats
  notifications : List Notification
  drawHistory : List DrawHistory
  activityLog : List ActivityLog
  calls : List Call
  logs : List String
  tick : Nat
deriving DecidableEq, Repr

/-- What `solanaService.purchaseTickets` resolves to. -/
structure LedgerPurchase where
  transaction : String
  signature : String
deriving DecidableEq, Repr

/-- What `solanaService.createLotteryPool` resolves to. -/
structure LedgerPool where
  poolAddress : String
  transaction : String
deriving DecidableEq, Repr

/-- What `solanaService.drawLottery` resolves to. -/
structure LedgerDraw where
  winningNumbers : List Int
  drawTransaction : DrawTransaction
deriving DecidableEq, Repr

/-- The environment of a run.  `failure w c` is the error with which the external call `c`,
issued in world `w`, fails (`none`: it succeeds).  The four ledger functions are the results
of `solanaService.purchaseTickets`, `createLotteryPool`, `drawLottery` and `distributePrizes`,
which `lotteryService.js` calls and `solanaService.js` does not define;
`isValidSolanaAddress` says which strings the `PublicKey` constructor accepts.  `dateNow` and `mathRandom`
give the value of the n-th read of the clock and of `Math.random().toString(36)`; `shuffle`
is the outcome of `sort(() => 0.5 - Math.random())`; `numberToString` is the text JavaScript
prints for a number inside a template string. -/
structure Env where
  failure : World → Call → Option String
  purchaseTickets : String → Int → Rat → LedgerPurchase
  createLotteryPool : String → Rat → Int → Int → LedgerPool
  isValidSolanaAddress : String → Bool
  drawLottery : String → LedgerDraw
  distributePrizes : List Winner → List PrizeTransaction
  shuffle : List PoolEntry → List PoolEntry
  dateNow : Nat → Nat
  mathRandom : Nat → String
  numberToString : Rat → String

/-! ## Operations -/

/-- An asynchronous operation: result or thrown error, and the world left behind. -/
def Op (α : Type) : Type := World → Except String α × World

/-- Return a value without touching the world. -/
def Op.pure {α : Type} (a : α) : Op α := fun w => (.ok a, w)

/-- Sequencing (`await`): the second operation runs only when the first did not throw. -/
def Op.bind {α β : Type} (m : Op α) (f : α → Op β) : Op β := fun w =>
  match m w with
  | (.ok a, w1) => f a w1
  | (.error e, w1) => (.error e, w1)

/-- The statement `throw new Error(message)`. -/
def Op.throw {α : Type} (e : String) : Op α := fun w => (.error e, w)

/-- The statement `try ... catch (error) ...`. -/
def Op.tryCatch {α : Type} (body : Op α) (handler : String → Op α) : Op α := fun w =>
  match body w with
  | (.ok a, w1) => (.ok a, w1)
  | (.error e, w1) => handler e w1

/-- The statement `try ... finally ...`: the finaliser runs in both cases; when it throws, its
error replaces the outcome of the body. -/
def Op.tryFinally {α : Type} (body : Op α) (finaliser : Op Unit) : Op α := fun w =>
  match body w with
  | (r, w1) =>
    match finaliser w1 with
    | (.ok _, w2) => (r, w2)
    | (.error e, w2) => (.error e, w2)

instance : Monad Op where
  pure := Op.pure
  bind := Op.bind

/-- The call `logger.error(message, error)`. -/
def loggerError (message error : String) : Op Unit := fun w =>
  (.ok (), { w with logs := w.logs ++ [message ++ " " ++ error] })

/-- Issue the external call `c`: it is recorded, and fails when the environment says so. -/
def external (env : Env) (c : Call) : Op Unit := fun w =>
  match env.failure w c with
  | some e => (.error e, { w with calls := w.calls ++ [c] })
  | none => (.ok (), { w with calls := w.calls ++ [c] })

/-- Read the clock (`Date.now()`, `new Date()`). -/
def dateNow (env : Env) : Op Nat := fun w =>
  (.ok (env.dateNow w.tick), { w with tick := w.tick + 1 })

/-- Read `Math.random().toString(36)`. -/
def mathRandom (env : Env) : Op String := fun w =>
  (.ok (env.mathRandom w.tick), { w with tick := w.tick + 1 })

/-- Read the world. -/
def getWorld : Op World := fun w => (.ok w, w)

/-- Change the world. -/
def modifyWorld (f : World → World) : Op Unit := fun w => (.ok (), f w)

/-- Record a call that cannot fail (`client.release()`). -/
def record (c : Call) : Op Unit := fun w => (.ok (), { w with calls := w.calls ++ [c] })

/-! ## config/db.js -/

/-- The function `executeQuery`: a failed query is logged and rethrown. -/
def executeQuery (env : Env) (c : Call) : Op Unit :=
  Op.tryCatch (external env c)
    (fun error => do
      loggerError "Query error" error
      Op.throw error)

/-- The function `withTransaction`: the relational tables as they are when the client is checked
out are what `ROLLBACK` goes back to. -/
def withTransaction {α : Type} (env : Env) (callback : Op α) : Op α := do
  external env .pgConnect
  let saved := (← getWorld).pg
  Op.tryFinally
    (Op.tryCatch
      (do
        external env (.pgQuery "BEGIN")
        let result ← callback
        external env (.pgQuery "COMMIT")
        pure result)
      (fun error => do
        modifyWorld (fun w => { w with pg := saved })
        external env (.pgQuery "ROLLBACK")
        Op.throw error))
    (record .pgRelease)

/-! ## services/databaseService.js -/

/-- The method `createUser`. -/
def createUser (env : Env) (walletAddress : String) : Op User :=
  Op.tryCatch
    (do
      executeQuery env (.createUser walletAddress)
      let w ← getWorld
      let row : User := { id := w.pg.users.length + 1, wallet_address := walletAddress }
      modifyWorld (fun w => { w with pg := { w.pg with users := w.pg.users ++ [row] } })
      pure row)
    (fun error => do
      loggerError "Error creating user:" error
      Op.throw error)

/-- The method `getUserByWallet`: the first matching row, or nothing. -/
def getUserByWallet (env : Env) (walletAddress : String) : Op (Option User) :=
  Op.tryCatch
    (do
      executeQuery env (.getUserByWallet walletAddress)
      let w ← getWorld
      pure (w.pg.users.find? (fun u => u.wallet_address == walletAddress)))
    (fun error => do
      loggerError "Error getting user:" error
      Op.throw error)

/-- The method `createTransaction`: one `INSERT` inside `withTransaction`, status `pending`. -/
def createTransaction (env : Env) (transactionData : TransactionData) : Op TransactionRow :=
  Op.tryCatch
    (withTransaction env (do
      external env (.pgQuery "INSERT INTO transactions")
      let w ← getWorld
      let row : TransactionRow :=
        { id := w.pg.transactions.length + 1
          pool_id := transactionData.poolId
          user_id := transactionData.userId
          signature := transactionData.signature
          amount := transactionData.amount
          type := transactionData.type
          status := "pending"
          confirmed_at := none }
      modifyWorld (fun w => { w with pg := { w.pg with transactions := w.pg.transactions ++ [row] } })
      pure row))
    (fun error => do
      loggerError "Error creating transaction:" error
      Op.throw error)

/-- Replace the first element satisfying `p` by its image under `f`; `none` when there is none. -/
def updateFirst {α : Type} (p : α → Bool) (f : α → α) : List α → Option (List α × α)
  | [] => none
  | x :: xs =>
    if p x then some (f x :: xs, f x)
    else match updateFirst p f xs with
      | some (ys, y) => some (x :: ys, y)
      | none => none

/-- The call `findOneAndUpdate(filter, update, { new: true, upsert: true })` on a collection:
the first matching document is updated; when there is none, a fresh one is inserted with the
update applied.  The result is the collection afterwards and the document after the update. -/
def findOneAndUpdate {α : Type} (p : α → Bool) (f : α → α) (fresh : α) (l : List α) :
    List α × α :=
  match updateFirst p f l with
  | some r => r
  | none => (l ++ [f fresh], f fresh)

/-- The update of `updatePoolEntry` on the `PoolEntry` collection: `findOneAndUpdate` on
`(poolId, walletAddress)` with `$push: { tickets: ticketData }`, `$inc: { totalTickets: 1 }`,
`lastUpdated: now` and `upsert`.  The pushed array is appended element by element, as Mongoose
casts a `$push` of an array onto a document array. -/
def pushTickets (poolId walletAddress : String) (ticketData : List Ticket) (now : Nat)
    (entries : List PoolEntry) : List PoolEntry × PoolEntry :=
  findOneAndUpdate
    (fun e => e.poolId == poolId && e.walletAddress == walletAddress)
    (fun e => { e with tickets := e.tickets ++ ticketData, totalTickets := e.totalTickets + 1,
                       lastUpdated := now })
    { poolId := poolId, walletAddress := walletAddress, tickets := [], totalTickets := 0,
      joinedAt := now, lastUpdated := now }
    entries

/-- The method `updatePoolEntry`. -/
def updatePoolEntry (env : Env) (poolId walletAddress : String) (ticketData : List Ticket) :
    Op PoolEntry :=
  Op.tryCatch
    (do
      let now ← dateNow env
      external env (.updatePoolEntry poolId walletAddress ticketData)
      let w ← getWorld
      let updated := pushTickets poolId walletAddress ticketData now w.poolEntries
      modifyWorld (fun w => { w with poolEntries := updated.1 })
      pure updated.2)
    (fun error => do
      loggerError "Error updating pool entry:" error
      Op.throw error)

/-- Assign one field of a `$set` document to a stats row.  A name that is no numeric path of
`RealTimeStatsSchema` (an operator name such as `$inc` among them) assigns nothing. -/
def RealTimeStats.setPath (s : RealTimeStats) (path : String) (v : UpdateValue) : RealTimeStats :=
  match v with
  | .num x =>
    if path = "activeParticipants" then { s with activeParticipants := x }
    else if path = "totalTicketsSold" then { s with totalTicketsSold := x }
    else if path = "currentPrizePool" then { s with currentPrizePool := x }
    else s
  | .doc _ => s

/-- The update `{ $set: updateData, lastUpdated: now }` on one stats row. -/
def RealTimeStats.applySet (s : RealTimeStats) (updateData : UpdateData) (now : Nat) :
    RealTimeStats :=
  { updateData.foldl (fun acc kv => acc.setPath kv.1 kv.2) s with lastUpdated := now }

/-- The update of `updateRealTimeStats` on the `RealTimeStats` collection: `findOneAndUpdate`
on `poolId` with `$set: updateData`, `lastUpdated: now` and `upsert`. -/
def setStats (poolId : String) (updateData : UpdateData) (now : Nat)
    (rows : List RealTimeStats) : List RealTimeStats × RealTimeStats :=
  findOneAndUpdate
    (fun s => s.poolId == poolId) (fun s => s.applySet updateData now)
    { poolId := poolId, activeParticipants := 0, totalTicketsSold := 0,
      currentPrizePool := 0, lastUpdated := now }
    rows

/-- The method `updateRealTimeStats`. -/
def updateRealTimeStats (env : Env) (poolId : String) (updateData : UpdateData) :
    Op RealTimeStats :=
  Op.tryCatch
    (do
      let now ← dateNow env
      external env (.updateRealTimeStats poolId updateData)
      let w ← getWorld
      let updated := setStats poolId updateData now w.realTimeStats
      modifyWorld (fun w => { w with realTimeStats := updated.1 })
      pure updated.2)
    (fun error => do
      loggerError "Error updating real-time stats:" error
      Op.throw error)

/-- The document `new NotificationQueue(notificationData)`: the schema defaults give it the
status `pending` and no attempts. -/
def NotificationData.toDocument (notificationData : NotificationData) : Notification :=
  { recipient := notificationData.recipient
    type := notificationData.type
    status := "pending"
    content := notificationData.content
    scheduledFor := notificationData.scheduledFor
    attempts := 0 }

/-- The method `queueNotification`: a new document is saved. -/
def queueNotification (env : Env) (notificationData : NotificationData) : Op Notification :=
  Op.tryCatch
    (do
      external env (.queueNotification notificationData)
      let notification := notificationData.toDocument
      modifyWorld (fun w => { w with notifications := w.notifications ++ [notification] })
      pure notification)
    (fun error => do
      loggerError "Error queueing notification:" error
      Op.throw error)

/-- The method `createDrawHistory`: a new document. -/
def createDrawHistory (env : Env) (drawData : DrawHistory) : Op DrawHistory :=
  Op.tryCatch
    (do
      external env (.createDrawHistory drawData)
      modifyWorld (fun w => { w with drawHistory := w.drawHistory ++ [drawData] })
      pure drawData)
    (fun error => do
      loggerError "Error creating draw history:" error
      Op.throw error)

/-- Modelled from the spec: `databaseService.getPoolById`, which `conductDraw` calls and
`databaseService.js` does not define; a point query of the record store by pool id. -/
def getPoolById (env : Env) (poolId : String) : Op (Option Pool) := do
  external env (.getPoolById poolId)
  let w ← getWorld
  pure (w.pg.pools.find? (fun p => p.id == poolId))

/-- Modelled from the spec: `databaseService.getPoolEntries`, which `conductDraw` calls and
`databaseService.js` does not define; it fetches all PoolEntries for the pool. -/
def getPoolEntries (env : Env) (poolId : String) : Op (List PoolEntry) := do
  external env (.getPoolEntries poolId)
  let w ← getWorld
  pure (w.poolEntries.filter (fun e => e.poolId == poolId))

/-- Modelled from the spec: `databaseService.updatePoolStatus`, which `conductDraw` calls and
`databaseService.js` does not define; the status of the pool row flips to the given status. -/
def updatePoolStatus (env : Env) (poolId status : String) (winner : Option String) : Op Unit := do
  external env (.updatePoolStatus poolId status winner)
  modifyWorld (fun w => { w with pg := { w.pg with pools := w.pg.pools.map (fun p =>
    if p.id == poolId then { p with status := status, winner := winner } else p) } })

/-- The method `logActivity`: a new document. -/
def logActivity (env : Env) (activityData : ActivityLog) : Op ActivityLog :=
  Op.tryCatch
    (do
      external env (.logActivity activityData)
      modifyWorld (fun w => { w with activityLog := w.activityLog ++ [activityData] })
      pure activityData)
    (fun error => do
      loggerError "Error logging activity:" error
      Op.throw error)

/-- The argument of `databaseService.createLotteryPool`. -/
structure LotteryPoolData where
  poolAddress : String
  creatorId : Nat
  name : String
  description : String
  ticketPrice : Rat
  minPlayers : Int
  maxPlayers : Int
  startTime : Nat
  endTime : Nat
deriving DecidableEq, Repr

/-- The method `createLotteryPool`: inside `withTransaction`, the `INSERT` of the pool row with
status `pending`, then `RealTimeStats.create` with the three counters at 0.  The columns the
`INSERT` does not name (`prize_amount`, the winner) start at 0 and at nothing. -/
def createLotteryPool (env : Env) (poolData : LotteryPoolData) : Op Pool :=
  Op.tryCatch
    (withTransaction env (do
      external env (.pgQuery "INSERT INTO lottery_pools")
      let w ← getWorld
      let row : Pool :=
        { id := toString (w.pg.pools.length + 1)
          pool_address := poolData.poolAddress
          creator_id := poolData.creatorId
          name := poolData.name
          description := poolData.description
          ticket_price := poolData.ticketPrice
          min_players := poolData.minPlayers
          max_players := poolData.maxPlayers
          start_time := poolData.startTime
          end_time := poolData.endTime
          status := "pending"
          prize_amount := 0
          winner := none }
      modifyWorld (fun w => { w with pg := { w.pg with pools := w.pg.pools ++ [row] } })
      let now ← dateNow env
      external env (.createRealTimeStats row.id)
      let stats : RealTimeStats :=
        { poolId := row.id, currentPrizePool := 0, activeParticipants := 0,
          totalTicketsSold := 0, lastUpdated := now }
      modifyWorld (fun w => { w with realTimeStats := w.realTimeStats ++ [stats] })
      pure row))
    (fun error => do
      loggerError "Error creating lottery pool:" error
      Op.throw error)

/-- The effect on one row of the `UPDATE` of `confirmTransaction`: a row with the signature gets
the status `confirmed` and the current time as its confirmation time; the `WHERE` clause names
the signature only. -/
def TransactionRow.confirm (signature : String) (now : Nat) (t : TransactionRow) :
    TransactionRow :=
  if t.signature == signature then
    { t with status := "confirmed", confirmed_at := some now }
  else t

/-- The method `confirmTransaction`: inside `withTransaction`, one `UPDATE` on every row with
the signature; the first such row is returned. -/
def confirmTransaction (env : Env) (signature : String) : Op (Option TransactionRow) :=
  Op.tryCatch
    (withTransaction env (do
      let now ← dateNow env
      external env (.pgQuery "UPDATE transactions")
      modifyWorld (fun w =>
        { w with pg := { w.pg with
            transactions := w.pg.transactions.map (TransactionRow.confirm signature now) } })
      let w ← getWorld
      pure (w.pg.transactions.find? (fun t => t.signature == signature))))
    (fun error => do
      loggerError "Error confirming transaction:" error
      Op.throw error)

/-! ## services/lotteryService.js -/

/-- The configuration held by the service object. -/
structure LotteryService where
  ticketPrice : Rat
  minJackpot : Rat
  maxTicketsPerPurchase : Int
deriving DecidableEq, Repr

/-- The expression `parsed || fallback` on numbers: `NaN` (here `none`) and `0` give the
fallback. -/
def orElse {α : Type} [Zero α] [DecidableEq α] (parsed : Option α) (fallback : α) : α :=
  match parsed with
  | none => fallback
  | some v => if v = 0 then fallback else v

/-- The constructor: the three settings parsed from the process environment, with defaults. -/
def LotteryService.constructor (TICKET_PRICE MIN_JACKPOT : Option Rat)
    (MAX_TICKETS_PER_PURCHASE : Option Int) : LotteryService :=
  { ticketPrice := orElse TICKET_PRICE (1 / 10)
    minJackpot := orElse MIN_JACKPOT 1000
    maxTicketsPerPurchase := orElse MAX_TICKETS_PER_PURCHASE 100 }

/-- The argument of `createPool`. -/
structure PoolData where
  creatorWallet : String
  name : String
  description : String
  minPlayers : Int
  maxPlayers : Int
  startTime : Nat
  endTime : Nat
deriving DecidableEq, Repr

/-- What `createPool` resolves to. -/
structure CreatePoolResult where
  pool : Pool
  transaction : String
deriving DecidableEq, Repr

/-- The method `createPool`. -/
def createPool (svc : LotteryService) (env : Env) (poolData : PoolData) : Op CreatePoolResult :=
  Op.tryCatch
    (do
      if !env.isValidSolanaAddress poolData.creatorWallet then
        Op.throw "Invalid creator wallet address"
      else
        let found ← getUserByWallet env poolData.creatorWallet
        let user ← match found with
          | some u => pure u
          | none => createUser env poolData.creatorWallet
        external env (.solanaCreateLotteryPool poolData.creatorWallet svc.ticketPrice
          poolData.minPlayers poolData.maxPlayers)
        let created := env.createLotteryPool poolData.creatorWallet svc.ticketPrice
          poolData.minPlayers poolData.maxPlayers
        let pool ← createLotteryPool env
          { poolAddress := created.poolAddress
            creatorId := user.id
            name := poolData.name
            description := poolData.description
            ticketPrice := svc.ticketPrice
            minPlayers := poolData.minPlayers
            maxPlayers := poolData.maxPlayers
            startTime := poolData.startTime
            endTime := poolData.endTime }
        let _ ← logActivity env
          { activityType := "POOL_CREATED"
            walletAddress := some poolData.creatorWallet
            poolId := some pool.id
            data := [("poolAddress", created.poolAddress), ("transaction", created.transaction)] }
        pure { pool := pool, transaction := created.transaction })
    (fun error => do
      loggerError "Error creating lottery pool:" error
      Op.throw error)

/-- The argument of `purchaseTickets`. -/
structure PurchaseData where
  poolId : String
  buyerWallet : String
  quantity : Int
deriving DecidableEq, Repr

/-- What `purchaseTickets` resolves to. -/
structure PurchaseResult where
  transaction : String
  tickets : List Ticket
  totalCost : Rat
  signature : String
deriving DecidableEq, Repr

/-- The helper `generateTicketNumber`: the clock, a dash, and nine characters of the random
digits from position 2 on (`substr(2, 9)`). -/
def generateTicketNumber (env : Env) : Op String := do
  let now ← dateNow env
  let digits ← mathRandom env
  pure (toString now ++ "-" ++ (digits.drop 2).take 9)

/-- The expression `Array.from({ length }, f)`: `f` is run `length` times, in order. -/
def arrayFrom {α : Type} (f : Op α) : Nat → Op (List α)
  | 0 => pure []
  | n + 1 => do
    let x ← f
    let xs ← arrayFrom f n
    pure (x :: xs)

/-- The callback that `purchaseTickets` gives to `Array.from`: one ticket record, with a
generated number, the current time and the signature of the purchase. -/
def newTicket (env : Env) (signature : String) : Op Ticket := do
  let ticketNumber ← generateTicketNumber env
  let purchaseTimestamp ← dateNow env
  pure { ticketNumber := ticketNumber, purchaseTimestamp := purchaseTimestamp,
         transactionSignature := signature }

/-- The method `purchaseTickets`. -/
def purchaseTickets (svc : LotteryService) (env : Env) (purchaseData : PurchaseData) :
    Op PurchaseResult :=
  Op.tryCatch
    (do
      let poolId := purchaseData.poolId
      let buyerWallet := purchaseData.buyerWallet
      let quantity := purchaseData.quantity
      if quantity > svc.maxTicketsPerPurchase then
        Op.throw ("Maximum " ++ toString svc.maxTicketsPerPurchase ++ " tickets per purchase")
      else
        let found ← getUserByWallet env buyerWallet
        let user ← match found with
          | some u => pure u
          | none => createUser env buyerWallet
        let totalCost : Rat := quantity * svc.ticketPrice
        external env (.solanaPurchaseTickets buyerWallet quantity totalCost)
        let receipt := env.purchaseTickets buyerWallet quantity totalCost
        let _dbTransaction ← createTransaction env
          { poolId := poolId, userId := user.id, signature := receipt.signature,
            amount := totalCost, type := "purchase" }
        let tickets ← arrayFrom (newTicket env receipt.signature) quantity.toNat
        let _ ← updatePoolEntry env poolId buyerWallet tickets
        let _ ← updateRealTimeStats env poolId
          [("$inc", .doc [("activeParticipants", 1), ("totalTicketsSold", quantity),
                          ("currentPrizePool", totalCost)])]
        let scheduledFor ← dateNow env
        let _ ← queueNotification env
          { recipient := buyerWallet
            type := "TICKET_PURCHASE"
            content :=
              { title := "Tickets Purchased Successfully"
                body := "You have purchased " ++ toString quantity ++
                  " tickets for the lottery pool"
                poolId := poolId
                quantity := some quantity
                amount := totalCost }
            scheduledFor := scheduledFor }
        pure { transaction := receipt.transaction, tickets := tickets, totalCost := totalCost,
               signature := receipt.signature })
    (fun error => do
      loggerError "Error purchasing tickets:" error
      Op.throw error)

/-- The prize table `[0.7, 0.2, 0.1]`. -/
def prizeShares : List Rat := [7 / 10, 2 / 10, 1 / 10]

/-- The `map` callback of `determineWinners`, from position `index` on: the first ticket
of each entry is read, which throws on an entry without tickets. -/
def mapWinners (prizePool : Rat) : Nat → List PoolEntry → Except String (List Winner)
  | _, [] => .ok []
  | index, entry :: rest =>
    match entry.tickets with
    | [] => .error "TypeError: Cannot read properties of undefined (reading ticketNumber)"
    | ticket :: _ =>
      match mapWinners prizePool (index + 1) rest with
      | .error e => .error e
      | .ok winners =>
        .ok ({ walletAddress := entry.walletAddress
               ticketNumber := ticket.ticketNumber
               prize := prizePool * prizeShares.getD index 0
               transactionSignature := none } :: winners)

/-- The helper `determineWinners`: shuffle, keep the first three, pay by position.  The
winning numbers are an argument and are not read. -/
def determineWinners (shuffle : List PoolEntry → List PoolEntry) (entries : List PoolEntry)
    (_winningNumbers : List Int) (prizePool : Rat) : Except String (List Winner) :=
  mapWinners prizePool 0 ((shuffle entries).take 3)

/-- The expression `Promise.all(ops)`: every operation is started; the first error wins. -/
def promiseAll {α : Type} : List (Op α) → Op (List α)
  | [] => pure []
  | op :: ops => fun w =>
    match op w with
    | (r, w1) =>
      match promiseAll ops w1 with
      | (rs, w2) =>
        match r, rs with
        | .error e, _ => (.error e, w2)
        | .ok _, .error e => (.error e, w2)
        | .ok a, .ok as => (.ok (a :: as), w2)

/-- The draw id of `conductDraw`: the pool id, a dash, the clock in decimal. -/
def drawId (poolId : String) (timestamp : Nat) : String :=
  poolId ++ "-" ++ toString timestamp

/-- What `conductDraw` resolves to. -/
structure DrawResult where
  drawHistory : DrawHistory
  winners : List Winner
  transactions : List PrizeTransaction
deriving DecidableEq, Repr

/-- The `PRIZE_WON` notification that `conductDraw` queues for a winner. -/
def prizeNotification (env : Env) (poolId : String) (winner : Winner) (scheduledFor : Nat) :
    NotificationData :=
  { recipient := winner.walletAddress
    type := "PRIZE_WON"
    content :=
      { title := "Congratulations! You Won!"
        body := "You won " ++ env.numberToString winner.prize ++ " SOL in the lottery draw"
        poolId := poolId
        quantity := none
        amount := winner.prize }
    scheduledFor := scheduledFor }

/-- The callback that `conductDraw` maps over the winners: one `PRIZE_WON` notification,
scheduled for now, to the wallet of the winner. -/
def notifyWinner (env : Env) (poolId : String) (winner : Winner) : Op Notification := do
  let scheduledFor ← dateNow env
  queueNotification env (prizeNotification env poolId winner scheduledFor)

/-- The method `conductDraw`. -/
def conductDraw (env : Env) (poolId : String) : Op DrawResult :=
  Op.tryCatch
    (do
      let found ← getPoolById env poolId
      match found with
      | none => Op.throw "Pool not found"
      | some pool =>
        let entries ← getPoolEntries env poolId
        if entries.length = 0 then
          Op.throw "No participants in the pool"
        else
          external env (.solanaDrawLottery poolId)
          let draw := env.drawLottery poolId
          match determineWinners env.shuffle entries draw.winningNumbers pool.prize_amount with
          | .error e => Op.throw e
          | .ok winners =>
            let stamp ← dateNow env
            let drawTimestamp ← dateNow env
            let drawHistory ← createDrawHistory env
              { drawId := drawId poolId stamp
                poolId := poolId
                drawTimestamp := drawTimestamp
                winningNumbers := draw.winningNumbers
                winners := winners
                drawTransaction := draw.drawTransaction
                totalPrizePool := pool.prize_amount
                participants := entries.length }
            external env (.solanaDistributePrizes winners)
            let prizeTransactions := env.distributePrizes winners
            updatePoolStatus env poolId "completed" (winners.head?.map (fun w => w.walletAddress))
            let _ ← promiseAll (winners.map (notifyWinner env poolId))
            pure { drawHistory := drawHistory, winners := winners,
                   transactions := prizeTransactions })
    (fun error => do
      loggerError "Error conducting draw:" error
      Op.throw error)

/-! ## routes/lotteryRoutes.js -/

/-- The body of `POST /pools`, as far as the handler reads it; an absent field is `none`. -/
structure CreatePoolBody where
  creatorWallet : Option String
  name : Option String
  description : String
  minPlayers : Option Int
  maxPlayers : Option Int
  startTime : Nat
  endTime : Nat
deriving DecidableEq, Repr

/-- The test `!value` on a string field: absent or empty. -/
def falsyString : Option String → Bool
  | none => true
  | some s => s == ""

/-- The test `!value` on a numeric field: absent or zero. -/
def falsyNumber : Option Int → Bool
  | none => true
  | some n => n == 0

/-- The handler of `POST /pools`: the presence check, then `lotteryService.createPool`. -/
def postPools (svc : LotteryService) (env : Env) (body : CreatePoolBody) : Op CreatePoolResult :=
  if falsyString body.creatorWallet || falsyString body.name || falsyNumber body.minPlayers
      || falsyNumber body.maxPlayers then
    Op.throw "Missing required fields"
  else
    createPool svc env
      { creatorWallet := body.creatorWallet.getD ""
        name := body.name.getD ""
        description := body.description
        minPlayers := body.minPlayers.getD 0
        maxPlayers := body.maxPlayers.getD 0
        startTime := body.startTime
        endTime := body.endTime }

/-! ## socket/socketHandlers.js -/

/-- What the connection middleware reads from the handshake. -/
structure Handshake where
  walletAddress : Option String
  userAgent : String
deriving DecidableEq, Repr

/-- The state of one socket: its id and the wallet attached to it, if any. -/
structure Socket where
  id : String
  walletAddress : Option String
deriving DecidableEq, Repr

/-- The connection middleware `io.use(...)`.  The result is the socket as the middleware
leaves it and the argument given to `next`: `none` accepts the connection, an error rejects
it.  An absent or empty wallet address is falsy and skips the whole block. -/
def connectionMiddleware (env : Env) (handshake : Handshake) (socket : Socket) :
    World → (Socket × Option String) × World := fun w =>
  match handshake.walletAddress with
  | none => ((socket, none), w)
  | some walletAddress =>
    if walletAddress == "" then ((socket, none), w)
    else if !env.isValidSolanaAddress walletAddress then
      ((socket, some "Invalid wallet address"), w)
    else
      let attached : Socket := { socket with walletAddress := some walletAddress }
      match logActivity env
          { activityType := "SOCKET_CONNECTED"
            walletAddress := some walletAddress
            poolId := none
            data := [("socketId", socket.id), ("userAgent", handshake.userAgent)] } w with
      | (.ok _, w1) => ((attached, none), w1)
      | (.error e, w1) => ((attached, some e), w1)

/-! ## middleware/errorHandler.js -/

/-- An error object as `errorHandler` reads it; a property that is not set is `none`. -/
structure HttpError where
  message : String
  stack : String
  statusCode : Option Nat
  status : Option String
  isOperational : Bool
deriving DecidableEq, Repr

/-- What `errorHandler` sends: the status code and the keys of the JSON body; a key that is
not sent is `none`. -/
structure HttpResponse where
  statusCode : Nat
  status : String
  message : String
  error : Option HttpError
  stack : Option String
deriving DecidableEq, Repr

/-- The expression `err.status || 'error'`: the empty string is falsy. -/
def orString (value : Option String) (fallback : String) : String :=
  match value with
  | none => fallback
  | some s => if s == "" then fallback else s

/-- The middleware `errorHandler`: the defaults are written into the error, the error is
logged, and the response depends on `NODE_ENV` and on `err.isOperational`. -/
def errorHandler (nodeEnv : Option String) (err : HttpError) : Op HttpResponse := do
  let statusCode := orElse err.statusCode 500
  let status := orString err.status "error"
  let err : HttpError := { err with statusCode := some statusCode, status := some status }
  loggerError "Error:" err.message
  if nodeEnv == some "development" then
    pure { statusCode := statusCode
           status := status
           message := err.message
           error := some err
           stack := some err.stack }
  else if err.isOperational then
    pure { statusCode := statusCode
           status := status
           message := err.message
           error := none
           stack := none }
  else
    pure { statusCode := 500
           status := "error"
           message := "Something went wrong"
           error := none
           stack := none }

/-! ## utils/ErrorHandler.js -/

/-- A run of `retryOperation` seen from outside: the world, the number of times the operation
has been invoked, and the delays waited so far, in milliseconds. -/
structure RetryTrace where
  world : World
  invocations : Nat
  delays : List Nat
deriving DecidableEq, Repr

/-- The loop of `retryOperation` from index `i` on, with `remaining = maxRetries - i`
iterations to go; `lastError` is `none` while it is `undefined`. -/
def retryLoop {α : Type} (operation : Op α) :
    Nat → Nat → Option String → RetryTrace → Except String α × RetryTrace
  | 0, _, lastError, t => (.error (lastError.getD "undefined"), t)
  | remaining + 1, i, _, t =>
    match operation t.world with
    | (.ok result, w1) => (.ok result, { t with world := w1, invocations := t.invocations + 1 })
    | (.error error, w1) =>
      retryLoop operation remaining (i + 1) (some error)
        { world := w1, invocations := t.invocations + 1, delays := t.delays ++ [2 ^ i * 1000] }

/-- The method `ErrorHandler.retryOperation(operation, params, maxRetries)`; `operation` is the
operation already applied to `params`. -/
def retryOperation {α : Type} (operation : Op α) (maxRetries : Nat) (w : World) :
    Except String α × RetryTrace :=
  retryLoop operation maxRetries 0 none { world := w, invocations := 0, delays := [] }

/-! ## services/databaseService.js: getPoolStatistics -/

/-- What `getPoolStatistics` resolves to.  The three relational aggregates of the row are not
part of the model; the result is kept to its `realTimeStats` key. -/
structure PoolStatistics where
  realTimeStats : Option RealTimeStats
deriving DecidableEq, Repr

/-- The query `RealTimeStats.findOne(\x7b poolId \x7d)`. -/
def findRealTimeStats (env : Env) (poolId : String) : Op (Option RealTimeStats) := do
  external env (.findRealTimeStats poolId)
  let w ← getWorld
  pure (w.realTimeStats.find? (fun s => s.poolId == poolId))

/-- The method `getPoolStatistics`: the relational query and the document query are started
together. -/
def getPoolStatistics (env : Env) (poolId : String) : Op PoolStatistics :=
  Op.tryCatch
    (do
      let results ← promiseAll
        [ (do
            executeQuery env (.pgQuery "SELECT pool statistics")
            pure none),
          findRealTimeStats env poolId ]
      pure { realTimeStats := results.getD 1 none })
    (fun error => do
      loggerError "Error getting pool statistics:" error
      Op.throw error)

/-! ## routes/lotteryRoutes.js: POST /purchase -/

/-- The body of `POST /purchase`; an absent field is `none`, and `quantity` is a JSON
integer. -/
structure PurchaseBody where
  poolId : Option String
  walletAddress : Option String
  quantity : Option Int
deriving DecidableEq, Repr

/-- The Number nearest to a natural number: a JavaScript Number keeps 53 significant bits, and
a tie goes to the even one.  It is what a JSON integer is read as; a Number is its own
nearest Number.  (From 2^1024 on the nearest Number is not finite.) -/
def roundToNumber (n : Nat) : Nat :=
  let e := Nat.log 2 n - 52
  let m := n / 2 ^ e
  let r := n % 2 ^ e
  if 2 * r < 2 ^ e ∨ (2 * r = 2 ^ e ∧ m % 2 = 0) then m * 2 ^ e else (m + 1) * 2 ^ e

/-- The first digit of the decimal that JavaScript prints for the Number `x`: the decimal
with the fewest digits that reads back as `x`.  With `k` digits the candidates are the
multiples of a power of ten next to `x`, below and above; `k` runs from the one given, and
17 digits always suffice. -/
def leadingDigitFrom (x : Nat) : Nat → Nat → Nat
  | 0, _ => x / 10 ^ Nat.log 10 x
  | fuel + 1, k =>
    let scale := 10 ^ (Nat.log 10 x + 1 - k)
    let lo := x / scale
    if roundToNumber (lo * scale) = x then lo / 10 ^ (k - 1)
    else if roundToNumber ((lo + 1) * scale) = x then
      (if lo + 1 = 10 ^ k then 1 else (lo + 1) / 10 ^ (k - 1))
    else leadingDigitFrom x fuel (k + 1)

/-- The first digit of the decimal that JavaScript prints for the Number `x`. -/
def leadingDigit (x : Nat) : Nat := leadingDigitFrom x 17 1

/-- The call `parseInt(quantity)` on a JSON integer.  `parseInt` reads the number as JavaScript
prints it.  Below 10^21 in magnitude a Number is printed in plain decimal, and `parseInt` gives
the number back.  From 10^21 on it is printed in exponent notation (`1e+21`, `-3.5e+25`), and
`parseInt` reads the digits before the point or the `e`: the sign and the first digit of the
decimal printed, which is the shortest one that reads back as the same Number (the Number
nearest to 10^23 is 99999999999999991611392 and is printed `1e+23`). -/
def parseInt (quantity : Int) : Int :=
  if roundToNumber quantity.natAbs < 10 ^ 21 then quantity
  else quantity.sign * (leadingDigit (roundToNumber quantity.natAbs) : Nat)

/-- The handler of `POST /purchase`: the presence check, the address check, then
`lotteryService.purchaseTickets`.  A thrown error is what `catchAsync` hands to the error
middleware. -/
def postPurchase (lotteryService : PurchaseData → Op PurchaseResult) (env : Env)
    (body : PurchaseBody) : Op PurchaseResult :=
  if falsyString body.poolId || falsyString body.walletAddress || falsyNumber body.quantity then
    Op.throw "Missing required fields"
  else if !env.isValidSolanaAddress (body.walletAddress.getD "") then
    Op.throw "Invalid wallet address"
  else
    lotteryService
      { poolId := body.poolId.getD ""
        buyerWallet := body.walletAddress.getD ""
        quantity := parseInt (body.quantity.getD 0) }

/-! ## socket/socketHandlers.js: the handlers of a connection -/

/-- Who an event is sent to: one socket, or every socket of a room. -/
inductive Recipient where
  | socket (id : String)
  | room (name : String)
deriving DecidableEq, Repr

/-- The payload of an event sent by the server. -/
inductive Payload where
  | message (message : String)
  | purchaseConfirmation (tickets : List Ticket) (totalCost : Rat) (signature : String)
  | poolUpdate (poolId : String) (stats : PoolStatistics) (timestamp : Option Nat)
  | walletState (tickets : List Ticket)
deriving DecidableEq, Repr

/-- One event sent by the server. -/
structure Emission where
  recipient : Recipient
  event : String
  payload : Payload
deriving DecidableEq, Repr

/-- The realtime hub as one socket sees it: the stores, the socket, the rooms the socket has
joined, the map `userSubscriptions` (socket id to the pool ids subscribed) and the events sent
so far. -/
structure Hub where
  world : World
  socket : Socket
  rooms : List String
  userSubscriptions : List (String × List String)
  emitted : List Emission
deriving DecidableEq, Repr

/-- An asynchronous operation of the hub. -/
def HubOp (α : Type) : Type := Hub → Except String α × Hub

/-- Return a value without touching the hub. -/
def HubOp.pure {α : Type} (a : α) : HubOp α := fun h => (.ok a, h)

/-- Sequencing: the second operation runs only when the first did not throw. -/
def HubOp.bind {α β : Type} (m : HubOp α) (f : α → HubOp β) : HubOp β := fun h =>
  match m h with
  | (.ok a, h1) => f a h1
  | (.error e, h1) => (.error e, h1)

/-- The statement `throw new Error(message)` in a handler. -/
def HubOp.throw {α : Type} (e : String) : HubOp α := fun h => (.error e, h)

/-- The statement `try ... catch (error) ...` in a handler. -/
def HubOp.tryCatch {α : Type} (body : HubOp α) (handler : String → HubOp α) : HubOp α :=
  fun h =>
    match body h with
    | (.ok a, h1) => (.ok a, h1)
    | (.error e, h1) => handler e h1

instance : Monad HubOp where
  pure := HubOp.pure
  bind := HubOp.bind

/-- Run an operation of the service layer on the stores of the hub. -/
def liftOp {α : Type} (op : Op α) : HubOp α := fun h =>
  match op h.world with
  | (r, w1) => (r, { h with world := w1 })

/-- Read the socket. -/
def getSocket : HubOp Socket := fun h => (.ok h.socket, h)

/-- The expression `userSubscriptions.get(id)` spread into an object: the keys subscribed,
none when there is no entry. -/
def subscriptionsOf (userSubscriptions : List (String × List String)) (id : String) :
    List String :=
  (userSubscriptions.lookup id).getD []

/-- The call `userSubscriptions.set(id, value)`. -/
def mapSet (userSubscriptions : List (String × List String)) (id : String)
    (value : List String) : List (String × List String) :=
  if userSubscriptions.any (fun kv => kv.1 == id) then
    userSubscriptions.map (fun kv => if kv.1 == id then (id, value) else kv)
  else userSubscriptions ++ [(id, value)]

/-- The call `userSubscriptions.delete(id)`. -/
def mapDelete (userSubscriptions : List (String × List String)) (id : String) :
    List (String × List String) :=
  userSubscriptions.filter (fun kv => !(kv.1 == id))

/-- Change the hub. -/
def modifyHub (f : Hub → Hub) : HubOp Unit := fun h => (.ok (), f h)

/-- The statement `userSubscriptions.set(id, \x7b ...userSubscriptions.get(id), [poolId]: true \x7d)`. -/
def subscribe (id poolId : String) (h : Hub) : Hub :=
  let current := subscriptionsOf h.userSubscriptions id
  let value := if poolId ∈ current then current else current ++ [poolId]
  { h with userSubscriptions := mapSet h.userSubscriptions id value }

/-- The statement `socket.walletAddress = walletAddress`. -/
def attachWallet (walletAddress : String) (h : Hub) : Hub :=
  { h with socket := { h.socket with walletAddress := some walletAddress } }

/-- The statement `userSubscriptions.delete(id)`. -/
def unsubscribe (id : String) (h : Hub) : Hub :=
  { h with userSubscriptions := mapDelete h.userSubscriptions id }

/-- The call `socket.emit(event, payload)`. -/
def socketEmit (event : String) (payload : Payload) : HubOp Unit := fun h =>
  (.ok (), { h with emitted := h.emitted ++
    [{ recipient := .socket h.socket.id, event := event, payload := payload }] })

/-- The call `io.to(room).emit(event, payload)`. -/
def roomEmit (room event : String) (payload : Payload) : HubOp Unit := fun h =>
  (.ok (), { h with emitted := h.emitted ++
    [{ recipient := .room room, event := event, payload := payload }] })

/-- The call `socket.join(room)`. -/
def socketJoin (room : String) : HubOp Unit := fun h =>
  (.ok (), { h with rooms := if room ∈ h.rooms then h.rooms else h.rooms ++ [room] })

/-- The function `handleSocketError` of `middleware/errorHandler.js`: the error is logged and
an `error` event is sent to the socket, with the message of the error in development mode
only. -/
def handleSocketError (nodeEnv : Option String) (err : String) : HubOp Unit := do
  liftOp (loggerError "Socket Error:" err)
  socketEmit "error"
    (.message (if nodeEnv == some "development" then err else "Something went wrong"))

/-- The helper `broadcastPoolUpdate`: the statistics of the pool are sent to its room; an
error is logged and goes no further. -/
def broadcastPoolUpdate (env : Env) (poolId : String) : HubOp Unit :=
  HubOp.tryCatch
    (do
      let poolStats ← liftOp (getPoolStatistics env poolId)
      let timestamp ← liftOp (dateNow env)
      roomEmit ("pool_" ++ poolId) "pool_update" (.poolUpdate poolId poolStats (some timestamp)))
    (fun error => liftOp (loggerError "Error broadcasting pool update:" error))

/-- The handler of `subscribe_pool`. -/
def subscribe_pool (env : Env) (nodeEnv : Option String) (poolId : String) : HubOp Unit :=
  HubOp.tryCatch
    (do
      socketJoin ("pool_" ++ poolId)
      let socket ← getSocket
      if !falsyString socket.walletAddress then
        modifyHub (subscribe socket.id poolId)
        let _ ← liftOp (logActivity env
          { activityType := "POOL_SUBSCRIBED"
            walletAddress := socket.walletAddress
            poolId := some poolId
            data := [("socketId", socket.id)] })
      let poolStats ← liftOp (getPoolStatistics env poolId)
      socketEmit "pool_update" (.poolUpdate poolId poolStats none))
    (fun error => handleSocketError nodeEnv error)

/-- The `data` of a `purchase_tickets` event, as far as the handler reads it. -/
structure PurchaseRequest where
  poolId : String
  quantity : Int
deriving DecidableEq, Repr

/-- The handler of `purchase_tickets`; `data` is `none` when the event carries no data, and
destructuring it throws.  `broadcastPoolUpdate` is not awaited and catches its own errors. -/
def purchase_tickets (lotteryService : PurchaseData → Op PurchaseResult) (env : Env)
    (nodeEnv : Option String) (data : Option PurchaseRequest) : HubOp Unit :=
  HubOp.tryCatch
    (do
      match data with
      | none =>
        HubOp.throw "TypeError: Cannot destructure property poolId of data as it is undefined."
      | some request =>
        let socket ← getSocket
        if falsyString socket.walletAddress then
          HubOp.throw "Wallet not connected"
        else
          let result ← liftOp (lotteryService
            { poolId := request.poolId
              buyerWallet := socket.walletAddress.getD ""
              quantity := request.quantity })
          socketEmit "purchase_confirmation"
            (.purchaseConfirmation result.tickets result.totalCost result.signature)
          broadcastPoolUpdate env request.poolId)
    (fun error => do
      handleSocketError nodeEnv error
      socketEmit "purchase_error" (.message error))

/-- The handler of `wallet_connected`.  `databaseService.getUserTickets` is called by the
handler and is not defined in `databaseService.js`; it is an argument here. -/
def wallet_connected (getUserTickets : String → Op (List Ticket)) (env : Env)
    (nodeEnv : Option String) (walletAddress : String) : HubOp Unit :=
  HubOp.tryCatch
    (do
      if !env.isValidSolanaAddress walletAddress then
        HubOp.throw "Invalid wallet address"
      else
        modifyHub (attachWallet walletAddress)
        let socket ← getSocket
        let _ ← liftOp (logActivity env
          { activityType := "WALLET_CONNECTED"
            walletAddress := some walletAddress
            poolId := none
            data := [("socketId", socket.id)] })
        let userTickets ← liftOp (getUserTickets walletAddress)
        socketEmit "wallet_state" (.walletState userTickets))
    (fun error => handleSocketError nodeEnv error)

/-- The handler of `disconnect`. -/
def disconnect (env : Env) : HubOp Unit :=
  HubOp.tryCatch
    (do
      let socket ← getSocket
      if !falsyString socket.walletAddress then
        let _ ← liftOp (logActivity env
          { activityType := "SOCKET_DISCONNECTED"
            walletAddress := socket.walletAddress
            poolId := none
            data := [("socketId", socket.id)] })
      modifyHub (unsubscribe socket.id))
    (fun error => liftOp (loggerError "Error handling disconnect:" error))

/-- An event on the socket: the handshake of the connection middleware, or one of the events
the socket handles. -/
inductive SocketEvent where
  | handshake (handshake : Handshake)
  | wallet_connected (walletAddress : String)
  | subscribe_pool (poolId : String)
  | purchase_tickets (data : Option PurchaseRequest)
  | disconnect
deriving DecidableEq, Repr

/-- The hub after one event. -/
def handleEvent (lotteryService : PurchaseData → Op PurchaseResult)
    (getUserTickets : String → Op (List Ticket)) (env : Env) (nodeEnv : Option String)
    (event : SocketEvent) (hub : Hub) : Hub :=
  match event with
  | .handshake handshake =>
    match connectionMiddleware env handshake hub.socket hub.world with
    | ((socket, _), w1) => { hub with socket := socket, world := w1 }
  | .wallet_connected walletAddress =>
    (wallet_connected getUserTickets env nodeEnv walletAddress hub).2
  | .subscribe_pool poolId => (subscribe_pool env nodeEnv poolId hub).2
  | .purchase_tickets data => (purchase_tickets lotteryService env nodeEnv data hub).2
  | .disconnect => (disconnect env hub).2

/-- The hub after a sequence of events. -/
def handleEvents (lotteryService : PurchaseData → Op PurchaseResult)
    (getUserTickets : String → Op (List Ticket)) (env : Env) (nodeEnv : Option String)
    (events : List SocketEvent) (hub : Hub) : Hub :=
  events.foldl (fun h event => handleEvent lotteryService getUserTickets env nodeEnv event h) hub

/-! ## services/lotteryService.js: purchases in flight

`purchaseTickets` is an `async` function: between two of its `await`s other requests run.  A
purchase in flight is cut at its `await`s; one step runs the code up to and including the next
awaited call to the ledger or to a store, each such call being atomic. -/

/-- Where a purchase in flight stands: the awaited call it makes next, with the local
variables that the rest of the function reads, or its outcome when it has returned. -/
inductive PurchaseStage where
  | start
  | createUser
  | ledger (user : User)
  | transaction (user : User)
  | poolEntry
  | aggregate (tickets : List Ticket)
  | notification (tickets : List Ticket)
  | done (result : Except String PurchaseResult)

/-- A purchase in flight: the request and where it stands. -/
structure InFlight where
  data : PurchaseData
  stage : PurchaseStage

/-- A request that has just arrived. -/
def InFlight.start (purchaseData : PurchaseData) : InFlight :=
  { data := purchaseData, stage := .start }

/-- The body of `purchaseTickets` from one `await` to the next: the stage reached. -/
def advance (svc : LotteryService) (env : Env) (t : InFlight) : Op PurchaseStage :=
  let poolId := t.data.poolId
  let buyerWallet := t.data.buyerWallet
  let quantity := t.data.quantity
  let totalCost : Rat := quantity * svc.ticketPrice
  let receipt := env.purchaseTickets buyerWallet quantity totalCost
  match t.stage with
  | .start =>
    if quantity > svc.maxTicketsPerPurchase then
      Op.throw ("Maximum " ++ toString svc.maxTicketsPerPurchase ++ " tickets per purchase")
    else do
      let found ← getUserByWallet env buyerWallet
      match found with
      | some u => pure (.ledger u)
      | none => pure .createUser
  | .createUser => do
    let user ← createUser env buyerWallet
    pure (.ledger user)
  | .ledger user => do
    external env (.solanaPurchaseTickets buyerWallet quantity totalCost)
    pure (.transaction user)
  | .transaction user => do
    let _dbTransaction ← createTransaction env
      { poolId := poolId, userId := user.id, signature := receipt.signature,
        amount := totalCost, type := "purchase" }
    pure .poolEntry
  | .poolEntry => do
    let tickets ← arrayFrom (newTicket env receipt.signature) quantity.toNat
    let _ ← updatePoolEntry env poolId buyerWallet tickets
    pure (.aggregate tickets)
  | .aggregate tickets => do
    let _ ← updateRealTimeStats env poolId
      [("$inc", .doc [("activeParticipants", 1), ("totalTicketsSold", quantity),
                      ("currentPrizePool", totalCost)])]
    pure (.notification tickets)
  | .notification tickets => do
    let scheduledFor ← dateNow env
    let _ ← queueNotification env
      { recipient := buyerWallet
        type := "TICKET_PURCHASE"
        content :=
          { title := "Tickets Purchased Successfully"
            body := "You have purchased " ++ toString quantity ++
              " tickets for the lottery pool"
            poolId := poolId
            quantity := some quantity
            amount := totalCost }
        scheduledFor := scheduledFor }
    pure (.done (.ok { transaction := receipt.transaction, tickets := tickets,
                       totalCost := totalCost, signature := receipt.signature }))
  | .done result => pure (.done result)

/-- One step of a purchase in flight: `advance`, and on an error the `catch` block of
`purchaseTickets`, which logs the error and rejects. -/
def purchaseStep (svc : LotteryService) (env : Env) (t : InFlight) (w : World) :
    InFlight × World :=
  match t.stage with
  | .done _ => (t, w)
  | _ =>
    match advance svc env t w with
    | (.ok stage, w1) => ({ t with stage := stage }, w1)
    | (.error error, w1) =>
      ({ t with stage := .done (.error error) },
       (loggerError "Error purchasing tickets:" error w1).2)

/-- One step of the `i`-th of the purchases in flight. -/
def stepAt (svc : LotteryService) (env : Env) :
    Nat → List InFlight → World → List InFlight × World
  | _, [], w => ([], w)
  | 0, t :: ts, w => ((purchaseStep svc env t w).1 :: ts, (purchaseStep svc env t w).2)
  | i + 1, t :: ts, w => (t :: (stepAt svc env i ts w).1, (stepAt svc env i ts w).2)

/-- An interleaving of purchases in flight: the schedule names, step after step, the purchase
that runs its next step. -/
def interleave (svc : LotteryService) (env : Env) :
    List Nat → List InFlight → World → List InFlight × World
  | [], ts, w => (ts, w)
  | i :: schedule, ts, w =>
    interleave svc env schedule (stepAt svc env i ts w).1 (stepAt svc env i ts w).2

/-! ## Observations on a world -/

/-- The number of tickets recorded for a pool: the tickets of all its pool entries. -/
def ticketsRecorded (w : World) (poolId : String) : Nat :=
  ((w.poolEntries.filter (fun e => e.poolId == poolId)).map (fun e => e.tickets.length)).sum

/-- The pool entry of a wallet in a pool, if there is one. -/
def findPoolEntry (w : World) (poolId walletAddress : String) : Option PoolEntry :=
  w.poolEntries.find? (fun e => e.poolId == poolId && e.walletAddress == walletAddress)

/-- The aggregate row of a pool, if there is one. -/
def findStats (w : World) (poolId : String) : Option RealTimeStats :=
  w.realTimeStats.find? (fun s => s.poolId == poolId)

/-- A world with nothing in it. -/
def World.empty : World :=
  { pg := { users := [], pools := [], transactions := [] }
    poolEntries := [], realTimeStats := [], notifications := [], drawHistory := []
    activityLog := [], calls := [], logs := [], tick := 0 }

/-- An environment in which no external call fails; the ledger signs every purchase
`sig`, draws `[7]`, and the shuffle leaves the order as it is. -/
def Env.quiet : Env :=
  { failure := fun _ _ => none
    purchaseTickets := fun _ _ _ => { transaction := "tx", signature := "sig" }
    createLotteryPool := fun _ _ _ _ => { poolAddress := "addr", transaction := "tx" }
    isValidSolanaAddress := fun a => !(a == "" || a == "bad")
    drawLottery := fun _ =>
      { winningNumbers := [7], drawTransaction := { signature := "draw", blockTime := 0, slot := 0 } }
    distributePrizes := fun ws => ws.map (fun w => { winner := w.walletAddress, txRef := "prize" })
    shuffle := fun l => l
    dateNow := fun n => 1000 + n
    mathRandom := fun _ => "0.abcdefghijk"
    numberToString := fun _ => "" }

/-- The sum of the prizes of a winner list. -/
def totalPrize (winners : List Winner) : Rat := (winners.map (fun w => w.prize)).sum

/-- A pool entry of wallet `a` in pool `p` holding the one ticket `t`. -/
def PoolEntry.single (p a t : String) : PoolEntry :=
  { poolId := p, walletAddress := a
    tickets := [{ ticketNumber := t, purchaseTimestamp := 0, transactionSignature := "sig" }]
    totalTickets := 1, joinedAt := 0, lastUpdated := 0 }

/-- A pool row with id `p`, the given status, capacity 2 and a recorded prize of 100. -/
def Pool.sample (p status : String) : Pool :=
  { id := p, pool_address := "addr", creator_id := 1, name := "pool", description := ""
    ticket_price := 1 / 10, min_players := 1, max_players := 2, start_time := 0, end_time := 0
    status := status, prize_amount := 100, winner := none }

/-- A world with the pool `p` in the given status and nothing else. -/
def World.withPool (status : String) : World :=
  { World.empty with pg := { users := [], pools := [Pool.sample "p" status], transactions := [] } }

/-- A world with the pool `p` in the given status and one entry, of wallet `A`. -/
def World.withEntry (status : String) : World :=
  { World.withPool status with poolEntries := [PoolEntry.single "p" "A" "t1"] }

/-- The service as constructed with nothing set in the process environment. -/
def LotteryService.default : LotteryService := LotteryService.constructor none none none

/-- The tickets made by `n` rounds of `newTicket` started at clock read `tick`: each round
reads the clock, the random digits and the clock again. -/
def ticketsFrom (env : Env) (signature : String) : Nat → Nat → List Ticket
  | _, 0 => []
  | tick, n + 1 =>
    { ticketNumber := toString (env.dateNow tick) ++ "-" ++
        ((env.mathRandom (tick + 1)).drop 2).take 9
      purchaseTimestamp := env.dateNow (tick + 2)
      transactionSignature := signature } :: ticketsFrom env signature (tick + 3) n

/-- The signature the ledger gives to a purchase. -/
def purchaseSignature (svc : LotteryService) (env : Env) (d : PurchaseData) : String :=
  (env.purchaseTickets d.buyerWallet d.quantity (d.quantity * svc.ticketPrice)).signature

/-- The `transactions` row that a purchase started in world `w` inserts. -/
def purchaseRow (svc : LotteryService) (env : Env) (d : PurchaseData) (w : World) :
    TransactionRow :=
  { id := w.pg.transactions.length + 1
    pool_id := d.poolId
    user_id := match w.pg.users.find? (fun u => u.wallet_address == d.buyerWallet) with
      | some u => u.id
      | none => w.pg.users.length + 1
    signature := purchaseSignature svc env d
    amount := d.quantity * svc.ticketPrice
    type := "purchase"
    status := "pending"
    confirmed_at := none }

/-- The tickets that a purchase started in world `w` generates. -/
def purchaseTicketList (svc : LotteryService) (env : Env) (d : PurchaseData) (w : World) :
    List Ticket :=
  ticketsFrom env (purchaseSignature svc env d) w.tick d.quantity.toNat

/-- The pool entries after the pool entry step of a purchase started in world `w`. -/
def purchaseEntries (svc : LotteryService) (env : Env) (d : PurchaseData) (w : World) :
    List PoolEntry :=
  (pushTickets d.poolId d.buyerWallet (purchaseTicketList svc env d w)
    (env.dateNow (w.tick + 3 * d.quantity.toNat)) w.poolEntries).1

/-- The aggregate rows after the aggregate step of a purchase started in world `w`. -/
def purchaseStats (svc : LotteryService) (env : Env) (d : PurchaseData) (w : World) :
    List RealTimeStats :=
  (setStats d.poolId
    [("$inc", .doc [("activeParticipants", 1), ("totalTicketsSold", d.quantity),
                    ("currentPrizePool", d.quantity * svc.ticketPrice)])]
    (env.dateNow (w.tick + 3 * d.quantity.toNat + 1)) w.realTimeStats).1

/-- The notification that a purchase started in world `w` queues. -/
def purchaseNotification (svc : LotteryService) (env : Env) (d : PurchaseData) (w : World) :
    Notification :=
  { recipient := d.buyerWallet
    type := "TICKET_PURCHASE"
    status := "pending"
    content :=
      { title := "Tickets Purchased Successfully"
        body := "You have purchased " ++ toString d.quantity ++ " tickets for the lottery pool"
        poolId := d.poolId
        quantity := some d.quantity
        amount := d.quantity * svc.ticketPrice }
    scheduledFor := env.dateNow (w.tick + 3 * d.quantity.toNat + 2)
    attempts := 0 }

/-- Purchase requests carried out strictly one after another; the world after the last. -/
def purchaseAll (svc : LotteryService) (env : Env) : List PurchaseData → World → World
  | [], w => w
  | d :: ds, w => purchaseAll svc env ds (purchaseTickets svc env d w).2

/-- The outcome of running `m` in world `w` satisfies `Q`. -/
def Op.wp {α : Type} (m : Op α) (w : World) (Q : Except String α → World → Prop) : Prop :=
  Q (m w).1 (m w).2

/-- The DrawHistory that a draw started in world `w` persists, for a pool row and a winner list. -/
def drawRecord (env : Env) (poolId : String) (w : World) (pool : Pool) (winners : List Winner) :
    DrawHistory :=
  { drawId := drawId poolId (env.dateNow w.tick)
    poolId := poolId
    drawTimestamp := env.dateNow (w.tick + 1)
    winningNumbers := (env.drawLottery poolId).winningNumbers
    winners := winners
    drawTransaction := (env.drawLottery poolId).drawTransaction
    totalPrizePool := pool.prize_amount
    participants := (w.poolEntries.filter (fun e => e.poolId == poolId)).length }

/-- A world with an aggregate row for pool `p`: 2 participants, 5 tickets sold, prize pool 1/2. -/
def World.withStats : World :=
  { World.empty with realTimeStats :=
      [{ poolId := "p", activeParticipants := 2, totalTicketsSold := 5, currentPrizePool := 1 / 2,
         lastUpdated := 0 }] }

/-- The quiet environment, except that the ledger refuses every purchase. -/
def Env.ledgerDown : Env :=
  { Env.quiet with failure := fun _ c =>
      match c with
      | .solanaPurchaseTickets _ _ _ => some "ledger unavailable"
      | _ => none }

/-- The quiet environment, except that every pool entry update fails. -/
def Env.entriesDown : Env :=
  { Env.quiet with failure := fun _ c =>
      match c with
      | .updatePoolEntry _ _ _ => some "document store unavailable"
      | _ => none }

/-- The number written by a list of decimal digit characters, most significant first. -/
def decimalValue (cs : List Char) : Nat :=
  cs.foldl (fun acc c => 10 * acc + (c.toNat - 48)) 0

/-- The quiet environment with a clock that stands still: every read gives 1000. -/
def Env.frozen : Env := { Env.quiet with dateNow := fun _ => 1000 }

/-- The pool row that `createPool` started in world `w` inserts. -/
def createdPool (svc : LotteryService) (env : Env) (poolData : PoolData) (w : World) : Pool :=
  { id := toString (w.pg.pools.length + 1)
    pool_address := (env.createLotteryPool poolData.creatorWallet svc.ticketPrice
      poolData.minPlayers poolData.maxPlayers).poolAddress
    creator_id := match w.pg.users.find? (fun u => u.wallet_address == poolData.creatorWallet) with
      | some u => u.id
      | none => w.pg.users.length + 1
    name := poolData.name
    description := poolData.description
    ticket_price := svc.ticketPrice
    min_players := poolData.minPlayers
    max_players := poolData.maxPlayers
    start_time := poolData.startTime
    end_time := poolData.endTime
    status := "pending"
    prize_amount := 0
    winner := none }

/-- A request to create a pool with more minimum than maximum players. -/
def PoolData.inverted : PoolData :=
  { creatorWallet := "A", name := "pool", description := "", minPlayers := 5, maxPlayers := 2,
    startTime := 0, endTime := 1 }

/-- The quiet environment, except that the ledger refuses to create pools. -/
def Env.poolLedgerDown : Env :=
  { Env.quiet with failure := fun _ c =>
      match c with
      | .solanaCreateLotteryPool _ _ _ _ => some "ledger unavailable"
      | _ => none }

/-- The pool row that `createLotteryPool` started in world `w` inserts. -/
def insertedPool (poolData : LotteryPoolData) (w : World) : Pool :=
  { id := toString (w.pg.pools.length + 1)
    pool_address := poolData.poolAddress
    creator_id := poolData.creatorId
    name := poolData.name
    description := poolData.description
    ticket_price := poolData.ticketPrice
    min_players := poolData.minPlayers
    max_players := poolData.maxPlayers
    start_time := poolData.startTime
    end_time := poolData.endTime
    status := "pending"
    prize_amount := 0
    winner := none }

/-- The aggregate row that `createLotteryPool` started in world `w` creates. -/
def insertedStats (env : Env) (w : World) : RealTimeStats :=
  { poolId := toString (w.pg.pools.length + 1), currentPrizePool := 0, activeParticipants := 0,
    totalTicketsSold := 0, lastUpdated := env.dateNow w.tick }

/-- Sample data for one pool. -/
def LotteryPoolData.sample : LotteryPoolData :=
  { poolAddress := "addr", creatorId := 1, name := "pool", description := "",
    ticketPrice := 1 / 10, minPlayers := 2, maxPlayers := 10, startTime := 0, endTime := 1 }

/-- The quiet environment, except that every `COMMIT` fails. -/
def Env.commitDown : Env :=
  { Env.quiet with failure := fun _ c =>
      match c with
      | .pgQuery "COMMIT" => some "commit failed"
      | _ => none }

/-- A world with two transaction rows: `s1` has failed, `s2` was confirmed at time 5. -/
def World.withTransactions : World :=
  { World.empty with pg :=
      { users := [], pools := []
        transactions :=
          [{ id := 1, pool_id := "p", user_id := 1, signature := "s1", amount := 1 / 10,
             type := "purchase", status := "failed", confirmed_at := none },
           { id := 2, pool_id := "p", user_id := 1, signature := "s2", amount := 1 / 10,
             type := "purchase", status := "confirmed", confirmed_at := some 5 }] } }

/-- The quiet environment, except that every write to the activity log fails. -/
def Env.activityLogDown : Env :=
  { Env.quiet with failure := fun _ c =>
      match c with
      | .logActivity _ => some "document store unavailable"
      | _ => none }

/-- The quiet environment, except that `ROLLBACK` fails. -/
def Env.rollbackDown : Env :=
  { Env.quiet with failure := fun _ c =>
      match c with
      | .pgQuery "ROLLBACK" => some "rollback failed"
      | _ => none }

/-- The world after `k` invocations of the operation in a row, starting in `w`, and the error
of the last one, provided each of them fails. -/
def failedRuns {α : Type} (operation : Op α) : Nat → World → Option String →
    Option (World × Option String)
  | 0, w, lastError => some (w, lastError)
  | k + 1, w, _ =>
    match operation w with
    | (.ok _, _) => none
    | (.error e, w1) => failedRuns operation k w1 (some e)

/-- An operation that fails on its first two invocations and succeeds from the third on (it
counts its invocations in the clock). -/
def flaky : Op Nat := fun w =>
  if w.tick < 2 then (.error "timeout", { w with tick := w.tick + 1 })
  else (.ok 42, { w with tick := w.tick + 1 })

/-- A hub with empty stores and one socket `s`, with the given wallet attached. -/
def Hub.sample (walletAddress : Option String) : Hub :=
  { world := World.empty
    socket := { id := "s", walletAddress := walletAddress }
    rooms := [], userSubscriptions := [], emitted := [] }

/-- The quiet environment, except that the activity `SOCKET_DISCONNECTED` cannot be logged. -/
def Env.disconnectLogDown : Env :=
  { Env.quiet with failure := fun _ c =>
      match c with
      | .logActivity activityData =>
        if activityData.activityType == "SOCKET_DISCONNECTED" then
          some "document store unavailable"
        else none
      | _ => none }

/-- An operation of the hub that leaves the socket as it is. -/
def HubOp.keepsSocket {α : Type} (m : HubOp α) : Prop := ∀ h, (m h).2.socket = h.socket

/-- The steps of `purchaseTickets` that call the ledger or write a store, in the order in
which they run. -/
inductive PurchaseStep where
  | ledger
  | transaction
  | poolEntry
  | aggregate
  | notification
deriving DecidableEq, Repr

/-- The call with which a step reaches the ledger or its store; for the transaction step it
is the `INSERT` statement. -/
def PurchaseStep.issues : PurchaseStep → Call → Bool
  | .ledger, .solanaPurchaseTickets _ _ _ => true
  | .transaction, .pgQuery text => text == "INSERT INTO transactions"
  | .poolEntry, .updatePoolEntry _ _ _ => true
  | .aggregate, .updateRealTimeStats _ _ => true
  | .notification, .queueNotification _ => true
  | _, _ => false

/-- The number of store writes of a purchase (transaction row, pool entry, aggregate,
notification) that come before a step. -/
def PurchaseStep.completed : PurchaseStep → Nat
  | .ledger => 0
  | .transaction => 0
  | .poolEntry => 1
  | .aggregate => 2
  | .notification => 3

/-- The `users` table after the user step of a purchase started in world `w`: the buyer is
added when no row has the wallet. -/
def purchaseUsers (d : PurchaseData) (w : World) : List User :=
  match w.pg.users.find? (fun u => u.wallet_address == d.buyerWallet) with
  | some _ => w.pg.users
  | none => w.pg.users ++ [{ id := w.pg.users.length + 1, wallet_address := d.buyerWallet }]

/-- The quiet environment, except that every aggregate update fails. -/
def Env.statsDown : Env :=
  { Env.quiet with failure := fun _ c =>
      match c with
      | .updateRealTimeStats _ _ => some "document store unavailable"
      | _ => none }

/-- The schedule that runs `n` purchases strictly one after another: seven steps of the
first, then seven steps of the second, and so on (a purchase has at most seven steps). -/
def oneAfterAnother : Nat → List Nat
  | 0 => []
  | n + 1 => List.replicate 7 0 ++ (oneAfterAnother n).map (fun i => i + 1)

/-- The position of a stage in the sequence of steps of a purchase. -/
def PurchaseStage.rank : PurchaseStage → Nat
  | .start => 0
  | .createUser => 1
  | .ledger _ => 2
  | .transaction _ => 3
  | .poolEntry => 4
  | .aggregate _ => 5
  | .notification _ => 6
  | .done _ => 7

/-- The tickets that a purchase in flight has still to record for pool `p`: its quantity, as
long as it is within the ceiling and has not made its pool entry update. -/
def InFlight.owed (svc : LotteryService) (p : String) (t : InFlight) : Nat :=
  if t.data.poolId = p ∧ t.data.quantity ≤ svc.maxTicketsPerPurchase ∧ t.stage.rank ≤ 4 then
    t.data.quantity.toNat
  else 0

/-- What holds of a purchase in flight that began at `start`: past the first step its
quantity is within the ceiling, and the tickets it carries are as many as its quantity. -/
def InFlight.sound (svc : LotteryService) (t : InFlight) : Prop :=
  match t.stage with
  | .start => True
  | .createUser => t.data.quantity ≤ svc.maxTicketsPerPurchase
  | .ledger _ => t.data.quantity ≤ svc.maxTicketsPerPurchase
  | .transaction _ => t.data.quantity ≤ svc.maxTicketsPerPurchase
  | .poolEntry => t.data.quantity ≤ svc.maxTicketsPerPurchase
  | .aggregate tickets =>
    t.data.quantity ≤ svc.maxTicketsPerPurchase ∧ tickets.length = t.data.quantity.toNat
  | .notification tickets =>
    t.data.quantity ≤ svc.maxTicketsPerPurchase ∧ tickets.length = t.data.quantity.toNat
  | .done (.ok result) =>
    t.data.quantity ≤ svc.maxTicketsPerPurchase ∧
      result.tickets.length = t.data.quantity.toNat
  | .done (.error _) => True

/-- A purchase in flight that has not been rejected, unless its quantity is above the
ceiling. -/
def InFlight.accepted (svc : LotteryService) (t : InFlight) : Prop :=
  match t.stage with
  | .done (.error _) => t.data.quantity > svc.maxTicketsPerPurchase
  | _ => True

/-! ## Reasoning about operations -/

theorem Op.bind_run {α β : Type} (m : Op α) (f : α → Op β) (w : World) :
    (m >>= f) w = match m w with
      | (.ok a, w1) => f a w1
      | (.error e, w1) => (.error e, w1) := rfl

theorem Op.pure_run {α : Type} (a : α) (w : World) : (Pure.pure a : Op α) w = (.ok a, w) := rfl

theorem Op.wp_pure {α : Type} (a : α) (w : World) (Q : Except String α → World → Prop) :
    Op.wp (Pure.pure a) w Q ↔ Q (.ok a) w := Iff.rfl

theorem Op.wp_throw {α : Type} (e : String) (w : World) (Q : Except String α → World → Prop) :
    Op.wp (Op.throw e) w Q ↔ Q (.error e) w := Iff.rfl

theorem Op.wp_bind {α β : Type} (m : Op α) (f : α → Op β) (w : World)
    (Q : Except String β → World → Prop) :
    Op.wp (m >>= f) w Q ↔
      Op.wp m w (fun r w1 => match r with
        | .ok a => Op.wp (f a) w1 Q
        | .error e => Q (.error e) w1) := by
  unfold Op.wp
  rw [Op.bind_run]
  rcases m w with ⟨_ | _, w1⟩ <;> rfl

theorem Op.wp_tryCatch {α : Type} (body : Op α) (handler : String → Op α) (w : World)
    (Q : Except String α → World → Prop) :
    Op.wp (Op.tryCatch body handler) w Q ↔
      Op.wp body w (fun r w1 => match r with
        | .ok a => Q (.ok a) w1
        | .error e => Op.wp (handler e) w1 Q) := by
  unfold Op.wp Op.tryCatch
  rcases body w with ⟨_ | _, w1⟩ <;> rfl

theorem Op.wp_tryFinally {α : Type} (body : Op α) (finaliser : Op Unit) (w : World)
    (Q : Except String α → World → Prop) :
    Op.wp (Op.tryFinally body finaliser) w Q ↔
      Op.wp body w (fun r w1 => Op.wp finaliser w1 (fun r2 w2 => match r2 with
        | .ok _ => Q r w2
        | .error e => Q (.error e) w2)) := by
  unfold Op.wp Op.tryFinally
  rcases body w with ⟨r, w1⟩
  simp only []
  rcases finaliser w1 with ⟨_ | _, w2⟩ <;> rfl

theorem Op.wp_external (env : Env) (c : Call) (w : World)
    (Q : Except String Unit → World → Prop) :
    Op.wp (external env c) w Q ↔
      match env.failure w c with
      | some e => Q (.error e) { w with calls := w.calls ++ [c] }
      | none => Q (.ok ()) { w with calls := w.calls ++ [c] } := by
  unfold Op.wp external
  cases env.failure w c <;> rfl

theorem Op.wp_loggerError (message error : String) (w : World)
    (Q : Except String Unit → World → Prop) :
    Op.wp (loggerError message error) w Q ↔
      Q (.ok ()) { w with logs := w.logs ++ [message ++ " " ++ error] } := Iff.rfl

theorem Op.wp_getWorld (w : World) (Q : Except String World → World → Prop) :
    Op.wp getWorld w Q ↔ Q (.ok w) w := Iff.rfl

theorem Op.wp_modifyWorld (f : World → World) (w : World)
    (Q : Except String Unit → World → Prop) :
    Op.wp (modifyWorld f) w Q ↔ Q (.ok ()) (f w) := Iff.rfl

theorem Op.wp_record (c : Call) (w : World) (Q : Except String Unit → World → Prop) :
    Op.wp (record c) w Q ↔ Q (.ok ()) { w with calls := w.calls ++ [c] } := Iff.rfl

theorem Op.wp_dateNow (env : Env) (w : World) (Q : Except String Nat → World → Prop) :
    Op.wp (dateNow env) w Q ↔ Q (.ok (env.dateNow w.tick)) { w with tick := w.tick + 1 } :=
  Iff.rfl

/-! ### One rule per store operation

Each rule says what the operation leaves behind when it fails (`herr`) and when it succeeds
(`hok`): the calls it appended, the lines it logged, and the change to the stores. -/

theorem wp_getUserByWallet (env : Env) (a : String) (w : World)
    (Q : Except String (Option User) → World → Prop)
    (herr : ∀ e ls, Q (.error e)
      { w with calls := w.calls ++ [.getUserByWallet a], logs := w.logs ++ ls })
    (hok : Q (.ok (w.pg.users.find? (fun u => u.wallet_address == a)))
      { w with calls := w.calls ++ [.getUserByWallet a] }) :
    Op.wp (getUserByWallet env a) w Q := by
  simp only [getUserByWallet, executeQuery, Op.wp_tryCatch, Op.wp_bind, Op.wp_external,
    Op.wp_loggerError, Op.wp_throw, Op.wp_getWorld, Op.wp_pure]
  cases env.failure w (.getUserByWallet a) with
  | none => exact hok
  | some e => simpa using herr e _

theorem wp_createUser (env : Env) (a : String) (w : World)
    (Q : Except String User → World → Prop)
    (herr : ∀ e ls, Q (.error e)
      { w with calls := w.calls ++ [.createUser a], logs := w.logs ++ ls })
    (hok : Q (.ok { id := w.pg.users.length + 1, wallet_address := a })
      { w with
        pg := { w.pg with users := w.pg.users ++
          [{ id := w.pg.users.length + 1, wallet_address := a }] }
        calls := w.calls ++ [.createUser a] }) :
    Op.wp (createUser env a) w Q := by
  simp only [createUser, executeQuery, Op.wp_tryCatch, Op.wp_bind, Op.wp_external,
    Op.wp_loggerError, Op.wp_throw, Op.wp_getWorld, Op.wp_pure, Op.wp_modifyWorld]
  cases env.failure w (.createUser a) with
  | none => exact hok
  | some e => simpa using herr e _

theorem wp_createTransaction (env : Env) (t : TransactionData) (w : World)
    (Q : Except String TransactionRow → World → Prop)
    (herr : ∀ e cs ls, Q (.error e) { w with calls := w.calls ++ cs, logs := w.logs ++ ls })
    (hok : ∀ cs, Q (.ok
        { id := w.pg.transactions.length + 1, pool_id := t.poolId, user_id := t.userId,
          signature := t.signature, amount := t.amount, type := t.type, status := "pending",
          confirmed_at := none })
      { w with
        pg := { w.pg with transactions := w.pg.transactions ++
          [{ id := w.pg.transactions.length + 1, pool_id := t.poolId, user_id := t.userId,
             signature := t.signature, amount := t.amount, type := t.type, status := "pending",
             confirmed_at := none }] }
        calls := w.calls ++ cs }) :
    Op.wp (createTransaction env t) w Q := by
  simp only [createTransaction, withTransaction, Op.wp_tryCatch, Op.wp_tryFinally, Op.wp_bind,
    Op.wp_external, Op.wp_loggerError, Op.wp_throw, Op.wp_getWorld, Op.wp_pure,
    Op.wp_modifyWorld, Op.wp_record]
  repeat' (first
    | (generalize env.failure _ _ = o
       cases o <;> simp only [])
    | (simpa using herr _ _ _)
    | (simpa using hok _))

theorem wp_updatePoolEntry (env : Env) (poolId a : String) (tickets : List Ticket) (w : World)
    (Q : Except String PoolEntry → World → Prop)
    (herr : ∀ e ls, Q (.error e)
      { w with calls := w.calls ++ [.updatePoolEntry poolId a tickets], logs := w.logs ++ ls,
               tick := w.tick + 1 })
    (hok : Q (.ok (pushTickets poolId a tickets (env.dateNow w.tick) w.poolEntries).2)
      { w with
        poolEntries := (pushTickets poolId a tickets (env.dateNow w.tick) w.poolEntries).1
        calls := w.calls ++ [.updatePoolEntry poolId a tickets]
        tick := w.tick + 1 }) :
    Op.wp (updatePoolEntry env poolId a tickets) w Q := by
  simp only [updatePoolEntry, Op.wp_tryCatch, Op.wp_bind, Op.wp_external, Op.wp_dateNow,
    Op.wp_loggerError, Op.wp_throw, Op.wp_getWorld, Op.wp_pure, Op.wp_modifyWorld]
  generalize env.failure _ _ = o
  cases o with
  | none => exact hok
  | some e => simpa using herr e _

theorem wp_updateRealTimeStats (env : Env) (poolId : String) (u : UpdateData) (w : World)
    (Q : Except String RealTimeStats → World → Prop)
    (herr : ∀ e ls, Q (.error e)
      { w with calls := w.calls ++ [.updateRealTimeStats poolId u], logs := w.logs ++ ls,
               tick := w.tick + 1 })
    (hok : Q (.ok (setStats poolId u (env.dateNow w.tick) w.realTimeStats).2)
      { w with
        realTimeStats := (setStats poolId u (env.dateNow w.tick) w.realTimeStats).1
        calls := w.calls ++ [.updateRealTimeStats poolId u]
        tick := w.tick + 1 }) :
    Op.wp (updateRealTimeStats env poolId u) w Q := by
  simp only [updateRealTimeStats, Op.wp_tryCatch, Op.wp_bind, Op.wp_external, Op.wp_dateNow,
    Op.wp_loggerError, Op.wp_throw, Op.wp_getWorld, Op.wp_pure, Op.wp_modifyWorld]
  generalize env.failure _ _ = o
  cases o with
  | none => exact hok
  | some e => simpa using herr e _

theorem wp_queueNotification (env : Env) (n : NotificationData) (w : World)
    (Q : Except String Notification → World → Prop)
    (herr : ∀ e ls, Q (.error e)
      { w with calls := w.calls ++ [.queueNotification n], logs := w.logs ++ ls })
    (hok : Q (.ok n.toDocument)
      { w with
        notifications := w.notifications ++ [n.toDocument]
        calls := w.calls ++ [.queueNotification n] }) :
    Op.wp (queueNotification env n) w Q := by
  simp only [queueNotification, Op.wp_tryCatch, Op.wp_bind, Op.wp_external,
    Op.wp_loggerError, Op.wp_throw, Op.wp_getWorld, Op.wp_pure, Op.wp_modifyWorld]
  cases env.failure w (.queueNotification n) with
  | none => exact hok
  | some e => simpa using herr e _

theorem ticketsFrom_length (env : Env) (signature : String) (tick n : Nat) :
    (ticketsFrom env signature tick n).length = n := by
  induction n generalizing tick with
  | zero => rfl
  | succ n ih => simp [ticketsFrom, ih]

theorem newTicket_run (env : Env) (signature : String) (w : World) :
    newTicket env signature w =
      (.ok { ticketNumber := toString (env.dateNow w.tick) ++ "-" ++
               ((env.mathRandom (w.tick + 1)).drop 2).take 9
             purchaseTimestamp := env.dateNow (w.tick + 2)
             transactionSignature := signature },
       { w with tick := w.tick + 3 }) := by
  simp [newTicket, generateTicketNumber, dateNow, mathRandom, Op.bind_run, Op.pure_run]

theorem arrayFrom_newTicket (env : Env) (signature : String) (n : Nat) (w : World) :
    arrayFrom (newTicket env signature) n w
      = (.ok (ticketsFrom env signature w.tick n), { w with tick := w.tick + 3 * n }) := by
  induction n generalizing w with
  | zero => simp [arrayFrom, ticketsFrom, Op.pure_run]
  | succ n ih =>
    simp only [arrayFrom, Op.bind_run, Op.pure_run, newTicket_run, ih, ticketsFrom]
    simp only [Prod.mk.injEq, Except.ok.injEq, true_and, World.mk.injEq, and_true]
    omega

theorem wp_arrayFrom_newTicket (env : Env) (signature : String) (n : Nat) (w : World)
    (Q : Except String (List Ticket) → World → Prop) :
    Op.wp (arrayFrom (newTicket env signature) n) w Q ↔
      Q (.ok (ticketsFrom env signature w.tick n)) { w with tick := w.tick + 3 * n } := by
  unfold Op.wp
  rw [arrayFrom_newTicket]

/-! ## purchaseTickets -/

set_option maxHeartbeats 1000000 in
/-- How far a purchase gets.  Its stores are those of the start with the writes of the first
`stage` steps applied, in the order transaction row, pool entry, aggregate, notification; the
purchase succeeds exactly when all four are applied. -/
theorem purchaseTickets_wp_progress (svc : LotteryService) (env : Env) (d : PurchaseData)
    (w : World) :
    Op.wp (purchaseTickets svc env d) w (fun r w1 =>
      ∃ stage : Nat, stage ≤ 4 ∧
        w1.pg.transactions =
          (if 1 ≤ stage then w.pg.transactions ++ [purchaseRow svc env d w]
           else w.pg.transactions) ∧
        w1.poolEntries = (if 2 ≤ stage then purchaseEntries svc env d w else w.poolEntries) ∧
        w1.realTimeStats = (if 3 ≤ stage then purchaseStats svc env d w else w.realTimeStats) ∧
        w1.notifications =
          (if 4 ≤ stage then w.notifications ++ [purchaseNotification svc env d w]
           else w.notifications) ∧
        (1 ≤ stage → d.quantity ≤ svc.maxTicketsPerPurchase) ∧
        (stage = 4 ↔ r = .ok
          { transaction := (env.purchaseTickets d.buyerWallet d.quantity
              (d.quantity * svc.ticketPrice)).transaction
            tickets := purchaseTicketList svc env d w
            totalCost := d.quantity * svc.ticketPrice
            signature := purchaseSignature svc env d })) := by
  unfold purchaseTickets
  simp only [purchaseRow, purchaseEntries, purchaseStats, purchaseNotification,
    purchaseTicketList, purchaseSignature]
  generalize hfound : List.find? (fun u => u.wallet_address == d.buyerWallet) w.pg.users = found
  generalize hQ : (fun (r : Except String PurchaseResult) (w1 : World) => ∃ stage : Nat, _) = Q
  rw [Op.wp_tryCatch]
  by_cases hq : d.quantity > svc.maxTicketsPerPurchase
  · simp only [hq, if_true, Op.wp_throw, Op.wp_bind, Op.wp_loggerError]
    rw [← hQ]
    exact ⟨0, by simp⟩
  · have hq2 : d.quantity ≤ svc.maxTicketsPerPurchase := by omega
    simp only [hq, if_false, Op.wp_bind]
    apply wp_getUserByWallet
    · intro e ls
      simp only [Op.wp_loggerError, Op.wp_throw, Op.wp_bind]
      rw [← hQ]
      exact ⟨0, by simp⟩
    · rw [hfound]
      cases found with
      | some u =>
        simp only [Op.wp_pure]
        simp only [Op.wp_bind, Op.wp_pure, Op.wp_external]
        generalize env.failure _ _ = o
        cases o with
        | some e =>
          simp only [Op.wp_loggerError, Op.wp_throw]
          rw [← hQ]
          exact ⟨0, by simp⟩
        | none =>
          simp only []
          apply wp_createTransaction
          · intro e cs ls
            simp only [Op.wp_loggerError, Op.wp_throw]
            rw [← hQ]
            exact ⟨0, by simp⟩
          · intro cs
            simp only [wp_arrayFrom_newTicket]
            apply wp_updatePoolEntry
            · intro e ls
              simp only [Op.wp_loggerError, Op.wp_throw]
              rw [← hQ]
              exact ⟨1, by simp [hq2]⟩
            · simp only []
              apply wp_updateRealTimeStats
              · intro e ls
                simp only [Op.wp_loggerError, Op.wp_throw]
                rw [← hQ]
                exact ⟨2, by simp [hq2]⟩
              · simp only [Op.wp_dateNow]
                apply wp_queueNotification
                · intro e ls
                  simp only [Op.wp_loggerError, Op.wp_throw]
                  rw [← hQ]
                  exact ⟨3, by simp [hq2]⟩
                · simp only [Op.wp_pure]
                  rw [← hQ]
                  exact ⟨4, by simp [hq2, Nat.add_assoc, NotificationData.toDocument]⟩
      | none =>
        simp only [Op.wp_bind]
        apply wp_createUser
        · intro e ls
          simp only [Op.wp_loggerError, Op.wp_throw, Op.wp_bind]
          rw [← hQ]
          exact ⟨0, by simp⟩
        · simp only []
          simp only [Op.wp_bind, Op.wp_pure, Op.wp_external]
          generalize env.failure _ _ = o
          cases o with
          | some e =>
            simp only [Op.wp_loggerError, Op.wp_throw]
            rw [← hQ]
            exact ⟨0, by simp⟩
          | none =>
            simp only []
            apply wp_createTransaction
            · intro e cs ls
              simp only [Op.wp_loggerError, Op.wp_throw]
              rw [← hQ]
              exact ⟨0, by simp⟩
            · intro cs
              simp only [wp_arrayFrom_newTicket]
              apply wp_updatePoolEntry
              · intro e ls
                simp only [Op.wp_loggerError, Op.wp_throw]
                rw [← hQ]
                exact ⟨1, by simp [hq2]⟩
              · simp only []
                apply wp_updateRealTimeStats
                · intro e ls
                  simp only [Op.wp_loggerError, Op.wp_throw]
                  rw [← hQ]
                  exact ⟨2, by simp [hq2]⟩
                · simp only [Op.wp_dateNow]
                  apply wp_queueNotification
                  · intro e ls
                    simp only [Op.wp_loggerError, Op.wp_throw]
                    rw [← hQ]
                    exact ⟨3, by simp [hq2]⟩
                  · simp only [Op.wp_pure]
                    rw [← hQ]
                    exact ⟨4, by simp [hq2, Nat.add_assoc, NotificationData.toDocument]⟩

theorem purchaseTickets_progress (svc : LotteryService) (env : Env) (d : PurchaseData)
    (w : World) :
    ∃ stage : Nat, stage ≤ 4 ∧
      (purchaseTickets svc env d w).2.pg.transactions =
        (if 1 ≤ stage then w.pg.transactions ++ [purchaseRow svc env d w]
         else w.pg.transactions) ∧
      (purchaseTickets svc env d w).2.poolEntries =
        (if 2 ≤ stage then purchaseEntries svc env d w else w.poolEntries) ∧
      (purchaseTickets svc env d w).2.realTimeStats =
        (if 3 ≤ stage then purchaseStats svc env d w else w.realTimeStats) ∧
      (purchaseTickets svc env d w).2.notifications =
        (if 4 ≤ stage then w.notifications ++ [purchaseNotification svc env d w]
         else w.notifications) ∧
      (1 ≤ stage → d.quantity ≤ svc.maxTicketsPerPurchase) ∧
      (stage = 4 ↔ (purchaseTickets svc env d w).1 = .ok
        { transaction := (env.purchaseTickets d.buyerWallet d.quantity
            (d.quantity * svc.ticketPrice)).transaction
          tickets := purchaseTicketList svc env d w
          totalCost := d.quantity * svc.ticketPrice
          signature := purchaseSignature svc env d }) :=
  purchaseTickets_wp_progress svc env d w

theorem purchaseTickets_reject_run (svc : LotteryService) (env : Env) (d : PurchaseData)
    (w : World) (h : d.quantity > svc.maxTicketsPerPurchase) :
    purchaseTickets svc env d w =
      (.error ("Maximum " ++ toString svc.maxTicketsPerPurchase ++ " tickets per purchase"),
       { w with logs := w.logs ++ ["Error purchasing tickets:" ++ " " ++
          ("Maximum " ++ toString svc.maxTicketsPerPurchase ++ " tickets per purchase")] }) := by
  simp [purchaseTickets, Op.tryCatch, h, Op.throw, loggerError, Op.bind_run]

/-- C1: a purchase whose quantity is above `maxTicketsPerPurchase` fails with the ceiling message,
and the world it leaves is the one it started in with one more log line: no call was issued
(no user lookup or creation, no ledger call) and no store was written. -/
theorem purchaseTickets_rejects_above_ceiling (svc : LotteryService) (env : Env)
    (d : PurchaseData) (w : World) (h : d.quantity > svc.maxTicketsPerPurchase) :
    purchaseTickets svc env d w =
      (.error ("Maximum " ++ toString svc.maxTicketsPerPurchase ++ " tickets per purchase"),
       { w with logs := w.logs ++ ["Error purchasing tickets:" ++ " " ++
          ("Maximum " ++ toString svc.maxTicketsPerPurchase ++ " tickets per purchase")] }) :=
  purchaseTickets_reject_run svc env d w h

theorem default_ceiling : LotteryService.default.maxTicketsPerPurchase = 100 := by
  simp [LotteryService.default, LotteryService.constructor, orElse]

theorem default_price : LotteryService.default.ticketPrice = 1 / 10 := by
  simp [LotteryService.default, LotteryService.constructor, orElse]

theorem purchaseTickets_rejects_above_ceiling_witness :
    (101 : Int) > LotteryService.default.maxTicketsPerPurchase ∧
    purchaseTickets LotteryService.default Env.quiet
        { poolId := "p", buyerWallet := "A", quantity := 101 } World.empty =
      (.error ("Maximum " ++ toString LotteryService.default.maxTicketsPerPurchase ++
          " tickets per purchase"),
       { World.empty with logs := World.empty.logs ++ ["Error purchasing tickets:" ++ " " ++
          ("Maximum " ++ toString LotteryService.default.maxTicketsPerPurchase ++
            " tickets per purchase")] }) :=
  ⟨by simp [default_ceiling],
   purchaseTickets_rejects_above_ceiling _ _ _ _ (by simp [default_ceiling])⟩

/-- When no external call fails, a purchase within the ceiling succeeds and the ledger has been
asked for it. -/
theorem purchaseTickets_quiet (svc : LotteryService) (env : Env) (d : PurchaseData) (w : World)
    (hquiet : ∀ w0 c, env.failure w0 c = none)
    (hq : d.quantity ≤ svc.maxTicketsPerPurchase) :
    Op.wp (purchaseTickets svc env d) w (fun r w1 =>
      r = .ok
        { transaction := (env.purchaseTickets d.buyerWallet d.quantity
            (d.quantity * svc.ticketPrice)).transaction
          tickets := purchaseTicketList svc env d w
          totalCost := d.quantity * svc.ticketPrice
          signature := purchaseSignature svc env d } ∧
      Call.solanaPurchaseTickets d.buyerWallet d.quantity (d.quantity * svc.ticketPrice)
        ∈ w1.calls) := by
  have hq2 : ¬ d.quantity > svc.maxTicketsPerPurchase := by omega
  simp only [purchaseTickets, getUserByWallet, createUser, executeQuery, createTransaction,
    withTransaction, updatePoolEntry, updateRealTimeStats, queueNotification,
    Op.wp_tryCatch, Op.wp_tryFinally, Op.wp_bind, Op.wp_pure, Op.wp_throw, Op.wp_external,
    Op.wp_loggerError, Op.wp_getWorld, Op.wp_modifyWorld, Op.wp_record, Op.wp_dateNow,
    wp_arrayFrom_newTicket, hquiet, hq2, if_false, purchaseTicketList, purchaseSignature]
  cases List.find? (fun u => u.wallet_address == d.buyerWallet) w.pg.users <;>
  simp [Op.wp_bind, Op.wp_pure, Op.wp_external,
    Op.wp_tryCatch, Op.wp_tryFinally, Op.wp_throw,
    Op.wp_loggerError, Op.wp_getWorld, Op.wp_modifyWorld, Op.wp_record, Op.wp_dateNow,
    wp_arrayFrom_newTicket, hquiet]

/-- C2 (the code at the failing input): a purchase of quantity -1 through the default service,
with no external call failing, is not rejected: it succeeds with no tickets and a total cost of
-1/10, after the ledger was asked to sell -1 tickets, and it leaves a user row and a
transaction row behind. -/
theorem purchaseTickets_accepts_negative_quantity :
    (purchaseTickets LotteryService.default Env.quiet
        { poolId := "p", buyerWallet := "A", quantity := -1 } World.empty).1 =
      .ok { transaction := "tx", tickets := [], totalCost := -1 / 10, signature := "sig" } ∧
    Call.solanaPurchaseTickets "A" (-1) (-1 / 10) ∈
      (purchaseTickets LotteryService.default Env.quiet
        { poolId := "p", buyerWallet := "A", quantity := -1 } World.empty).2.calls ∧
    (purchaseTickets LotteryService.default Env.quiet
        { poolId := "p", buyerWallet := "A", quantity := -1 } World.empty).2.pg.transactions =
      [{ id := 1, pool_id := "p", user_id := 1, signature := "sig", amount := -1 / 10,
         type := "purchase", status := "pending", confirmed_at := none }] := by
  have hq : (-1 : Int) ≤ LotteryService.default.maxTicketsPerPurchase := by
    simp [default_ceiling]
  have h := purchaseTickets_quiet LotteryService.default Env.quiet
    { poolId := "p", buyerWallet := "A", quantity := -1 } World.empty (fun _ _ => rfl) hq
  obtain ⟨stage, -, htx, -, -, -, -, hs⟩ := purchaseTickets_progress LotteryService.default
    Env.quiet { poolId := "p", buyerWallet := "A", quantity := -1 } World.empty
  unfold Op.wp at h
  have h4 : stage = 4 := hs.2 h.1
  subst h4
  refine ⟨?_, ?_, ?_⟩
  · rw [h.1]
    simp [purchaseTicketList, purchaseSignature, ticketsFrom, default_price, Env.quiet]
    norm_num
  · have h2 := h.2
    norm_num [default_price] at h2 ⊢
    exact h2
  · rw [htx]
    simp [purchaseRow, purchaseSignature, World.empty, default_price, Env.quiet]
    norm_num

theorem mapWinners_cases (P : Rat) (l : List PoolEntry) (hl : l.length ≤ 3)
    (ht : ∀ e ∈ l, e.tickets ≠ []) :
    ∃ ws, mapWinners P 0 l = .ok ws ∧ ws.length = l.length ∧
      ws.map (fun w => w.prize) = (prizeShares.take l.length).map (fun s => P * s) ∧
      ws.map (fun w => w.walletAddress) = l.map (fun e => e.walletAddress) := by
  match l, hl, ht with
  | [], _, _ => exact ⟨[], by simp [mapWinners, prizeShares]⟩
  | [a], _, ht =>
    obtain ⟨ta, ra, ha⟩ := List.exists_cons_of_ne_nil (ht a (by simp))
    simp [mapWinners, prizeShares, ha]
  | [a, b], _, ht =>
    obtain ⟨ta, ra, ha⟩ := List.exists_cons_of_ne_nil (ht a (by simp))
    obtain ⟨tb, rb, hb⟩ := List.exists_cons_of_ne_nil (ht b (by simp))
    simp [mapWinners, prizeShares, ha, hb]
  | [a, b, c], _, ht =>
    obtain ⟨ta, ra, ha⟩ := List.exists_cons_of_ne_nil (ht a (by simp))
    obtain ⟨tb, rb, hb⟩ := List.exists_cons_of_ne_nil (ht b (by simp))
    obtain ⟨tc, rc, hc⟩ := List.exists_cons_of_ne_nil (ht c (by simp))
    simp [mapWinners, prizeShares, ha, hb, hc]
  | _ :: _ :: _ :: _ :: _, hl, _ => simp at hl

/-- C3 (counterexample): with exactly one entry and a prize pool of 100 there is one winner and
the prize is 70, so the prizes do not sum to the prize pool. -/
theorem determineWinners_single_entry_pays_seventy :
    determineWinners (fun l => l) [PoolEntry.single "p" "A" "t1"] [7] 100 =
      .ok [{ walletAddress := "A", ticketNumber := "t1", prize := 70,
             transactionSignature := none }] ∧
    totalPrize [{ walletAddress := "A", ticketNumber := "t1", prize := 70,
                  transactionSignature := none }] ≠ 100 := by
  constructor
  · simp [determineWinners, mapWinners, PoolEntry.single, prizeShares]
    norm_num
  · simp [totalPrize]

/-- C3 (amended): for entries that each hold a ticket, `determineWinners` returns winners whose
prizes sum to 70%, 90% and 100% of the prize pool for one, two and at least three entries; with
exactly one entry there is exactly one winner. -/
theorem determineWinners_prize_total (shuffle : List PoolEntry → List PoolEntry)
    (entries : List PoolEntry) (winningNumbers : List Int) (P : Rat)
    (hperm : (shuffle entries).Perm entries) (ht : ∀ e ∈ entries, e.tickets ≠ []) :
    ∃ ws, determineWinners shuffle entries winningNumbers P = .ok ws ∧
      (entries.length = 1 → ws.length = 1 ∧ totalPrize ws = 7 / 10 * P) ∧
      (entries.length = 2 → ws.length = 2 ∧ totalPrize ws = 9 / 10 * P) ∧
      (3 ≤ entries.length → ws.length = 3 ∧ totalPrize ws = P) := by
  have hlen : (shuffle entries).length = entries.length := hperm.length_eq
  obtain ⟨ws, hws, hl, hp, -⟩ := mapWinners_cases P ((shuffle entries).take 3)
    (by simp) (fun e he => ht e (hperm.subset (List.mem_of_mem_take he)))
  refine ⟨ws, hws, ?_, ?_, ?_⟩
  · intro h1
    simp [hlen, h1] at hl hp
    refine ⟨hl, ?_⟩
    simp [totalPrize, hp, prizeShares]
    ring
  · intro h2
    simp [hlen, h2] at hl hp
    refine ⟨hl, ?_⟩
    simp [totalPrize, hp, prizeShares]
    ring
  · intro h3
    have : min 3 entries.length = 3 := by omega
    simp [hlen, this] at hl hp
    refine ⟨hl, ?_⟩
    simp [totalPrize, hp, prizeShares]
    ring

theorem determineWinners_prize_total_witness :
    ∃ ws, determineWinners (fun l => l)
        [PoolEntry.single "p" "A" "t1", PoolEntry.single "p" "B" "t2",
         PoolEntry.single "p" "C" "t3"] [7] 100 = .ok ws ∧
      (([PoolEntry.single "p" "A" "t1", PoolEntry.single "p" "B" "t2",
         PoolEntry.single "p" "C" "t3"] : List PoolEntry).length = 1 →
        ws.length = 1 ∧ totalPrize ws = 7 / 10 * 100) ∧
      (([PoolEntry.single "p" "A" "t1", PoolEntry.single "p" "B" "t2",
         PoolEntry.single "p" "C" "t3"] : List PoolEntry).length = 2 →
        ws.length = 2 ∧ totalPrize ws = 9 / 10 * 100) ∧
      (3 ≤ ([PoolEntry.single "p" "A" "t1", PoolEntry.single "p" "B" "t2",
         PoolEntry.single "p" "C" "t3"] : List PoolEntry).length →
        ws.length = 3 ∧ totalPrize ws = 100) :=
  determineWinners_prize_total (fun l => l) _ [7] 100 (List.Perm.refl _)
    (by simp [PoolEntry.single])

/-- C4: a draw on a pool without pool entries fails and has no effect: no store changes, the
only calls are the two reads (pool row, pool entries), so the ledger draw is not requested, no
DrawHistory is created, nothing is distributed, no status is updated and nothing is queued;
when the two reads succeed the error is `No participants in the pool`. -/
theorem conductDraw_refuses_empty_pool (env : Env) (poolId : String) (w : World) (pool : Pool)
    (hpool : w.pg.pools.find? (fun p => p.id == poolId) = some pool)
    (hempty : w.poolEntries.filter (fun e => e.poolId == poolId) = []) :
    (∃ e, (conductDraw env poolId w).1 = .error e) ∧
    (conductDraw env poolId w).2.pg = w.pg ∧
    (conductDraw env poolId w).2.poolEntries = w.poolEntries ∧
    (conductDraw env poolId w).2.realTimeStats = w.realTimeStats ∧
    (conductDraw env poolId w).2.notifications = w.notifications ∧
    (conductDraw env poolId w).2.drawHistory = w.drawHistory ∧
    (∀ c ∈ (conductDraw env poolId w).2.calls,
      c ∈ w.calls ∨ c = .getPoolById poolId ∨ c = .getPoolEntries poolId) ∧
    ((∀ w0 c, env.failure w0 c = none) →
      (conductDraw env poolId w).1 = .error "No participants in the pool") := by
  have key : Op.wp (conductDraw env poolId) w (fun r w1 =>
      (∃ e, r = .error e) ∧ w1.pg = w.pg ∧ w1.poolEntries = w.poolEntries ∧
      w1.realTimeStats = w.realTimeStats ∧ w1.notifications = w.notifications ∧
      w1.drawHistory = w.drawHistory ∧
      (∀ c ∈ w1.calls, c ∈ w.calls ∨ c = .getPoolById poolId ∨ c = .getPoolEntries poolId) ∧
      ((∀ w0 c, env.failure w0 c = none) → r = .error "No participants in the pool")) := by
    simp only [conductDraw, getPoolById, Op.wp_tryCatch, Op.wp_bind,
      Op.wp_external, Op.wp_getWorld, Op.wp_pure]
    cases h1 : env.failure w (.getPoolById poolId) with
    | some e =>
      simp only [Op.wp_loggerError, Op.wp_throw]
      refine ⟨⟨e, rfl⟩, ?_⟩
      simp only [true_and]
      refine ⟨?_, ?_⟩
      · intro c hc
        simp at hc
        tauto
      · intro hq
        simp [hq] at h1
    | none =>
      simp only [hpool, getPoolEntries, Op.wp_bind, Op.wp_external, Op.wp_getWorld, Op.wp_pure]
      generalize h2 : env.failure _ (.getPoolEntries poolId) = o
      cases o with
      | some e =>
        simp only [Op.wp_loggerError, Op.wp_throw]
        refine ⟨⟨e, rfl⟩, ?_⟩
        simp only [true_and]
        refine ⟨?_, ?_⟩
        · intro c hc
          simp at hc
          tauto
        · intro hq
          simp [hq] at h2
      | none =>
        simp only [hempty, List.length_nil, if_true, Op.wp_loggerError, Op.wp_throw]
        refine ⟨⟨_, rfl⟩, ?_⟩
        simp only [true_and, implies_true, and_true]
        intro c hc
        simp at hc
        tauto
  exact key

theorem conductDraw_refuses_empty_pool_witness :
    (∃ e, (conductDraw Env.quiet "p" (World.withPool "active")).1 = .error e) ∧
    (conductDraw Env.quiet "p" (World.withPool "active")).2.pg = (World.withPool "active").pg ∧
    (conductDraw Env.quiet "p" (World.withPool "active")).2.poolEntries =
      (World.withPool "active").poolEntries ∧
    (conductDraw Env.quiet "p" (World.withPool "active")).2.realTimeStats =
      (World.withPool "active").realTimeStats ∧
    (conductDraw Env.quiet "p" (World.withPool "active")).2.notifications =
      (World.withPool "active").notifications ∧
    (conductDraw Env.quiet "p" (World.withPool "active")).2.drawHistory =
      (World.withPool "active").drawHistory ∧
    (∀ c ∈ (conductDraw Env.quiet "p" (World.withPool "active")).2.calls,
      c ∈ (World.withPool "active").calls ∨ c = .getPoolById "p" ∨ c = .getPoolEntries "p") ∧
    ((∀ w0 c, Env.quiet.failure w0 c = none) →
      (conductDraw Env.quiet "p" (World.withPool "active")).1 =
        .error "No participants in the pool") :=
  conductDraw_refuses_empty_pool Env.quiet "p" (World.withPool "active")
    (Pool.sample "p" "active")
    (by simp [World.withPool, World.empty, Pool.sample])
    (by simp [World.withPool, World.empty])

theorem Op.wp_promiseAll_nil {α : Type} (w : World) (Q : Except String (List α) → World → Prop) :
    Op.wp (promiseAll ([] : List (Op α))) w Q ↔ Q (.ok []) w := Iff.rfl

theorem Op.wp_promiseAll_cons {α : Type} (op : Op α) (ops : List (Op α)) (w : World)
    (Q : Except String (List α) → World → Prop) :
    Op.wp (promiseAll (op :: ops)) w Q ↔
      Op.wp op w (fun r w1 => Op.wp (promiseAll ops) w1 (fun rs w2 =>
        Q (match r, rs with
          | .error e, _ => .error e
          | .ok _, .error e => .error e
          | .ok a, .ok as => .ok (a :: as)) w2)) := by
  unfold Op.wp
  simp only [promiseAll]
  rcases op w with ⟨r, w1⟩
  simp only []
  rcases promiseAll ops w1 with ⟨rs, w2⟩
  cases r <;> cases rs <;> rfl

/-- What `Promise.all(winners.map(...))` of `conductDraw` leaves behind: only notifications,
calls to the notification queue, log lines and clock reads are added; the notifications are
`PRIZE_WON` notifications to winners, one per winner in order when it succeeds; and it succeeds
when no external call fails. -/
theorem wp_notifyWinners (env : Env) (poolId : String) (winners : List Winner) (w : World)
    (Q : Except String (List Notification) → World → Prop)
    (h : ∀ (r : Except String (List Notification)) (ns : List Notification) (cs : List Call)
        (ls : List String) (k : Nat),
      (∀ c ∈ cs, ∃ n, c = Call.queueNotification n) →
      (∀ n ∈ ns, n.type = "PRIZE_WON" ∧ n.status = "pending") →
      ((∃ rs, r = .ok rs) →
        ns.map (fun n => n.recipient) = winners.map (fun x => x.walletAddress)) →
      ((∀ w0 c, env.failure w0 c = none) → ∃ rs, r = .ok rs) →
      Q r { w with notifications := w.notifications ++ ns, calls := w.calls ++ cs,
                   logs := w.logs ++ ls, tick := w.tick + k }) :
    Op.wp (promiseAll (winners.map (notifyWinner env poolId))) w Q := by
  induction winners generalizing w Q with
  | nil =>
    simp only [List.map_nil, Op.wp_promiseAll_nil]
    simpa using h (.ok []) [] [] [] 0 (by simp) (by simp) (by simp) (fun _ => ⟨_, rfl⟩)
  | cons x xs ih =>
    simp only [List.map_cons, Op.wp_promiseAll_cons, notifyWinner, queueNotification,
      Op.wp_bind, Op.wp_dateNow, Op.wp_tryCatch, Op.wp_external, Op.wp_modifyWorld, Op.wp_pure,
      Op.wp_loggerError, Op.wp_throw]
    generalize ho : env.failure _ _ = o
    cases o with
    | some e =>
      simp only []
      apply ih
      intro r ns cs ls k hcs hns hrec hq
      have := h (.error e) ns
        (Call.queueNotification (prizeNotification env poolId x (env.dateNow w.tick)) :: cs)
        (("Error queueing notification:" ++ " " ++ e) :: ls) (1 + k)
        (by
          intro c hc
          simp only [List.mem_cons] at hc
          rcases hc with rfl | hc
          · exact ⟨_, rfl⟩
          · exact hcs c hc)
        hns (by simp) (by intro hq'; simp [hq'] at ho)
      simpa [Nat.add_assoc] using this
    | none =>
      simp only []
      apply ih
      intro r ns cs ls k hcs hns hrec hq
      have := h
        (match r with
          | .ok as => .ok ((prizeNotification env poolId x (env.dateNow w.tick)).toDocument :: as)
          | .error e => .error e)
        ((prizeNotification env poolId x (env.dateNow w.tick)).toDocument :: ns)
        (Call.queueNotification (prizeNotification env poolId x (env.dateNow w.tick)) :: cs)
        ls (1 + k)
        (by
          intro c hc
          simp only [List.mem_cons] at hc
          rcases hc with rfl | hc
          · exact ⟨_, rfl⟩
          · exact hcs c hc)
        (by
          intro n hn
          simp only [List.mem_cons] at hn
          rcases hn with rfl | hn
          · exact ⟨rfl, rfl⟩
          · exact hns n hn)
        (by
          intro hok
          cases r with
          | error e => simp at hok
          | ok as =>
            simpa [prizeNotification, NotificationData.toDocument] using hrec ⟨_, rfl⟩)
        (by
          intro hq'
          obtain ⟨rs, hrs⟩ := hq hq'
          subst hrs
          exact ⟨_, rfl⟩)
      cases r <;> simpa [Nat.add_assoc] using this

set_option maxHeartbeats 1000000 in
/-- What a draw leaves behind when it succeeds, and that it succeeds when no external call
fails, the pool exists, it has entries and `determineWinners` returns. -/
theorem conductDraw_wp (env : Env) (poolId : String) (w : World) :
    Op.wp (conductDraw env poolId) w (fun r w1 =>
      (∀ res, r = .ok res → ∃ pool,
        w.pg.pools.find? (fun p => p.id == poolId) = some pool ∧
        w.poolEntries.filter (fun e => e.poolId == poolId) ≠ [] ∧
        determineWinners env.shuffle (w.poolEntries.filter (fun e => e.poolId == poolId))
          (env.drawLottery poolId).winningNumbers pool.prize_amount = .ok res.winners ∧
        res.drawHistory = drawRecord env poolId w pool res.winners ∧
        res.transactions = env.distributePrizes res.winners ∧
        w1.drawHistory = w.drawHistory ++ [res.drawHistory] ∧
        Call.solanaDrawLottery poolId ∈ w1.calls ∧
        Call.solanaDistributePrizes res.winners ∈ w1.calls ∧
        (∃ ns, w1.notifications = w.notifications ++ ns ∧
          ns.map (fun n => n.recipient) = res.winners.map (fun x => x.walletAddress) ∧
          ∀ n ∈ ns, n.type = "PRIZE_WON" ∧ n.status = "pending") ∧
        w1.pg.pools = w.pg.pools.map (fun p =>
          if p.id == poolId then
            { p with status := "completed",
                     winner := res.winners.head?.map (fun x => x.walletAddress) }
          else p)) ∧
      ((∀ w0 c, env.failure w0 c = none) → ∀ pool ws,
        w.pg.pools.find? (fun p => p.id == poolId) = some pool →
        w.poolEntries.filter (fun e => e.poolId == poolId) ≠ [] →
        determineWinners env.shuffle (w.poolEntries.filter (fun e => e.poolId == poolId))
          (env.drawLottery poolId).winningNumbers pool.prize_amount = .ok ws →
        r = .ok { drawHistory := drawRecord env poolId w pool ws, winners := ws,
                  transactions := env.distributePrizes ws })) := by
  simp only [conductDraw, getPoolById, Op.wp_tryCatch, Op.wp_bind,
    Op.wp_external, Op.wp_getWorld, Op.wp_pure]
  generalize ho : env.failure _ _ = o
  cases o with
  | some e =>
    simp only [Op.wp_loggerError, Op.wp_throw]
    exact ⟨by simp, fun hq => by simp [hq] at ho⟩
  | none =>
    clear ho
    simp only []
    cases hpool : List.find? (fun p => p.id == poolId) w.pg.pools with
    | none =>
      simp only [Op.wp_loggerError, Op.wp_throw]
      exact ⟨by simp, by simp⟩
    | some pool =>
      simp only [getPoolEntries, Op.wp_bind, Op.wp_external, Op.wp_getWorld, Op.wp_pure]
      generalize ho : env.failure _ _ = o
      cases o with
      | some e =>
        simp only [Op.wp_loggerError, Op.wp_throw]
        exact ⟨by simp, fun hq => by simp [hq] at ho⟩
      | none =>
        clear ho
        simp only []
        generalize hentries : List.filter (fun e => e.poolId == poolId) w.poolEntries = entries
        by_cases hlen : entries.length = 0
        · simp only [hlen, if_true, Op.wp_loggerError, Op.wp_throw]
          have : entries = [] := List.length_eq_zero.mp hlen
          exact ⟨by simp, by simp [this]⟩
        · simp only [hlen, if_false, Op.wp_bind, Op.wp_external]
          generalize ho : env.failure _ _ = o
          cases o with
          | some e =>
            simp only [Op.wp_loggerError, Op.wp_throw]
            exact ⟨by simp, fun hq => by simp [hq] at ho⟩
          | none =>
            clear ho
            simp only []
            cases hdw : determineWinners env.shuffle entries (env.drawLottery poolId).winningNumbers
                pool.prize_amount with
            | error e =>
              simp only [Op.wp_loggerError, Op.wp_throw]
              refine ⟨by simp, ?_⟩
              intro _ p ws hp _ hws
              simp only [Option.some.injEq] at hp
              subst hp
              rw [hdw] at hws
              simp at hws
            | ok winners =>
              simp only [createDrawHistory, updatePoolStatus, Op.wp_bind, Op.wp_dateNow,
                Op.wp_tryCatch, Op.wp_external, Op.wp_modifyWorld, Op.wp_pure]
              generalize ho : env.failure _ _ = o
              cases o with
              | some e =>
                simp only [Op.wp_loggerError, Op.wp_throw]
                exact ⟨by simp, fun hq => by simp [hq] at ho⟩
              | none =>
                clear ho
                simp only []
                generalize ho : env.failure _ _ = o
                cases o with
                | some e =>
                  simp only [Op.wp_loggerError, Op.wp_throw]
                  exact ⟨by simp, fun hq => by simp [hq] at ho⟩
                | none =>
                  clear ho
                  simp only []
                  generalize ho : env.failure _ _ = o
                  cases o with
                  | some e =>
                    simp only [Op.wp_loggerError, Op.wp_throw]
                    exact ⟨by simp, fun hq => by simp [hq] at ho⟩
                  | none =>
                    clear ho
                    simp only []
                    apply wp_notifyWinners
                    intro r ns cs ls k hcs hns hrec hq
                    have hne : entries ≠ [] := fun h => hlen (by simp [h])
                    cases r with
                    | error e =>
                      simp only [Op.wp_loggerError, Op.wp_throw]
                      refine ⟨by simp, fun hquiet => ?_⟩
                      obtain ⟨rs, hrs⟩ := hq hquiet
                      simp at hrs
                    | ok rs =>
                      simp only [Op.wp_pure]
                      refine ⟨?_, ?_⟩
                      · intro res hres
                        simp only [Except.ok.injEq] at hres
                        subst hres
                        refine ⟨pool, rfl, hne, ?_⟩
                        simp [drawRecord, hentries, hrec ⟨_, rfl⟩, hdw]
                        exact hns
                      · intro _ p ws hp _ hws
                        simp only [Option.some.injEq] at hp
                        subst hp
                        rw [hdw] at hws
                        simp only [Except.ok.injEq] at hws
                        subst hws
                        simp [drawRecord, hentries]

theorem withEntry_pool (status : String) :
    (World.withEntry status).pg.pools.find? (fun p => p.id == "p") =
      some (Pool.sample "p" status) := by
  simp [World.withEntry, World.withPool, World.empty, Pool.sample]

theorem withEntry_entries (status : String) :
    (World.withEntry status).poolEntries.filter (fun e => e.poolId == "p") =
      [PoolEntry.single "p" "A" "t1"] := by
  simp [World.withEntry, World.withPool, World.empty, PoolEntry.single]

theorem withEntry_winners (status : String) :
    determineWinners Env.quiet.shuffle
      ((World.withEntry status).poolEntries.filter (fun e => e.poolId == "p"))
      (Env.quiet.drawLottery "p").winningNumbers (Pool.sample "p" status).prize_amount =
      .ok [{ walletAddress := "A", ticketNumber := "t1", prize := 70,
             transactionSignature := none }] := by
  rw [withEntry_entries]
  simp [determineWinners, mapWinners, PoolEntry.single, prizeShares, Env.quiet, Pool.sample]
  norm_num

/-- A draw whose reads, ledger calls and writes all succeed, on an existing pool with entries
for which `determineWinners` returns: the result and the trace, whatever the pool status. -/
theorem conductDraw_quiet (env : Env) (poolId : String) (w : World) (pool : Pool)
    (ws : List Winner) (hquiet : ∀ w0 c, env.failure w0 c = none)
    (hpool : w.pg.pools.find? (fun p => p.id == poolId) = some pool)
    (hne : w.poolEntries.filter (fun e => e.poolId == poolId) ≠ [])
    (hdw : determineWinners env.shuffle (w.poolEntries.filter (fun e => e.poolId == poolId))
      (env.drawLottery poolId).winningNumbers pool.prize_amount = .ok ws) :
    (conductDraw env poolId w).1 =
      .ok { drawHistory := drawRecord env poolId w pool ws, winners := ws,
            transactions := env.distributePrizes ws } ∧
    Call.solanaDrawLottery poolId ∈ (conductDraw env poolId w).2.calls ∧
    Call.solanaDistributePrizes ws ∈ (conductDraw env poolId w).2.calls ∧
    (conductDraw env poolId w).2.drawHistory =
      w.drawHistory ++ [drawRecord env poolId w pool ws] := by
  have h := conductDraw_wp env poolId w
  unfold Op.wp at h
  have hr := h.2 hquiet pool ws hpool hne hdw
  obtain ⟨pool2, -, -, -, -, -, h1, h2, h3, -, -⟩ := h.1 _ hr
  exact ⟨hr, h2, h3, h1⟩

/-- C5 (counterexample): a draw on a pool whose status is `pending` and that has one
participant is not refused: with no external call failing it succeeds, the ledger draw is
requested and a DrawHistory is created. -/
theorem conductDraw_draws_pending_pool :
    (World.withEntry "pending").pg.pools.map (fun p => p.status) = ["pending"] ∧
    (∃ res, (conductDraw Env.quiet "p" (World.withEntry "pending")).1 = .ok res) ∧
    Call.solanaDrawLottery "p" ∈ (conductDraw Env.quiet "p" (World.withEntry "pending")).2.calls ∧
    (conductDraw Env.quiet "p" (World.withEntry "pending")).2.drawHistory.length = 1 := by
  obtain ⟨h1, h2, -, h4⟩ := conductDraw_quiet Env.quiet "p" (World.withEntry "pending")
    (Pool.sample "p" "pending") _ (fun _ _ => rfl) (withEntry_pool _)
    (by rw [withEntry_entries]; simp) (withEntry_winners _)
  refine ⟨by simp [World.withEntry, World.withPool, Pool.sample], ⟨_, h1⟩, h2, ?_⟩
  rw [h4]
  simp [World.withEntry, World.withPool, World.empty]

/-- C5 (amended): `conductDraw` does not look at the status of the pool.  For a pool that
exists and has at least one entry, whatever its status, when no external call fails and
`determineWinners` returns, the draw succeeds: the ledger draw is requested, the DrawHistory is
created and the prize distribution is requested. -/
theorem conductDraw_ignores_pool_status (env : Env) (poolId : String) (w : World) (pool : Pool)
    (ws : List Winner) (hquiet : ∀ w0 c, env.failure w0 c = none)
    (hpool : w.pg.pools.find? (fun p => p.id == poolId) = some pool)
    (hne : w.poolEntries.filter (fun e => e.poolId == poolId) ≠ [])
    (hdw : determineWinners env.shuffle (w.poolEntries.filter (fun e => e.poolId == poolId))
      (env.drawLottery poolId).winningNumbers pool.prize_amount = .ok ws) :
    (conductDraw env poolId w).1 =
      .ok { drawHistory := drawRecord env poolId w pool ws, winners := ws,
            transactions := env.distributePrizes ws } ∧
    Call.solanaDrawLottery poolId ∈ (conductDraw env poolId w).2.calls ∧
    Call.solanaDistributePrizes ws ∈ (conductDraw env poolId w).2.calls ∧
    (conductDraw env poolId w).2.drawHistory =
      w.drawHistory ++ [drawRecord env poolId w pool ws] :=
  conductDraw_quiet env poolId w pool ws hquiet hpool hne hdw

theorem conductDraw_ignores_pool_status_witness :
    (conductDraw Env.quiet "p" (World.withEntry "completed")).1 =
      .ok { drawHistory := drawRecord Env.quiet "p" (World.withEntry "completed")
              (Pool.sample "p" "completed")
              [{ walletAddress := "A", ticketNumber := "t1", prize := 70,
                 transactionSignature := none }]
            winners := [{ walletAddress := "A", ticketNumber := "t1", prize := 70,
                          transactionSignature := none }]
            transactions := Env.quiet.distributePrizes
              [{ walletAddress := "A", ticketNumber := "t1", prize := 70,
                 transactionSignature := none }] } ∧
    Call.solanaDrawLottery "p" ∈
      (conductDraw Env.quiet "p" (World.withEntry "completed")).2.calls ∧
    Call.solanaDistributePrizes
        [{ walletAddress := "A", ticketNumber := "t1", prize := 70,
           transactionSignature := none }] ∈
      (conductDraw Env.quiet "p" (World.withEntry "completed")).2.calls ∧
    (conductDraw Env.quiet "p" (World.withEntry "completed")).2.drawHistory =
      (World.withEntry "completed").drawHistory ++
        [drawRecord Env.quiet "p" (World.withEntry "completed") (Pool.sample "p" "completed")
          [{ walletAddress := "A", ticketNumber := "t1", prize := 70,
             transactionSignature := none }]] :=
  conductDraw_ignores_pool_status Env.quiet "p" (World.withEntry "completed")
    (Pool.sample "p" "completed") _ (fun _ _ => rfl) (withEntry_pool _)
    (by rw [withEntry_entries]; simp) (withEntry_winners _)

/-- The stores after a purchase within the ceiling whose external calls all succeed. -/
theorem purchaseTickets_quiet_stores (svc : LotteryService) (env : Env) (d : PurchaseData)
    (w : World) (hquiet : ∀ w0 c, env.failure w0 c = none)
    (hq : d.quantity ≤ svc.maxTicketsPerPurchase) :
    (purchaseTickets svc env d w).1 = .ok
      { transaction := (env.purchaseTickets d.buyerWallet d.quantity
          (d.quantity * svc.ticketPrice)).transaction
        tickets := purchaseTicketList svc env d w
        totalCost := d.quantity * svc.ticketPrice
        signature := purchaseSignature svc env d } ∧
    (purchaseTickets svc env d w).2.pg.transactions =
      w.pg.transactions ++ [purchaseRow svc env d w] ∧
    (purchaseTickets svc env d w).2.poolEntries = purchaseEntries svc env d w ∧
    (purchaseTickets svc env d w).2.realTimeStats = purchaseStats svc env d w ∧
    (purchaseTickets svc env d w).2.notifications =
      w.notifications ++ [purchaseNotification svc env d w] := by
  have h := purchaseTickets_quiet svc env d w hquiet hq
  unfold Op.wp at h
  obtain ⟨stage, -, htx, hpe, hst, hno, -, hs⟩ := purchaseTickets_progress svc env d w
  have h4 : stage = 4 := hs.2 h.1
  subst h4
  exact ⟨h.1, by simpa using htx, by simpa using hpe, by simpa using hst, by simpa using hno⟩

theorem default_accepts_three : (3 : Int) ≤ LotteryService.default.maxTicketsPerPurchase := by
  simp [default_ceiling]

/-- C6 (the code at the failing input): after a first purchase of 3 tickets by wallet `A` in pool
`p`, with no external call failing, the pool entry of `A` holds the 3 tickets returned to the
caller and its `totalTickets` is 1, not 3. -/
theorem purchaseTickets_counts_one_per_purchase :
    (purchaseTickets LotteryService.default Env.quiet
        { poolId := "p", buyerWallet := "A", quantity := 3 } World.empty).1.toOption.map
      (fun r => r.tickets.length) = some 3 ∧
    (findPoolEntry (purchaseTickets LotteryService.default Env.quiet
        { poolId := "p", buyerWallet := "A", quantity := 3 } World.empty).2 "p" "A").map
      (fun e => (e.totalTickets, e.tickets.length)) = some (1, 3) := by
  obtain ⟨h1, -, h3, -, -⟩ := purchaseTickets_quiet_stores LotteryService.default Env.quiet
    { poolId := "p", buyerWallet := "A", quantity := 3 } World.empty (fun _ _ => rfl)
    default_accepts_three
  constructor
  · rw [h1]
    simp [purchaseTicketList, ticketsFrom_length, Except.toOption]
  · rw [findPoolEntry, h3]
    simp [purchaseEntries, pushTickets, findOneAndUpdate, updateFirst,
      World.empty, purchaseTicketList, ticketsFrom_length]

/-- C7 (the code at the failing input): a purchase of 3 tickets in pool `p`, with no external
call failing, returns a total cost of 3/10 and leaves the aggregate row of the pool with the 5
tickets sold and the prize pool of 1/2 it had before. -/
theorem purchaseTickets_leaves_aggregate_counters :
    (purchaseTickets LotteryService.default Env.quiet
        { poolId := "p", buyerWallet := "A", quantity := 3 } World.withStats).1.toOption.map
      (fun r => r.totalCost) = some (3 / 10) ∧
    (findStats World.withStats "p").map (fun s => (s.totalTicketsSold, s.currentPrizePool)) =
      some (5, 1 / 2) ∧
    (findStats (purchaseTickets LotteryService.default Env.quiet
        { poolId := "p", buyerWallet := "A", quantity := 3 } World.withStats).2 "p").map
      (fun s => (s.totalTicketsSold, s.currentPrizePool)) = some (5, 1 / 2) := by
  obtain ⟨h1, -, -, h4, -⟩ := purchaseTickets_quiet_stores LotteryService.default Env.quiet
    { poolId := "p", buyerWallet := "A", quantity := 3 } World.withStats (fun _ _ => rfl)
    default_accepts_three
  refine ⟨?_, ?_, ?_⟩
  · rw [h1]
    simp [Except.toOption, default_price]
    norm_num
  · simp [findStats, World.withStats, World.empty]
  · rw [findStats, h4]
    simp [purchaseStats, setStats, findOneAndUpdate, updateFirst,
      World.withStats, World.empty, RealTimeStats.applySet, RealTimeStats.setPath]

/-- The tickets of pool `p` in a collection of pool entries. -/
theorem ticketCount_eq (entries : List PoolEntry) (p : String) :
    ((entries.filter (fun e => e.poolId == p)).map (fun e => e.tickets.length)).sum =
      (entries.map (fun e => if e.poolId == p then e.tickets.length else 0)).sum := by
  induction entries with
  | nil => rfl
  | cons x xs ih =>
    by_cases hx : x.poolId = p
    · simp [List.filter_cons, hx, ih]
    · simp [List.filter_cons, hx, ih]

theorem updateFirst_ticketCount (poolId a : String) (ts : List Ticket) (now : Nat) (p : String)
    (l : List PoolEntry) :
    match updateFirst (fun e => e.poolId == poolId && e.walletAddress == a)
        (fun e => { e with tickets := e.tickets ++ ts, totalTickets := e.totalTickets + 1,
                           lastUpdated := now }) l with
    | some (l1, _) =>
      (l1.map (fun e => if e.poolId == p then e.tickets.length else 0)).sum =
        (l.map (fun e => if e.poolId == p then e.tickets.length else 0)).sum +
          (if poolId == p then ts.length else 0)
    | none => True := by
  induction l with
  | nil => simp [updateFirst]
  | cons x xs ih =>
    by_cases hx : (x.poolId == poolId && x.walletAddress == a) = true
    · have hp : x.poolId = poolId := by
        simp only [Bool.and_eq_true, beq_iff_eq] at hx
        exact hx.1
      simp only [updateFirst, hx, if_true, List.map_cons, List.sum_cons]
      by_cases hpp : poolId = p
      · simp [hpp, hp]
        omega
      · simp [hpp, hp]
    · simp only [updateFirst, hx]
      cases hu : updateFirst (fun e => e.poolId == poolId && e.walletAddress == a)
        (fun e => { e with tickets := e.tickets ++ ts, totalTickets := e.totalTickets + 1,
                           lastUpdated := now }) xs with
      | none => simp
      | some r =>
        rw [hu] at ih
        obtain ⟨l1, y⟩ := r
        simp only [Bool.false_eq_true, if_false, List.map_cons, List.sum_cons] at ih ⊢
        omega

/-- Pushing tickets onto the entry of a wallet adds exactly those tickets to the count of their
pool and none to any other pool. -/
theorem ticketCount_pushTickets (poolId a : String) (ts : List Ticket) (now : Nat) (p : String)
    (l : List PoolEntry) :
    (((pushTickets poolId a ts now l).1.filter (fun e => e.poolId == p)).map
        (fun e => e.tickets.length)).sum =
      ((l.filter (fun e => e.poolId == p)).map (fun e => e.tickets.length)).sum +
        (if poolId == p then ts.length else 0) := by
  rw [ticketCount_eq, ticketCount_eq]
  have h := updateFirst_ticketCount poolId a ts now p l
  unfold pushTickets findOneAndUpdate
  cases hu : updateFirst (fun e => e.poolId == poolId && e.walletAddress == a)
    (fun e => { e with tickets := e.tickets ++ ts, totalTickets := e.totalTickets + 1,
                       lastUpdated := now }) l with
  | none =>
    simp only [List.map_append, List.sum_append, List.map_cons, List.map_nil, List.sum_cons,
      List.sum_nil, List.nil_append, add_zero]
  | some r =>
    rw [hu] at h
    exact h

/-- One purchase adds at most `maxTicketsPerPurchase` tickets to any pool. -/
theorem ticketsRecorded_purchase_le (svc : LotteryService) (env : Env) (d : PurchaseData)
    (w : World) (p : String) :
    ticketsRecorded (purchaseTickets svc env d w).2 p ≤
      ticketsRecorded w p + svc.maxTicketsPerPurchase.toNat := by
  obtain ⟨stage, -, -, hpe, -, -, hq, -⟩ := purchaseTickets_progress svc env d w
  unfold ticketsRecorded
  rw [hpe]
  by_cases h2 : 2 ≤ stage
  · have hle : d.quantity.toNat ≤ svc.maxTicketsPerPurchase.toNat :=
      Int.toNat_le_toNat (hq (by omega))
    simp only [h2, if_true, purchaseEntries]
    rw [ticketCount_pushTickets]
    have : (purchaseTicketList svc env d w).length = d.quantity.toNat := by
      simp [purchaseTicketList, ticketsFrom_length]
    split <;> omega
  · simp only [h2, if_false]
    omega

/-- A purchase within the ceiling whose external calls all succeed adds exactly its quantity
to the tickets recorded for its pool. -/
theorem ticketsRecorded_purchase_quiet (svc : LotteryService) (env : Env) (d : PurchaseData)
    (w : World) (hquiet : ∀ w0 c, env.failure w0 c = none)
    (hq : d.quantity ≤ svc.maxTicketsPerPurchase) :
    ticketsRecorded (purchaseTickets svc env d w).2 d.poolId =
      ticketsRecorded w d.poolId + d.quantity.toNat := by
  obtain ⟨-, -, h3, -, -⟩ := purchaseTickets_quiet_stores svc env d w hquiet hq
  unfold ticketsRecorded
  rw [h3, purchaseEntries, ticketCount_pushTickets]
  simp [purchaseTicketList, ticketsFrom_length]

/-- C8 (counterexample): on a pool of capacity 2, three purchases of one ticket each by three
wallets, carried out one after another with no external call failing, are all accepted: three
tickets are recorded for the pool. -/
theorem purchaseAll_exceeds_capacity :
    (World.withPool "active").pg.pools.map (fun p => p.max_players) = [2] ∧
    ticketsRecorded
      (purchaseAll LotteryService.default Env.quiet
        [{ poolId := "p", buyerWallet := "A", quantity := 1 },
         { poolId := "p", buyerWallet := "B", quantity := 1 },
         { poolId := "p", buyerWallet := "C", quantity := 1 }]
        (World.withPool "active")) "p" = 3 := by
  have h1 : (1 : Int) ≤ LotteryService.default.maxTicketsPerPurchase := by
    simp [default_ceiling]
  constructor
  · simp [World.withPool, Pool.sample]
  · simp only [purchaseAll]
    rw [ticketsRecorded_purchase_quiet _ _ { poolId := "p", buyerWallet := "C", quantity := 1 }
        _ (fun _ _ => rfl) h1,
      ticketsRecorded_purchase_quiet _ _ { poolId := "p", buyerWallet := "B", quantity := 1 }
        _ (fun _ _ => rfl) h1,
      ticketsRecorded_purchase_quiet _ _ { poolId := "p", buyerWallet := "A", quantity := 1 }
        _ (fun _ _ => rfl) h1]
    simp [ticketsRecorded, World.withPool, World.empty]

set_option maxHeartbeats 1000000 in
theorem purchaseTickets_wp_ledger_failure (svc : LotteryService) (env : Env)
    (d : PurchaseData) (w : World) (e : String)
    (hledger : ∀ w0, env.failure w0 (.solanaPurchaseTickets d.buyerWallet d.quantity
      (d.quantity * svc.ticketPrice)) = some e) :
    Op.wp (purchaseTickets svc env d) w (fun r w1 =>
      (∃ e1, r = .error e1) ∧
      w1.pg.transactions = w.pg.transactions ∧
      w1.poolEntries = w.poolEntries ∧
      w1.realTimeStats = w.realTimeStats ∧
      w1.notifications = w.notifications ∧
      (∀ c ∈ w1.calls, c ∈ w.calls ∨ c = .getUserByWallet d.buyerWallet ∨
        c = .createUser d.buyerWallet ∨
        c = .solanaPurchaseTickets d.buyerWallet d.quantity (d.quantity * svc.ticketPrice)) ∧
      (d.quantity ≤ svc.maxTicketsPerPurchase →
        (∀ w0, env.failure w0 (.getUserByWallet d.buyerWallet) = none) →
        (∀ w0, env.failure w0 (.createUser d.buyerWallet) = none) →
        r = .error e)) := by
  unfold purchaseTickets
  rw [Op.wp_tryCatch]
  by_cases hq : d.quantity > svc.maxTicketsPerPurchase
  · simp only [hq, if_true, Op.wp_throw, Op.wp_bind, Op.wp_loggerError]
    refine ⟨⟨_, rfl⟩, trivial, trivial, trivial, trivial, ?_, ?_⟩
    · intro c hc
      exact Or.inl hc
    · intro h
      omega
  · simp only [hq, if_false, Op.wp_bind, getUserByWallet, executeQuery, Op.wp_tryCatch,
      Op.wp_external, Op.wp_getWorld, Op.wp_pure]
    cases h1 : env.failure w (.getUserByWallet d.buyerWallet) with
    | some e1 =>
      simp only [Op.wp_loggerError, Op.wp_throw, Op.wp_bind]
      refine ⟨⟨_, rfl⟩, trivial, trivial, trivial, trivial, ?_, ?_⟩
      · intro c hc
        simp at hc
        tauto
      · intro _ h _
        simp [h] at h1
    | none =>
      simp only []
      cases List.find? (fun u => u.wallet_address == d.buyerWallet) w.pg.users with
      | some u =>
        simp only [Op.wp_bind, Op.wp_pure, Op.wp_external, hledger, Op.wp_loggerError,
          Op.wp_throw]
        refine ⟨⟨_, rfl⟩, trivial, trivial, trivial, trivial, ?_, ?_⟩
        · intro c hc
          simp at hc
          tauto
        · intro _ _ _
          trivial
      | none =>
        simp only [Op.wp_bind, createUser, executeQuery, Op.wp_tryCatch, Op.wp_external,
          Op.wp_getWorld, Op.wp_modifyWorld, Op.wp_pure]
        generalize h2 : env.failure _ (.createUser d.buyerWallet) = o
        cases o with
        | some e2 =>
          simp only [Op.wp_loggerError, Op.wp_throw, Op.wp_bind]
          refine ⟨⟨_, rfl⟩, trivial, trivial, trivial, trivial, ?_, ?_⟩
          · intro c hc
            simp at hc
            tauto
          · intro _ _ h
            simp [h] at h2
        | none =>
          simp only [Op.wp_bind, Op.wp_pure, Op.wp_external, hledger, Op.wp_loggerError,
            Op.wp_throw]
          refine ⟨⟨_, rfl⟩, trivial, trivial, trivial, trivial, ?_, ?_⟩
          · intro c hc
            simp at hc
            tauto
          · intro _ _ _
            trivial

/-- C9: when the ledger gateway refuses the purchase, `purchaseTickets` fails and nothing
downstream runs: the transactions, the pool entries, the aggregate and the notification queue
are as before, the only calls issued are the user lookup, the user creation and the ledger
call itself, and the caller receives the error of the ledger whenever the quantity check and
the user steps passed. -/
theorem purchaseTickets_ledger_failure_stops (svc : LotteryService) (env : Env)
    (d : PurchaseData) (w : World) (e : String)
    (hledger : ∀ w0, env.failure w0 (.solanaPurchaseTickets d.buyerWallet d.quantity
      (d.quantity * svc.ticketPrice)) = some e) :
    (∃ e1, (purchaseTickets svc env d w).1 = .error e1) ∧
    (purchaseTickets svc env d w).2.pg.transactions = w.pg.transactions ∧
    (purchaseTickets svc env d w).2.poolEntries = w.poolEntries ∧
    (purchaseTickets svc env d w).2.realTimeStats = w.realTimeStats ∧
    (purchaseTickets svc env d w).2.notifications = w.notifications ∧
    (∀ c ∈ (purchaseTickets svc env d w).2.calls,
      c ∈ w.calls ∨ c = .getUserByWallet d.buyerWallet ∨ c = .createUser d.buyerWallet ∨
      c = .solanaPurchaseTickets d.buyerWallet d.quantity (d.quantity * svc.ticketPrice)) ∧
    (d.quantity ≤ svc.maxTicketsPerPurchase →
      (∀ w0, env.failure w0 (.getUserByWallet d.buyerWallet) = none) →
      (∀ w0, env.failure w0 (.createUser d.buyerWallet) = none) →
      (purchaseTickets svc env d w).1 = .error e) :=
  purchaseTickets_wp_ledger_failure svc env d w e hledger

theorem purchaseTickets_ledger_failure_stops_witness :
    (∃ e1, (purchaseTickets LotteryService.default Env.ledgerDown
        { poolId := "p", buyerWallet := "A", quantity := 3 } World.empty).1 = .error e1) ∧
    (purchaseTickets LotteryService.default Env.ledgerDown
        { poolId := "p", buyerWallet := "A", quantity := 3 } World.empty).2.pg.transactions =
      World.empty.pg.transactions ∧
    (purchaseTickets LotteryService.default Env.ledgerDown
        { poolId := "p", buyerWallet := "A", quantity := 3 } World.empty).2.poolEntries =
      World.empty.poolEntries ∧
    (purchaseTickets LotteryService.default Env.ledgerDown
        { poolId := "p", buyerWallet := "A", quantity := 3 } World.empty).2.realTimeStats =
      World.empty.realTimeStats ∧
    (purchaseTickets LotteryService.default Env.ledgerDown
        { poolId := "p", buyerWallet := "A", quantity := 3 } World.empty).2.notifications =
      World.empty.notifications ∧
    (∀ c ∈ (purchaseTickets LotteryService.default Env.ledgerDown
        { poolId := "p", buyerWallet := "A", quantity := 3 } World.empty).2.calls,
      c ∈ World.empty.calls ∨ c = .getUserByWallet "A" ∨ c = .createUser "A" ∨
      c = .solanaPurchaseTickets "A" 3 ((3 : Int) * LotteryService.default.ticketPrice)) ∧
    ((3 : Int) ≤ LotteryService.default.maxTicketsPerPurchase →
      (∀ w0, Env.ledgerDown.failure w0 (.getUserByWallet "A") = none) →
      (∀ w0, Env.ledgerDown.failure w0 (.createUser "A") = none) →
      (purchaseTickets LotteryService.default Env.ledgerDown
        { poolId := "p", buyerWallet := "A", quantity := 3 } World.empty).1 =
        .error "ledger unavailable") :=
  purchaseTickets_ledger_failure_stops LotteryService.default Env.ledgerDown
    { poolId := "p", buyerWallet := "A", quantity := 3 } World.empty "ledger unavailable"
    (fun _ => rfl)

set_option maxHeartbeats 1000000 in
/-- A purchase of 3 tickets when the pool entry update fails: the error reaches the caller and
the transaction row written before it stays. -/
theorem purchaseTickets_entriesDown_run :
    Op.wp (purchaseTickets LotteryService.default Env.entriesDown
        { poolId := "p", buyerWallet := "A", quantity := 3 }) World.empty (fun r w1 =>
      r = .error "document store unavailable" ∧
      w1.pg.transactions =
        [{ id := 1, pool_id := "p", user_id := 1, signature := "sig", amount := 3 / 10,
           type := "purchase", status := "pending", confirmed_at := none }] ∧
      w1.poolEntries = []) := by
  have hq : ¬ ((3 : Int) > LotteryService.default.maxTicketsPerPurchase) := by
    simp [default_ceiling]
  simp only [purchaseTickets, getUserByWallet, createUser, executeQuery, createTransaction,
    withTransaction, updatePoolEntry,
    Op.wp_tryCatch, Op.wp_tryFinally, Op.wp_bind, Op.wp_pure, Op.wp_throw, Op.wp_external,
    Op.wp_loggerError, Op.wp_getWorld, Op.wp_modifyWorld, Op.wp_record, Op.wp_dateNow,
    wp_arrayFrom_newTicket, hq, if_false, Env.entriesDown, Env.quiet, World.empty,
    List.find?_nil, default_price]
  norm_num

/-- C10 (counterexample): when the pool entry update fails, after the ledger call and the
transaction row succeeded, `purchaseTickets` fails and the transaction row of the attempt
remains in the record store. -/
theorem purchaseTickets_failure_leaves_transaction_row :
    (purchaseTickets LotteryService.default Env.entriesDown
        { poolId := "p", buyerWallet := "A", quantity := 3 } World.empty).1 =
      .error "document store unavailable" ∧
    World.empty.pg.transactions = [] ∧
    (purchaseTickets LotteryService.default Env.entriesDown
        { poolId := "p", buyerWallet := "A", quantity := 3 } World.empty).2.pg.transactions =
      [{ id := 1, pool_id := "p", user_id := 1, signature := "sig", amount := 3 / 10,
         type := "purchase", status := "pending", confirmed_at := none }] := by
  have h := purchaseTickets_entriesDown_run
  unfold Op.wp at h
  exact ⟨h.1, rfl, h.2.1⟩

theorem decimalValue_append_singleton (cs : List Char) (c : Char) :
    decimalValue (cs ++ [c]) = 10 * decimalValue cs + (c.toNat - 48) := by
  simp [decimalValue, List.foldl_append]

theorem digitChar_value (d : Nat) (h : d < 10) :
    (Nat.digitChar d).toNat - 48 = d ∧ Nat.digitChar d ≠ '-' := by
  interval_cases d <;> exact ⟨by decide, by decide⟩

theorem toDigitsCore_spec (fuel : Nat) : ∀ (n : Nat) (ds : List Char), n < fuel →
    ∃ L, Nat.toDigitsCore 10 fuel n ds = L ++ ds ∧ decimalValue L = n ∧ ∀ c ∈ L, c ≠ '-' := by
  induction fuel with
  | zero => intro n ds h; omega
  | succ fuel ih =>
    intro n ds h
    have hd := digitChar_value (n % 10) (Nat.mod_lt _ (by omega))
    by_cases h0 : n / 10 = 0
    · refine ⟨[Nat.digitChar (n % 10)], by simp [Nat.toDigitsCore, h0], ?_, ?_⟩
      · have hn : n % 10 = n := Nat.mod_eq_of_lt (by omega)
        have hv : decimalValue [Nat.digitChar (n % 10)] = (Nat.digitChar (n % 10)).toNat - 48 := by
          simp [decimalValue]
        rw [hv, hd.1, hn]
      · intro c hc
        simp only [List.mem_singleton] at hc
        rw [hc]
        exact hd.2
    · obtain ⟨L, hL, hv, hc⟩ := ih (n / 10) (Nat.digitChar (n % 10) :: ds) (by omega)
      refine ⟨L ++ [Nat.digitChar (n % 10)], by simp [Nat.toDigitsCore, h0, hL], ?_, ?_⟩
      · rw [decimalValue_append_singleton, hv, hd.1]
        omega
      · intro c hc'
        simp only [List.mem_append, List.mem_singleton] at hc'
        rcases hc' with hc' | hc'
        · exact hc c hc'
        · rw [hc']
          exact hd.2

theorem repr_spec (n : Nat) :
    decimalValue (toString n).data = n ∧ ∀ c ∈ (toString n).data, c ≠ '-' := by
  obtain ⟨L, hL, hv, hc⟩ := toDigitsCore_spec (n + 1) n [] (by omega)
  have : (toString n).data = L := by
    show (Nat.repr n).data = L
    simp [Nat.repr, Nat.toDigits, hL, List.asString]
  rw [this]
  exact ⟨hv, hc⟩

theorem prefix_before_dash (b d a c : List Char) (hb : ∀ x ∈ b, x ≠ '-')
    (hd : ∀ x ∈ d, x ≠ '-') (h : b ++ '-' :: a = d ++ '-' :: c) : b = d ∧ a = c := by
  induction b generalizing d with
  | nil =>
    cases d with
    | nil => simpa using h
    | cons y d1 =>
      simp only [List.nil_append, List.cons_append, List.cons.injEq] at h
      exact absurd h.1.symm (hd y (by simp))
  | cons y b1 ih =>
    cases d with
    | nil =>
      simp only [List.nil_append, List.cons_append, List.cons.injEq] at h
      exact absurd h.1 (hb y (by simp))
    | cons z d1 =>
      simp only [List.cons_append, List.cons.injEq] at h
      obtain ⟨h1, h2⟩ := ih d1 (fun x hx => hb x (by simp [hx])) (fun x hx => hd x (by simp [hx]))
        h.2
      exact ⟨by rw [h.1, h1], h2⟩

theorem append_dash_inj (a b c d : List Char) (hb : ∀ x ∈ b, x ≠ '-') (hd : ∀ x ∈ d, x ≠ '-')
    (h : a ++ '-' :: b = c ++ '-' :: d) : a = c ∧ b = d := by
  have h2 := congrArg List.reverse h
  simp only [List.reverse_append, List.reverse_cons, List.append_assoc, List.singleton_append]
    at h2
  have h3 := prefix_before_dash b.reverse d.reverse a.reverse c.reverse
    (fun x hx => hb x (List.mem_reverse.mp hx)) (fun x hx => hd x (List.mem_reverse.mp hx)) h2
  exact ⟨List.reverse_injective h3.2, List.reverse_injective h3.1⟩

/-- C19: the draw id determines the pool id and the timestamp: equal draw ids, for any pool ids
(dashes allowed) and any timestamps, come from equal pool ids and equal timestamps. -/
theorem drawId_injective (p1 p2 : String) (t1 t2 : Nat) (h : drawId p1 t1 = drawId p2 t2) :
    p1 = p2 ∧ t1 = t2 := by
  have h1 := repr_spec t1
  have h2 := repr_spec t2
  have hdata := congrArg String.data h
  simp only [drawId, String.data_append] at hdata
  simp only [List.append_assoc, List.singleton_append] at hdata
  obtain ⟨hp, ht⟩ := append_dash_inj _ _ _ _ h1.2 h2.2 hdata
  refine ⟨String.ext hp, ?_⟩
  rw [← h1.1, ← h2.1, ht]

theorem drawId_injective_witness :
    drawId "a-1" 2 = drawId "a-1" 2 ∧ ("a-1" : String) = "a-1" ∧ (2 : Nat) = 2 :=
  ⟨rfl, drawId_injective "a-1" "a-1" 2 2 rfl⟩

/-- C11 (the code at the failing input): when the clock gives the same millisecond and the
random source the same value for both tickets of a purchase of 2, the two ticket numbers
returned to the caller are the same string. -/
theorem purchaseTickets_duplicate_ticket_numbers :
    ∃ t, (purchaseTickets LotteryService.default Env.frozen
        { poolId := "p", buyerWallet := "A", quantity := 2 } World.empty).1.toOption.map
      (fun r => r.tickets.map (fun x => x.ticketNumber)) = some [t, t] := by
  have hq : (2 : Int) ≤ LotteryService.default.maxTicketsPerPurchase := by
    simp [default_ceiling]
  obtain ⟨h1, -⟩ := purchaseTickets_quiet_stores LotteryService.default Env.frozen
    { poolId := "p", buyerWallet := "A", quantity := 2 } World.empty (fun _ _ => rfl) hq
  refine ⟨toString (1000 : Nat) ++ "-" ++ (("0.abcdefghijk" : String).drop 2).take 9, ?_⟩
  rw [h1]
  simp [Except.toOption, purchaseTicketList, ticketsFrom, Env.frozen, Env.quiet]

/-- C12 (counterexample): two runs of `determineWinners` on the same entries, winning numbers
and prize pool, whose local shuffles come out differently, return different winners. -/
theorem determineWinners_depends_on_shuffle :
    determineWinners (fun l => l)
        [PoolEntry.single "p" "A" "t1", PoolEntry.single "p" "B" "t2"] [7] 100 ≠
      determineWinners List.reverse
        [PoolEntry.single "p" "A" "t1", PoolEntry.single "p" "B" "t2"] [7] 100 := by
  simp [determineWinners, mapWinners, PoolEntry.single, prizeShares]

/-- C12 (amended): the winners are decided by the outcome of the local shuffle and by nothing
else that varies between runs: two runs on the same entries, winning numbers and prize pool
whose shuffles agree on their first three entries return the same winners in the same order
with the same prizes. -/
theorem determineWinners_determined_by_shuffle (shuffle1 shuffle2 : List PoolEntry → List PoolEntry)
    (entries : List PoolEntry) (winningNumbers : List Int) (P : Rat)
    (h : (shuffle1 entries).take 3 = (shuffle2 entries).take 3) :
    determineWinners shuffle1 entries winningNumbers P =
      determineWinners shuffle2 entries winningNumbers P := by
  unfold determineWinners
  rw [h]

theorem determineWinners_determined_by_shuffle_witness :
    ((fun l => l) [PoolEntry.single "p" "A" "t1", PoolEntry.single "p" "B" "t2",
        PoolEntry.single "p" "C" "t3", PoolEntry.single "p" "D" "t4",
        PoolEntry.single "p" "E" "t5"] : List PoolEntry).take 3 =
      ((fun l => l.take 3 ++ (l.drop 3).reverse)
        [PoolEntry.single "p" "A" "t1", PoolEntry.single "p" "B" "t2",
         PoolEntry.single "p" "C" "t3", PoolEntry.single "p" "D" "t4",
         PoolEntry.single "p" "E" "t5"] : List PoolEntry).take 3 ∧
    determineWinners (fun l => l)
        [PoolEntry.single "p" "A" "t1", PoolEntry.single "p" "B" "t2",
         PoolEntry.single "p" "C" "t3", PoolEntry.single "p" "D" "t4",
         PoolEntry.single "p" "E" "t5"] [7] 100 =
      determineWinners (fun l => l.take 3 ++ (l.drop 3).reverse)
        [PoolEntry.single "p" "A" "t1", PoolEntry.single "p" "B" "t2",
         PoolEntry.single "p" "C" "t3", PoolEntry.single "p" "D" "t4",
         PoolEntry.single "p" "E" "t5"] [7] 100 :=
  ⟨by simp, determineWinners_determined_by_shuffle _ _ _ _ _ (by simp)⟩

set_option maxHeartbeats 1000000 in
/-- A pool creation with a valid creator wallet whose external calls all succeed: the result,
the pool row and the ledger call, whatever the player bounds. -/
theorem createPool_quiet (svc : LotteryService) (env : Env) (poolData : PoolData) (w : World)
    (hvalid : env.isValidSolanaAddress poolData.creatorWallet = true)
    (hquiet : ∀ w0 c, env.failure w0 c = none) :
    Op.wp (createPool svc env poolData) w (fun r w1 =>
      r = .ok { pool := createdPool svc env poolData w
                transaction := (env.createLotteryPool poolData.creatorWallet svc.ticketPrice
                  poolData.minPlayers poolData.maxPlayers).transaction } ∧
      w1.pg.pools = w.pg.pools ++ [createdPool svc env poolData w] ∧
      Call.solanaCreateLotteryPool poolData.creatorWallet svc.ticketPrice poolData.minPlayers
        poolData.maxPlayers ∈ w1.calls) := by
  simp only [createPool, getUserByWallet, createUser, executeQuery, createLotteryPool,
    withTransaction, logActivity, createdPool,
    Op.wp_tryCatch, Op.wp_tryFinally, Op.wp_bind, Op.wp_pure, Op.wp_throw, Op.wp_external,
    Op.wp_loggerError, Op.wp_getWorld, Op.wp_modifyWorld, Op.wp_record, Op.wp_dateNow,
    hquiet, hvalid, Bool.not_true, Bool.false_eq_true, if_false]
  cases List.find? (fun u => u.wallet_address == poolData.creatorWallet) w.pg.users <;>
  simp [Op.wp_bind, Op.wp_pure, Op.wp_external,
    Op.wp_tryCatch, Op.wp_tryFinally, Op.wp_throw,
    Op.wp_loggerError, Op.wp_getWorld, Op.wp_modifyWorld, Op.wp_record, Op.wp_dateNow, hquiet]

/-- C13 (counterexample): a request with `minPlayers = 5` and `maxPlayers = 2` passes the
presence check of the route and is not rejected by `createPool`: with no external call failing
the ledger is asked to create the pool and the pool row is written with these bounds. -/
theorem createPool_accepts_inverted_bounds :
    (∃ res, (postPools LotteryService.default Env.quiet
        { creatorWallet := some "A", name := some "pool", description := "",
          minPlayers := some 5, maxPlayers := some 2, startTime := 0, endTime := 1 }
        World.empty).1 = .ok res) ∧
    (postPools LotteryService.default Env.quiet
        { creatorWallet := some "A", name := some "pool", description := "",
          minPlayers := some 5, maxPlayers := some 2, startTime := 0, endTime := 1 }
        World.empty).2.pg.pools.map (fun p => (p.min_players, p.max_players)) = [(5, 2)] ∧
    Call.solanaCreateLotteryPool "A" (1 / 10) 5 2 ∈
      (postPools LotteryService.default Env.quiet
        { creatorWallet := some "A", name := some "pool", description := "",
          minPlayers := some 5, maxPlayers := some 2, startTime := 0, endTime := 1 }
        World.empty).2.calls := by
  have h := createPool_quiet LotteryService.default Env.quiet PoolData.inverted World.empty
    (by simp [Env.quiet, PoolData.inverted]) (fun _ _ => rfl)
  unfold Op.wp at h
  have hp : postPools LotteryService.default Env.quiet
        { creatorWallet := some "A", name := some "pool", description := "",
          minPlayers := some 5, maxPlayers := some 2, startTime := 0, endTime := 1 }
        World.empty = createPool LotteryService.default Env.quiet PoolData.inverted
          World.empty := by
    simp [postPools, falsyString, falsyNumber, PoolData.inverted]
  rw [hp]
  obtain ⟨h1, h2, h3⟩ := h
  refine ⟨⟨_, h1⟩, ?_, ?_⟩
  · rw [h2]
    simp [createdPool, PoolData.inverted, World.empty]
  · simpa [PoolData.inverted, default_price] using h3

/-- C13 (amended): `createPool` validates the creator wallet only.  For a valid creator wallet,
whatever `minPlayers` and `maxPlayers` are, when no external call fails the ledger is asked to
create the pool with these bounds and the pool row is written with them; and the route
`POST /pools` forwards to `createPool` every body whose creator wallet, name, `minPlayers` and
`maxPlayers` are present and truthy. -/
theorem createPool_checks_wallet_only (svc : LotteryService) (env : Env) (poolData : PoolData)
    (w : World) (hvalid : env.isValidSolanaAddress poolData.creatorWallet = true)
    (hquiet : ∀ w0 c, env.failure w0 c = none) :
    (createPool svc env poolData w).1 =
      .ok { pool := createdPool svc env poolData w
            transaction := (env.createLotteryPool poolData.creatorWallet svc.ticketPrice
              poolData.minPlayers poolData.maxPlayers).transaction } ∧
    (createdPool svc env poolData w).min_players = poolData.minPlayers ∧
    (createdPool svc env poolData w).max_players = poolData.maxPlayers ∧
    (createPool svc env poolData w).2.pg.pools = w.pg.pools ++ [createdPool svc env poolData w] ∧
    Call.solanaCreateLotteryPool poolData.creatorWallet svc.ticketPrice poolData.minPlayers
      poolData.maxPlayers ∈ (createPool svc env poolData w).2.calls ∧
    (poolData.creatorWallet ≠ "" → poolData.name ≠ "" → poolData.minPlayers ≠ 0 →
      poolData.maxPlayers ≠ 0 →
      postPools svc env
        { creatorWallet := some poolData.creatorWallet, name := some poolData.name,
          description := poolData.description, minPlayers := some poolData.minPlayers,
          maxPlayers := some poolData.maxPlayers, startTime := poolData.startTime,
          endTime := poolData.endTime } w = createPool svc env poolData w) := by
  have h := createPool_quiet svc env poolData w hvalid hquiet
  unfold Op.wp at h
  refine ⟨h.1, rfl, rfl, h.2.1, h.2.2, ?_⟩
  intro h1 h2 h3 h4
  simp [postPools, falsyString, falsyNumber, h1, h2, h3, h4]

theorem createPool_checks_wallet_only_witness :
    (createPool LotteryService.default Env.quiet PoolData.inverted World.empty).1 =
      .ok { pool := createdPool LotteryService.default Env.quiet PoolData.inverted World.empty
            transaction := (Env.quiet.createLotteryPool PoolData.inverted.creatorWallet
              LotteryService.default.ticketPrice PoolData.inverted.minPlayers
              PoolData.inverted.maxPlayers).transaction } ∧
    (createdPool LotteryService.default Env.quiet PoolData.inverted World.empty).min_players =
      PoolData.inverted.minPlayers ∧
    (createdPool LotteryService.default Env.quiet PoolData.inverted World.empty).max_players =
      PoolData.inverted.maxPlayers ∧
    (createPool LotteryService.default Env.quiet PoolData.inverted World.empty).2.pg.pools =
      World.empty.pg.pools ++
        [createdPool LotteryService.default Env.quiet PoolData.inverted World.empty] ∧
    Call.solanaCreateLotteryPool PoolData.inverted.creatorWallet
      LotteryService.default.ticketPrice PoolData.inverted.minPlayers
      PoolData.inverted.maxPlayers ∈
      (createPool LotteryService.default Env.quiet PoolData.inverted World.empty).2.calls ∧
    (PoolData.inverted.creatorWallet ≠ "" → PoolData.inverted.name ≠ "" →
      PoolData.inverted.minPlayers ≠ 0 → PoolData.inverted.maxPlayers ≠ 0 →
      postPools LotteryService.default Env.quiet
        { creatorWallet := some PoolData.inverted.creatorWallet
          name := some PoolData.inverted.name
          description := PoolData.inverted.description
          minPlayers := some PoolData.inverted.minPlayers
          maxPlayers := some PoolData.inverted.maxPlayers
          startTime := PoolData.inverted.startTime
          endTime := PoolData.inverted.endTime } World.empty =
        createPool LotteryService.default Env.quiet PoolData.inverted World.empty) :=
  createPool_checks_wallet_only LotteryService.default Env.quiet PoolData.inverted World.empty
    (by simp [Env.quiet, PoolData.inverted]) (fun _ _ => rfl)

/-- C14: for a creator wallet that `isValidSolanaAddress` rejects, `createPool` fails with
`Invalid creator wallet address`, and the world it leaves is the one it started in with one more
log line: no call was issued (no user lookup or creation, no ledger call) and no row, aggregate
or activity log entry was written. -/
theorem createPool_rejects_invalid_wallet (svc : LotteryService) (env : Env)
    (poolData : PoolData) (w : World)
    (h : env.isValidSolanaAddress poolData.creatorWallet = false) :
    createPool svc env poolData w =
      (.error "Invalid creator wallet address",
       { w with logs := w.logs ++
          ["Error creating lottery pool:" ++ " " ++ "Invalid creator wallet address"] }) := by
  simp [createPool, Op.tryCatch, h, Op.throw, loggerError, Op.bind_run]

theorem createPool_rejects_invalid_wallet_witness :
    Env.quiet.isValidSolanaAddress
        ({ PoolData.inverted with creatorWallet := "bad" } : PoolData).creatorWallet = false ∧
    createPool LotteryService.default Env.quiet
        { PoolData.inverted with creatorWallet := "bad" } World.empty =
      (.error "Invalid creator wallet address",
       { World.empty with logs := World.empty.logs ++
          ["Error creating lottery pool:" ++ " " ++ "Invalid creator wallet address"] }) :=
  ⟨by simp [Env.quiet],
   createPool_rejects_invalid_wallet _ _ _ _ (by simp [Env.quiet])⟩

set_option maxHeartbeats 1000000 in
theorem createPool_wp_ledger_failure (svc : LotteryService) (env : Env)
    (poolData : PoolData) (w : World) (e : String)
    (hledger : ∀ w0, env.failure w0 (.solanaCreateLotteryPool poolData.creatorWallet
      svc.ticketPrice poolData.minPlayers poolData.maxPlayers) = some e) :
    Op.wp (createPool svc env poolData) w (fun r w1 =>
      (∃ e1, r = .error e1) ∧
      w1.pg.pools = w.pg.pools ∧
      w1.pg.transactions = w.pg.transactions ∧
      w1.realTimeStats = w.realTimeStats ∧
      w1.activityLog = w.activityLog ∧
      (w1.pg.users = w.pg.users ∨
        (w.pg.users.find? (fun u => u.wallet_address == poolData.creatorWallet) = none ∧
         w1.pg.users = w.pg.users ++
          [{ id := w.pg.users.length + 1, wallet_address := poolData.creatorWallet }])) ∧
      ((∃ u, w.pg.users.find? (fun u => u.wallet_address == poolData.creatorWallet) = some u) →
        w1.pg.users = w.pg.users)) := by
  unfold createPool
  rw [Op.wp_tryCatch]
  by_cases hv : env.isValidSolanaAddress poolData.creatorWallet = true
  · simp only [hv, Bool.not_true, Bool.false_eq_true, if_false, Op.wp_bind, getUserByWallet,
      executeQuery, Op.wp_tryCatch, Op.wp_external, Op.wp_getWorld, Op.wp_pure]
    cases h1 : env.failure w (.getUserByWallet poolData.creatorWallet) with
    | some e1 =>
      simp only [Op.wp_loggerError, Op.wp_throw, Op.wp_bind]
      exact ⟨⟨_, rfl⟩, trivial, trivial, trivial, trivial, Or.inl trivial, fun _ => trivial⟩
    | none =>
      simp only []
      cases hf : List.find? (fun u => u.wallet_address == poolData.creatorWallet)
          w.pg.users with
      | some u =>
        simp only [Op.wp_bind, Op.wp_pure, Op.wp_external, hledger, Op.wp_loggerError,
          Op.wp_throw]
        exact ⟨⟨_, rfl⟩, trivial, trivial, trivial, trivial, Or.inl trivial, fun _ => trivial⟩
      | none =>
        simp only [Op.wp_bind, createUser, executeQuery, Op.wp_tryCatch, Op.wp_external,
          Op.wp_getWorld, Op.wp_modifyWorld, Op.wp_pure]
        generalize h2 : env.failure _ (.createUser poolData.creatorWallet) = o
        cases o with
        | some e2 =>
          simp only [Op.wp_loggerError, Op.wp_throw, Op.wp_bind]
          refine ⟨⟨_, rfl⟩, trivial, trivial, trivial, trivial, Or.inl trivial, ?_⟩
          simp
        | none =>
          simp only [Op.wp_bind, Op.wp_pure, Op.wp_external, hledger, Op.wp_loggerError,
            Op.wp_throw]
          refine ⟨⟨_, rfl⟩, trivial, trivial, trivial, trivial, Or.inr ⟨trivial, trivial⟩, ?_⟩
          simp
  · have hv2 : env.isValidSolanaAddress poolData.creatorWallet = false := by
      simpa using hv
    simp only [hv2, Bool.not_false, if_true, Op.wp_throw, Op.wp_bind, Op.wp_loggerError]
    exact ⟨⟨_, rfl⟩, trivial, trivial, trivial, trivial, Or.inl trivial, fun _ => trivial⟩

set_option maxHeartbeats 1000000 in
/-- A pool creation by an unknown wallet when the ledger refuses it: the error reaches the
caller and the user row created before the ledger call stays. -/
theorem createPool_poolLedgerDown_run :
    Op.wp (createPool LotteryService.default Env.poolLedgerDown PoolData.inverted) World.empty
      (fun r w1 => r = .error "ledger unavailable" ∧
        w1.pg.users = [{ id := 1, wallet_address := "A" }] ∧ w1.pg.pools = []) := by
  simp [createPool, getUserByWallet, createUser, executeQuery,
    Op.wp_tryCatch, Op.wp_bind, Op.wp_pure, Op.wp_throw, Op.wp_external,
    Op.wp_loggerError, Op.wp_getWorld, Op.wp_modifyWorld,
    Env.poolLedgerDown, Env.quiet, World.empty, PoolData.inverted]

/-- C15 (counterexample): when the ledger fails to create the pool for a creator wallet that
was not known before, `createPool` fails and the record store is not as it was before the call:
the user row of the creator has been created. -/
theorem createPool_ledger_failure_leaves_user :
    (createPool LotteryService.default Env.poolLedgerDown PoolData.inverted World.empty).1 =
      .error "ledger unavailable" ∧
    World.empty.pg.users = [] ∧
    (createPool LotteryService.default Env.poolLedgerDown PoolData.inverted
      World.empty).2.pg.users = [{ id := 1, wallet_address := "A" }] := by
  have h := createPool_poolLedgerDown_run
  unfold Op.wp at h
  exact ⟨h.1, rfl, h.2.1⟩

set_option maxHeartbeats 2000000 in
/-- What `createLotteryPool` leaves behind: both rows when it succeeds; no pool row when it
fails, and no aggregate row either unless the failing statement is the `COMMIT`. -/
theorem createLotteryPool_wp (env : Env) (poolData : LotteryPoolData) (w : World) :
    Op.wp (createLotteryPool env poolData) w (fun r w1 =>
      (∀ pool, r = .ok pool →
        pool = insertedPool poolData w ∧
        w1.pg.pools = w.pg.pools ++ [insertedPool poolData w] ∧
        w1.realTimeStats = w.realTimeStats ++ [insertedStats env w]) ∧
      (∀ e, r = .error e →
        w1.pg.pools = w.pg.pools ∧
        ((∀ w0, env.failure w0 (.pgQuery "COMMIT") = none) →
          w1.realTimeStats = w.realTimeStats))) := by
  simp only [createLotteryPool, withTransaction, insertedPool, insertedStats,
    Op.wp_tryCatch, Op.wp_tryFinally, Op.wp_bind, Op.wp_pure, Op.wp_throw, Op.wp_external,
    Op.wp_loggerError, Op.wp_getWorld, Op.wp_modifyWorld, Op.wp_record, Op.wp_dateNow]
  generalize env.failure _ Call.pgConnect = o1
  cases o1 with
  | some e1 => simp
  | none =>
    simp only []
    generalize env.failure _ (Call.pgQuery "BEGIN") = o2
    cases o2 with
    | some e2 =>
      simp only []
      generalize env.failure _ (Call.pgQuery "ROLLBACK") = o6
      cases o6 <;> simp
    | none =>
      simp only []
      generalize env.failure _ (Call.pgQuery "INSERT INTO lottery_pools") = o3
      cases o3 with
      | some e3 =>
        simp only []
        generalize env.failure _ (Call.pgQuery "ROLLBACK") = o6
        cases o6 <;> simp
      | none =>
        simp only []
        generalize env.failure _ (Call.createRealTimeStats _) = o4
        cases o4 with
        | some e4 =>
          simp only []
          generalize env.failure _ (Call.pgQuery "ROLLBACK") = o6
          cases o6 <;> simp
        | none =>
          simp only []
          generalize h5 : env.failure _ (Call.pgQuery "COMMIT") = o5
          cases o5 with
          | some e5 =>
            simp only []
            generalize env.failure _ (Call.pgQuery "ROLLBACK") = o6
            cases o6 with
            | some e6 =>
              simp only [reduceCtorEq, false_implies, implies_true, true_and, Except.error.injEq]
              intro _ _ hq
              simp [hq] at h5
            | none =>
              simp only [reduceCtorEq, false_implies, implies_true, true_and, Except.error.injEq]
              intro _ _ hq
              simp [hq] at h5
          | none => simp

/-- A pool creation whose `COMMIT` fails. -/
theorem createLotteryPool_commitDown_run :
    Op.wp (createLotteryPool Env.commitDown LotteryPoolData.sample) World.empty
      (fun r w1 => r = .error "commit failed" ∧ w1.pg.pools = [] ∧
        w1.realTimeStats = [{ poolId := "1", currentPrizePool := 0, activeParticipants := 0,
                              totalTicketsSold := 0, lastUpdated := 1000 }]) := by
  simp [createLotteryPool, withTransaction,
    Op.wp_tryCatch, Op.wp_tryFinally, Op.wp_bind, Op.wp_pure, Op.wp_throw, Op.wp_external,
    Op.wp_loggerError, Op.wp_getWorld, Op.wp_modifyWorld, Op.wp_record, Op.wp_dateNow,
    Env.commitDown, Env.quiet, World.empty]
  rfl

/-- C16 (the code at the failing input): when the `COMMIT` of `createLotteryPool` fails, the
pool row is rolled back and the aggregate row of the pool, written to the document store before
the `COMMIT`, remains: one of the two rows exists without the other. -/
theorem createLotteryPool_commit_failure_leaves_aggregate :
    (createLotteryPool Env.commitDown LotteryPoolData.sample World.empty).1 =
      .error "commit failed" ∧
    (createLotteryPool Env.commitDown LotteryPoolData.sample World.empty).2.pg.pools = [] ∧
    (createLotteryPool Env.commitDown LotteryPoolData.sample World.empty).2.realTimeStats =
      [{ poolId := "1", currentPrizePool := 0, activeParticipants := 0, totalTicketsSold := 0,
         lastUpdated := 1000 }] :=
  createLotteryPool_commitDown_run

/-- The rows after `createLotteryPool`: when it succeeds, the pool row (status `pending`) and
its aggregate row (three counters at 0) both exist; when it fails, the pool row does not exist,
and the aggregate row does not exist either whenever the failing statement is not the
`COMMIT`. -/
theorem createLotteryPool_rows (env : Env) (poolData : LotteryPoolData) (w : World) :
    (∀ pool, (createLotteryPool env poolData w).1 = .ok pool →
      pool = insertedPool poolData w ∧ pool.status = "pending" ∧
      (createLotteryPool env poolData w).2.pg.pools = w.pg.pools ++ [pool] ∧
      (createLotteryPool env poolData w).2.realTimeStats =
        w.realTimeStats ++ [insertedStats env w] ∧
      (insertedStats env w).poolId = pool.id ∧
      (insertedStats env w).currentPrizePool = 0 ∧
      (insertedStats env w).activeParticipants = 0 ∧
      (insertedStats env w).totalTicketsSold = 0) ∧
    (∀ e, (createLotteryPool env poolData w).1 = .error e →
      (createLotteryPool env poolData w).2.pg.pools = w.pg.pools ∧
      ((∀ w0, env.failure w0 (.pgQuery "COMMIT") = none) →
        (createLotteryPool env poolData w).2.realTimeStats = w.realTimeStats)) := by
  have h := createLotteryPool_wp env poolData w
  unfold Op.wp at h
  refine ⟨?_, h.2⟩
  intro pool hp
  obtain ⟨h1, h2, h3⟩ := h.1 pool hp
  subst h1
  exact ⟨rfl, rfl, h2, h3, rfl, rfl, rfl, rfl⟩

set_option maxHeartbeats 2000000 in
/-- The transaction table after `confirmTransaction`: the `UPDATE` applied to every row when it
succeeds, the table as before when it fails; and it succeeds when no external call fails. -/
theorem confirmTransaction_wp (env : Env) (signature : String) (w : World) :
    Op.wp (confirmTransaction env signature) w (fun r w1 =>
      (∀ row, r = .ok row →
        w1.pg.transactions =
          w.pg.transactions.map (TransactionRow.confirm signature (env.dateNow w.tick))) ∧
      (∀ e, r = .error e → w1.pg.transactions = w.pg.transactions) ∧
      ((∀ w0 c, env.failure w0 c = none) → ∃ row, r = .ok row)) := by
  simp only [confirmTransaction, withTransaction,
    Op.wp_tryCatch, Op.wp_tryFinally, Op.wp_bind, Op.wp_pure, Op.wp_throw, Op.wp_external,
    Op.wp_loggerError, Op.wp_getWorld, Op.wp_modifyWorld, Op.wp_record, Op.wp_dateNow]
  generalize h1 : env.failure _ Call.pgConnect = o1
  cases o1 with
  | some e1 =>
    simp only [reduceCtorEq, false_implies, implies_true, true_and, Except.error.injEq]
    intro hq
    simp [hq] at h1
  | none =>
    simp only []
    generalize h2 : env.failure _ (Call.pgQuery "BEGIN") = o2
    cases o2 with
    | some e2 =>
      simp only []
      generalize env.failure _ (Call.pgQuery "ROLLBACK") = o6
      cases o6 <;>
      · simp only [reduceCtorEq, false_implies, implies_true, true_and, Except.error.injEq]
        intro hq
        simp [hq] at h2
    | none =>
      simp only []
      generalize h3 : env.failure _ (Call.pgQuery "UPDATE transactions") = o3
      cases o3 with
      | some e3 =>
        simp only []
        generalize env.failure _ (Call.pgQuery "ROLLBACK") = o6
        cases o6 <;>
        · simp only [reduceCtorEq, false_implies, implies_true, true_and, Except.error.injEq]
          intro hq
          simp [hq] at h3
      | none =>
        simp only []
        generalize h5 : env.failure _ (Call.pgQuery "COMMIT") = o5
        cases o5 with
        | some e5 =>
          simp only []
          generalize env.failure _ (Call.pgQuery "ROLLBACK") = o6
          cases o6 <;>
          · simp only [reduceCtorEq, false_implies, implies_true, true_and, Except.error.injEq]
            intro hq
            simp [hq] at h5
        | none => simp

theorem createTransaction_pending (env : Env) (t : TransactionData) (w : World) :
    Op.wp (createTransaction env t) w (fun r _ =>
      ∀ row, r = .ok row → row.status = "pending" ∧ row.confirmed_at = none) := by
  apply wp_createTransaction
  · intro e cs ls row h
    simp at h
  · intro cs row h
    simp only [Except.ok.injEq] at h
    subst h
    exact ⟨rfl, rfl⟩

/-- C17 (counterexample): `confirmTransaction` on the signature of a transaction whose status
is `failed` turns it into `confirmed`, and on the signature of a transaction confirmed at time
5 overwrites its confirmation time with the current time, 1000. -/
theorem confirmTransaction_overwrites_terminal_rows :
    (confirmTransaction Env.quiet "s1" World.withTransactions).2.pg.transactions.map
        (fun t => (t.signature, t.status, t.confirmed_at)) =
      [("s1", "confirmed", some 1000), ("s2", "confirmed", some 5)] ∧
    (confirmTransaction Env.quiet "s2" World.withTransactions).2.pg.transactions.map
        (fun t => (t.signature, t.status, t.confirmed_at)) =
      [("s1", "failed", none), ("s2", "confirmed", some 1000)] := by
  have h1 := confirmTransaction_wp Env.quiet "s1" World.withTransactions
  have h2 := confirmTransaction_wp Env.quiet "s2" World.withTransactions
  unfold Op.wp at h1 h2
  obtain ⟨r1, hr1⟩ := h1.2.2 (fun _ _ => rfl)
  obtain ⟨r2, hr2⟩ := h2.2.2 (fun _ _ => rfl)
  rw [h1.1 r1 hr1, h2.1 r2 hr2]
  simp [World.withTransactions, World.empty, TransactionRow.confirm, Env.quiet]

/-- C17 (amended): a transaction is created with status `pending` and no confirmation time.
`confirmTransaction(signature)`, when it succeeds, sets the status of every row with that
signature to `confirmed` and its confirmation time to the current time, whatever the status of
the row was, and leaves the rows with another signature as they are; when it fails the table
is as before; and it succeeds when no external call fails. -/
theorem confirmTransaction_updates_by_signature (env : Env) (t : TransactionData)
    (signature : String) (w : World) :
    (∀ row, (createTransaction env t w).1 = .ok row →
      row.status = "pending" ∧ row.confirmed_at = none) ∧
    (∀ row, (confirmTransaction env signature w).1 = .ok row →
      (confirmTransaction env signature w).2.pg.transactions =
        w.pg.transactions.map (TransactionRow.confirm signature (env.dateNow w.tick))) ∧
    (∀ x : TransactionRow, x.signature = signature →
      (TransactionRow.confirm signature (env.dateNow w.tick) x).status = "confirmed" ∧
      (TransactionRow.confirm signature (env.dateNow w.tick) x).confirmed_at =
        some (env.dateNow w.tick)) ∧
    (∀ x : TransactionRow, x.signature ≠ signature →
      TransactionRow.confirm signature (env.dateNow w.tick) x = x) ∧
    (∀ e, (confirmTransaction env signature w).1 = .error e →
      (confirmTransaction env signature w).2.pg.transactions = w.pg.transactions) ∧
    ((∀ w0 c, env.failure w0 c = none) →
      ∃ row, (confirmTransaction env signature w).1 = .ok row) := by
  have h := confirmTransaction_wp env signature w
  have hc := createTransaction_pending env t w
  unfold Op.wp at h hc
  refine ⟨hc, h.1, ?_, ?_, h.2.1, h.2.2⟩
  · intro x hx
    simp [TransactionRow.confirm, hx]
  · intro x hx
    simp [TransactionRow.confirm, hx]

/-- C20 (amended): in the socket connection middleware, a handshake with no wallet address or
with the empty string as wallet address is accepted with the socket and the stores untouched,
without the address being validated; a handshake with a non-empty address that fails
`isValidSolanaAddress` is rejected with `Invalid wallet address`, no wallet attached and
nothing logged; a handshake with a non-empty valid address has that address attached to the
socket, and is accepted, with one `SOCKET_CONNECTED` activity logged, exactly when logging
that activity succeeds: when logging fails the connection is rejected with the error of the
store and nothing is logged. -/
theorem connectionMiddleware_outcomes (env : Env) (handshake : Handshake) (socket : Socket)
    (w : World) :
    ((handshake.walletAddress = none ∨ handshake.walletAddress = some "") →
      connectionMiddleware env handshake socket w = ((socket, none), w)) ∧
    (∀ a, handshake.walletAddress = some a → a ≠ "" →
      env.isValidSolanaAddress a = false →
      connectionMiddleware env handshake socket w =
        ((socket, some "Invalid wallet address"), w)) ∧
    (∀ a, handshake.walletAddress = some a → a ≠ "" →
      env.isValidSolanaAddress a = true →
      (connectionMiddleware env handshake socket w).1.1 =
        { socket with walletAddress := some a } ∧
      (env.failure w (.logActivity
          { activityType := "SOCKET_CONNECTED", walletAddress := some a, poolId := none,
            data := [("socketId", socket.id), ("userAgent", handshake.userAgent)] }) = none →
        (connectionMiddleware env handshake socket w).1.2 = none ∧
        (connectionMiddleware env handshake socket w).2.activityLog = w.activityLog ++
          [{ activityType := "SOCKET_CONNECTED", walletAddress := some a, poolId := none,
             data := [("socketId", socket.id), ("userAgent", handshake.userAgent)] }]) ∧
      (∀ e, env.failure w (.logActivity
          { activityType := "SOCKET_CONNECTED", walletAddress := some a, poolId := none,
            data := [("socketId", socket.id), ("userAgent", handshake.userAgent)] }) = some e →
        (connectionMiddleware env handshake socket w).1.2 = some e ∧
        (connectionMiddleware env handshake socket w).2.activityLog = w.activityLog)) := by
  refine ⟨?_, ?_, ?_⟩
  · rintro (h | h) <;> simp [connectionMiddleware, h]
  · intro a ha hne hv
    simp [connectionMiddleware, ha, hne, hv]
  · intro a ha hne hv
    refine ⟨?_, ?_, ?_⟩
    · simp only [connectionMiddleware, ha, hv]
      simp only [beq_iff_eq, hne, if_false, Bool.not_true, Bool.false_eq_true]
      split <;> rfl
    · intro hok
      simp [connectionMiddleware, ha, hne, hv, logActivity, Op.tryCatch, Op.bind_run,
        Op.pure_run, external, modifyWorld, hok]
    · intro e herr
      simp [connectionMiddleware, ha, hne, hv, logActivity, Op.tryCatch, Op.bind_run,
        Op.pure_run, external, modifyWorld, loggerError, Op.throw, herr]

/-- C20 (counterexample): a handshake with the valid address `A` is rejected when the
activity log cannot be written, with the address already attached to the socket; and a
handshake whose address is the empty string, which fails validation, is accepted. -/
theorem connectionMiddleware_rejects_valid_address :
    Env.activityLogDown.isValidSolanaAddress "A" = true ∧
    (connectionMiddleware Env.activityLogDown { walletAddress := some "A", userAgent := "ua" }
        { id := "s", walletAddress := none } World.empty).1 =
      ({ id := "s", walletAddress := some "A" }, some "document store unavailable") ∧
    Env.quiet.isValidSolanaAddress "" = false ∧
    (connectionMiddleware Env.quiet { walletAddress := some "", userAgent := "ua" }
        { id := "s", walletAddress := none } World.empty).1 =
      ({ id := "s", walletAddress := none }, none) := by
  refine ⟨by simp [Env.activityLogDown, Env.quiet], ?_, by simp [Env.quiet], ?_⟩
  · simp [connectionMiddleware, Env.activityLogDown, Env.quiet, logActivity, Op.tryCatch,
      Op.bind_run, Op.pure_run, external, modifyWorld, loggerError, Op.throw]
  · simp [connectionMiddleware]

/-! ## errorHandler -/

/-- C22: outside development mode, an error that is not marked operational is answered with
status 500 and the fixed body `status: error, message: Something went wrong`, without the
error or its stack, so the response is the same for any two such errors; an operational error
is answered with its own status code, status and message (500 and `error` where the error
carries none), without the error object or its stack. -/
theorem errorHandler_hides_unknown_errors (nodeEnv : Option String) (err err2 : HttpError)
    (w : World) (hmode : nodeEnv ≠ some "development") :
    (err.isOperational = false →
      (errorHandler nodeEnv err w).1 =
        .ok { statusCode := 500, status := "error", message := "Something went wrong",
              error := none, stack := none }) ∧
    (err.isOperational = false → err2.isOperational = false →
      (errorHandler nodeEnv err w).1 = (errorHandler nodeEnv err2 w).1) ∧
    (err.isOperational = true →
      (errorHandler nodeEnv err w).1 =
        .ok { statusCode := orElse err.statusCode 500, status := orString err.status "error",
              message := err.message, error := none, stack := none }) ∧
    (∀ c s, err.isOperational = true → err.statusCode = some c → c ≠ 0 →
      err.status = some s → s ≠ "" →
      (errorHandler nodeEnv err w).1 =
        .ok { statusCode := c, status := s, message := err.message, error := none,
              stack := none }) := by
  have hm : (nodeEnv == some "development") = false := by
    simpa using hmode
  have key : ∀ e : HttpError, (errorHandler nodeEnv e w).1 =
      if e.isOperational then
        .ok { statusCode := orElse e.statusCode 500, status := orString e.status "error",
              message := e.message, error := none, stack := none }
      else
        .ok { statusCode := 500, status := "error", message := "Something went wrong",
              error := none, stack := none } := by
    intro e
    simp only [errorHandler, hm, Op.bind_run, loggerError]
    cases e.isOperational <;> simp [Op.pure_run]
  refine ⟨?_, ?_, ?_, ?_⟩
  · intro h
    rw [key, h]; simp
  · intro h h2
    rw [key, key, h, h2]; simp
  · intro h
    rw [key, h]; simp
  · intro c s h hc hc0 hs hs0
    rw [key, h]
    simp [orElse, orString, hc, hc0, hs, hs0]

theorem errorHandler_hides_unknown_errors_witness :
    ((({ message := "connect ECONNREFUSED 10.0.0.5:5432", stack := "at pg", statusCode := none,
         status := none, isOperational := false } : HttpError).isOperational = false →
      (errorHandler (some "production")
        { message := "connect ECONNREFUSED 10.0.0.5:5432", stack := "at pg",
          statusCode := none, status := none, isOperational := false } World.empty).1 =
        .ok { statusCode := 500, status := "error", message := "Something went wrong",
              error := none, stack := none }) ∧
    (({ message := "connect ECONNREFUSED 10.0.0.5:5432", stack := "at pg", statusCode := none,
         status := none, isOperational := false } : HttpError).isOperational = false →
      ({ message := "boom", stack := "at x", statusCode := some 418, status := some "fail",
         isOperational := false } : HttpError).isOperational = false →
      (errorHandler (some "production")
        { message := "connect ECONNREFUSED 10.0.0.5:5432", stack := "at pg",
          statusCode := none, status := none, isOperational := false } World.empty).1 =
      (errorHandler (some "production")
        { message := "boom", stack := "at x", statusCode := some 418, status := some "fail",
          isOperational := false } World.empty).1) ∧
    (({ message := "connect ECONNREFUSED 10.0.0.5:5432", stack := "at pg", statusCode := none,
         status := none, isOperational := false } : HttpError).isOperational = true →
      (errorHandler (some "production")
        { message := "connect ECONNREFUSED 10.0.0.5:5432", stack := "at pg",
          statusCode := none, status := none, isOperational := false } World.empty).1 =
        .ok { statusCode := orElse (none : Option Nat) 500,
              status := orString none "error",
              message := "connect ECONNREFUSED 10.0.0.5:5432", error := none,
              stack := none }) ∧
    (∀ c s, ({ message := "connect ECONNREFUSED 10.0.0.5:5432", stack := "at pg",
               statusCode := none, status := none,
               isOperational := false } : HttpError).isOperational = true →
      (none : Option Nat) = some c → c ≠ 0 → (none : Option String) = some s → s ≠ "" →
      (errorHandler (some "production")
        { message := "connect ECONNREFUSED 10.0.0.5:5432", stack := "at pg",
          statusCode := none, status := none, isOperational := false } World.empty).1 =
        .ok { statusCode := c, status := s,
              message := "connect ECONNREFUSED 10.0.0.5:5432", error := none,
              stack := none })) :=
  errorHandler_hides_unknown_errors (some "production")
    { message := "connect ECONNREFUSED 10.0.0.5:5432", stack := "at pg", statusCode := none,
      status := none, isOperational := false }
    { message := "boom", stack := "at x", statusCode := some 418, status := some "fail",
      isOperational := false } World.empty (by decide)

/-! ## withTransaction -/

/-- C27 (amended): `withTransaction` first obtains a client; when that fails it fails with
that error and issues nothing else.  Otherwise it issues `BEGIN` and runs the callback.  When
the callback completes and `COMMIT` succeeds, it returns the result of the callback, having
issued `COMMIT`, no `ROLLBACK`, and one release of the client.  When the callback completes
and `COMMIT` fails, it issues `ROLLBACK` after the `COMMIT`, releases the client once and
fails, the tables being as at the start.  When the callback fails, it issues `ROLLBACK` and no
`COMMIT`, releases the client once, and fails with the error of the callback when `ROLLBACK`
succeeds and with the error of `ROLLBACK` when `ROLLBACK` fails.  When `BEGIN` fails the
callback is not run, `ROLLBACK` is issued and the client is released once. -/
theorem withTransaction_commit_rollback {α : Type} (env : Env) (callback : Op α) (w : World) :
    (∀ e, env.failure w .pgConnect = some e →
      withTransaction env callback w = (.error e, { w with calls := w.calls ++ [.pgConnect] })) ∧
    (env.failure w .pgConnect = none →
      (∀ e, env.failure { w with calls := w.calls ++ [.pgConnect] } (.pgQuery "BEGIN") = some e →
        (withTransaction env callback w).2.calls =
          w.calls ++ [.pgConnect, .pgQuery "BEGIN", .pgQuery "ROLLBACK", .pgRelease]) ∧
      (env.failure { w with calls := w.calls ++ [.pgConnect] } (.pgQuery "BEGIN") = none →
        (∀ a w3, callback { w with calls := w.calls ++ [.pgConnect, .pgQuery "BEGIN"] } =
            (.ok a, w3) →
          (env.failure w3 (.pgQuery "COMMIT") = none →
            withTransaction env callback w =
              (.ok a, { w3 with calls := w3.calls ++ [.pgQuery "COMMIT", .pgRelease] })) ∧
          (∀ e, env.failure w3 (.pgQuery "COMMIT") = some e →
            (∃ e1, (withTransaction env callback w).1 = .error e1) ∧
            (withTransaction env callback w).2.calls =
              w3.calls ++ [.pgQuery "COMMIT", .pgQuery "ROLLBACK", .pgRelease] ∧
            (withTransaction env callback w).2.pg = w.pg)) ∧
        (∀ e w3, callback { w with calls := w.calls ++ [.pgConnect, .pgQuery "BEGIN"] } =
            (.error e, w3) →
          (withTransaction env callback w).2 =
            { w3 with pg := w.pg, calls := w3.calls ++ [.pgQuery "ROLLBACK", .pgRelease] } ∧
          (env.failure { w3 with pg := w.pg } (.pgQuery "ROLLBACK") = none →
            (withTransaction env callback w).1 = .error e) ∧
          (∀ e2, env.failure { w3 with pg := w.pg } (.pgQuery "ROLLBACK") = some e2 →
            (withTransaction env callback w).1 = .error e2)))) := by
  refine ⟨?_, ?_⟩
  · intro e he
    simp [withTransaction, Op.bind_run, external, he]
  · intro hc
    refine ⟨?_, ?_⟩
    · intro e hb
      simp only [withTransaction, Op.bind_run, external, hc, getWorld, Op.tryFinally,
        Op.tryCatch, hb, modifyWorld, record, Op.throw]
      cases h : env.failure _ (.pgQuery "ROLLBACK") <;> simp
    · intro hb
      refine ⟨?_, ?_⟩
      · intro a w3 hcb
        refine ⟨?_, ?_⟩
        · intro hcm
          simp [withTransaction, Op.bind_run, external, hc, getWorld, Op.tryFinally,
            Op.tryCatch, hb, modifyWorld, record, Op.throw, hcb, hcm, Op.pure_run]
        · intro e hcm
          simp only [withTransaction, Op.bind_run, external, hc, getWorld, Op.tryFinally,
            Op.tryCatch, hb, modifyWorld, record, Op.throw, List.append_assoc,
            List.singleton_append, hcb, hcm, Op.pure_run]
          cases h : env.failure _ (.pgQuery "ROLLBACK") <;> simp
      · intro e w3 hcb
        simp only [withTransaction, Op.bind_run, external, hc, getWorld, Op.tryFinally,
          Op.tryCatch, hb, modifyWorld, record, Op.throw, List.append_assoc,
          List.singleton_append, hcb, Op.pure_run]
        cases h : env.failure { w3 with pg := w.pg } (.pgQuery "ROLLBACK") <;> simp [h]

/-- C27 (counterexample): when the callback fails and `ROLLBACK` fails too, `withTransaction`
throws the error of `ROLLBACK`, not the error of the callback; and when the callback completes
with 7 and `COMMIT` fails, the result is not returned and `ROLLBACK` is issued. -/
theorem withTransaction_masks_callback_error :
    (withTransaction Env.rollbackDown (Op.throw "callback failed" : Op Nat) World.empty).1 =
      .error "rollback failed" ∧
    (withTransaction Env.commitDown (pure 7 : Op Nat) World.empty).1 =
      .error "commit failed" ∧
    (withTransaction Env.commitDown (pure 7 : Op Nat) World.empty).2.calls =
      [.pgConnect, .pgQuery "BEGIN", .pgQuery "COMMIT", .pgQuery "ROLLBACK", .pgRelease] := by
  have h1 : Op.wp (withTransaction Env.rollbackDown (Op.throw "callback failed" : Op Nat))
      World.empty (fun r _ => r = .error "rollback failed") := by
    simp [withTransaction, Op.wp_tryCatch, Op.wp_tryFinally, Op.wp_bind, Op.wp_pure,
      Op.wp_throw, Op.wp_external, Op.wp_getWorld, Op.wp_modifyWorld, Op.wp_record,
      Env.rollbackDown, Env.quiet, World.empty]
  have h2 : Op.wp (withTransaction Env.commitDown (pure 7 : Op Nat)) World.empty
      (fun r w1 => r = .error "commit failed" ∧ w1.calls =
        [.pgConnect, .pgQuery "BEGIN", .pgQuery "COMMIT", .pgQuery "ROLLBACK", .pgRelease]) := by
    simp [withTransaction, Op.wp_tryCatch, Op.wp_tryFinally, Op.wp_bind, Op.wp_pure,
      Op.wp_throw, Op.wp_external, Op.wp_getWorld, Op.wp_modifyWorld, Op.wp_record,
      Env.commitDown, Env.quiet, World.empty]
  unfold Op.wp at h1 h2
  exact ⟨h1, h2.1, h2.2⟩

/-! ## retryOperation -/

theorem retryLoop_spec {α : Type} (operation : Op α) :
    ∀ (remaining i : Nat) (lastError : Option String) (t : RetryTrace),
    ∃ k, k ≤ remaining ∧
      (retryLoop operation remaining i lastError t).2.delays =
        t.delays ++ (List.range k).map (fun j => 2 ^ (i + j) * 1000) ∧
      ∃ wk last, failedRuns operation k t.world lastError = some (wk, last) ∧
        ((k < remaining ∧ ∃ a w1, operation wk = (.ok a, w1) ∧
            (retryLoop operation remaining i lastError t).1 = .ok a ∧
            (retryLoop operation remaining i lastError t).2.world = w1 ∧
            (retryLoop operation remaining i lastError t).2.invocations =
              t.invocations + k + 1) ∨
         (k = remaining ∧
            (retryLoop operation remaining i lastError t).1 = .error (last.getD "undefined") ∧
            (retryLoop operation remaining i lastError t).2.world = wk ∧
            (retryLoop operation remaining i lastError t).2.invocations =
              t.invocations + k)) := by
  intro remaining
  induction remaining with
  | zero =>
    intro i lastError t
    exact ⟨0, le_refl _, by simp [retryLoop], t.world, lastError, rfl,
      Or.inr ⟨rfl, by simp [retryLoop]⟩⟩
  | succ n ih =>
    intro i lastError t
    rcases hop : operation t.world with ⟨r, w1⟩
    cases r with
    | ok a =>
      refine ⟨0, Nat.zero_le _, by simp [retryLoop, hop], t.world, lastError, rfl,
        Or.inl ⟨Nat.succ_pos _, a, w1, hop, by simp [retryLoop, hop]⟩⟩
    | error e =>
      obtain ⟨k, hk, hd, wk, last, hf, hcase⟩ := ih (i + 1) (some e)
        { world := w1, invocations := t.invocations + 1, delays := t.delays ++ [2 ^ i * 1000] }
      refine ⟨k + 1, Nat.succ_le_succ hk, ?_, wk, last, ?_, ?_⟩
      · have hstep : retryLoop operation (n + 1) i lastError t =
            retryLoop operation n (i + 1) (some e)
              { world := w1, invocations := t.invocations + 1,
                delays := t.delays ++ [2 ^ i * 1000] } := by
          simp only [retryLoop, hop]
        have hm : (List.range k).map (fun j => 2 ^ (i + 1 + j) * 1000) =
            (List.range k).map ((fun j => 2 ^ (i + j) * 1000) ∘ Nat.succ) := by
          apply List.map_congr_left
          intro j _
          show 2 ^ (i + 1 + j) * 1000 = 2 ^ (i + (j + 1)) * 1000
          rw [Nat.add_assoc, Nat.add_comm 1 j]
        rw [hstep, hd, hm, List.range_succ_eq_map, List.map_cons, List.map_map,
          List.append_assoc, List.singleton_append, Nat.add_zero]
      · simpa [failedRuns, hop] using hf
      · rcases hcase with ⟨hlt, a, w2, hok, h1, h2, h3⟩ | ⟨heq, h1, h2, h3⟩
        · refine Or.inl ⟨Nat.succ_lt_succ hlt, a, w2, hok, ?_, ?_, ?_⟩
          · simpa [retryLoop, hop] using h1
          · simpa [retryLoop, hop] using h2
          · simp only [retryLoop, hop]
            rw [h3]
            ring
        · refine Or.inr ⟨by rw [heq], ?_, ?_, ?_⟩
          · simpa [retryLoop, hop] using h1
          · simpa [retryLoop, hop] using h2
          · simp only [retryLoop, hop]
            rw [h3]
            ring

theorem failedRuns_last {α : Type} (operation : Op α) :
    ∀ (k : Nat) (w wk : World) (lastError last : Option String), 0 < k →
      failedRuns operation k w lastError = some (wk, last) → ∃ e, last = some e := by
  intro k
  induction k with
  | zero => intro w wk lastError last h; omega
  | succ n ih =>
    intro w wk lastError last _ hf
    rcases hop : operation w with ⟨r, w1⟩
    cases r with
    | ok a => simp [failedRuns, hop] at hf
    | error e =>
      simp only [failedRuns, hop] at hf
      cases n with
      | zero =>
        simp only [failedRuns, Option.some.injEq, Prod.mk.injEq] at hf
        exact ⟨e, hf.2.symm⟩
      | succ m => exact ih w1 wk (some e) last (Nat.succ_pos _) hf

/-- C26: for every operation and every `maxRetries ≥ 1`, `retryOperation` invokes the
operation at most `maxRetries` times.  With `k` the number of failed invocations before it
stops: it has waited `2^i * 1000` ms after the `i`-th failed invocation, for `i` from 0 to
`k - 1`; either `k < maxRetries`, the next invocation succeeded, its result is returned and
the operation was invoked `k + 1` times and not again, or `k = maxRetries`, every invocation
failed and the error thrown is the error of the last invocation. -/
theorem retryOperation_bounded_backoff {α : Type} (operation : Op α) (maxRetries : Nat)
    (w : World) (h : 1 ≤ maxRetries) :
    (retryOperation operation maxRetries w).2.invocations ≤ maxRetries ∧
    ∃ k, k ≤ maxRetries ∧
      (retryOperation operation maxRetries w).2.delays =
        (List.range k).map (fun i => 2 ^ i * 1000) ∧
      ∃ wk last, failedRuns operation k w none = some (wk, last) ∧
        ((k < maxRetries ∧ ∃ a w1, operation wk = (.ok a, w1) ∧
            (retryOperation operation maxRetries w).1 = .ok a ∧
            (retryOperation operation maxRetries w).2.world = w1 ∧
            (retryOperation operation maxRetries w).2.invocations = k + 1) ∨
         (k = maxRetries ∧ ∃ e, last = some e ∧
            (retryOperation operation maxRetries w).1 = .error e ∧
            (retryOperation operation maxRetries w).2.world = wk ∧
            (retryOperation operation maxRetries w).2.invocations = k)) := by
  obtain ⟨k, hk, hd, wk, last, hf, hcase⟩ := retryLoop_spec operation maxRetries 0 none
    { world := w, invocations := 0, delays := [] }
  simp only [List.nil_append, Nat.zero_add] at hd hcase
  have hinv : (retryOperation operation maxRetries w).2.invocations ≤ maxRetries := by
    rcases hcase with ⟨hlt, a, w1, -, -, -, h3⟩ | ⟨heq, -, -, h3⟩
    · simp only [retryOperation]; omega
    · simp only [retryOperation]; omega
  refine ⟨hinv, k, hk, hd, wk, last, hf, ?_⟩
  rcases hcase with ⟨hlt, a, w1, hok, h1, h2, h3⟩ | ⟨heq, h1, h2, h3⟩
  · exact Or.inl ⟨hlt, a, w1, hok, h1, h2, h3⟩
  · obtain ⟨e, he⟩ := failedRuns_last operation k w wk none last (by omega) hf
    refine Or.inr ⟨heq, e, he, ?_, h2, h3⟩
    rw [he] at h1
    exact h1

theorem retryOperation_bounded_backoff_witness :
    (retryOperation flaky 3 World.empty).2.invocations ≤ 3 ∧
    ∃ k, k ≤ 3 ∧
      (retryOperation flaky 3 World.empty).2.delays =
        (List.range k).map (fun i => 2 ^ i * 1000) ∧
      ∃ wk last, failedRuns flaky k World.empty none = some (wk, last) ∧
        ((k < 3 ∧ ∃ a w1, flaky wk = (.ok a, w1) ∧
            (retryOperation flaky 3 World.empty).1 = .ok a ∧
            (retryOperation flaky 3 World.empty).2.world = w1 ∧
            (retryOperation flaky 3 World.empty).2.invocations = k + 1) ∨
         (k = 3 ∧ ∃ e, last = some e ∧
            (retryOperation flaky 3 World.empty).1 = .error e ∧
            (retryOperation flaky 3 World.empty).2.world = wk ∧
            (retryOperation flaky 3 World.empty).2.invocations = k)) :=
  retryOperation_bounded_backoff flaky 3 World.empty (by decide)

/-- The run of `retryOperation` on an operation that fails twice and then succeeds: three
invocations, delays of 1000 and 2000 ms, and the result of the third invocation. -/
theorem retryOperation_flaky_run :
    (retryOperation flaky 3 World.empty).1 = .ok 42 ∧
    (retryOperation flaky 3 World.empty).2.invocations = 3 ∧
    (retryOperation flaky 3 World.empty).2.delays = [1000, 2000] := by
  simp [retryOperation, retryLoop, flaky, World.empty]

/-! ## determineWinners: who wins -/

theorem mapWinners_tickets (P : Rat) : ∀ (l : List PoolEntry) (i : Nat) (ws : List Winner),
    mapWinners P i l = .ok ws →
      ws.map (fun x => some x.ticketNumber) =
        l.map (fun e => e.tickets.head?.map (fun t => t.ticketNumber)) := by
  intro l
  induction l with
  | nil =>
    intro i ws h
    simp only [mapWinners, Except.ok.injEq] at h
    subst h
    rfl
  | cons entry rest ih =>
    intro i ws h
    simp only [mapWinners] at h
    cases ht : entry.tickets with
    | nil => simp [ht] at h
    | cons ticket tl =>
      simp only [ht] at h
      cases hr : mapWinners P (i + 1) rest with
      | error e => simp [hr] at h
      | ok winners =>
        simp only [hr, Except.ok.injEq] at h
        subst h
        simp [ih (i + 1) winners hr, ht]

/-- C28: for every list of `n` pool entries that each hold at least one ticket and every
prize pool `P`, when the shuffle returns a rearrangement of its input, `determineWinners`
returns `min(3, n)` winners; they are taken, in order, from entries that are different
entries of the input (the chosen entries are a sub-multiset of the input): the wallet of a
winner is the wallet of its entry and its ticket is the first ticket of its entry; and the
first, second and third winner receive 70%, 20% and 10% of `P`. -/
theorem determineWinners_top_three (shuffle : List PoolEntry → List PoolEntry)
    (entries : List PoolEntry) (winningNumbers : List Int) (P : Rat)
    (hperm : (shuffle entries).Perm entries) (ht : ∀ e ∈ entries, e.tickets ≠ []) :
    ∃ (chosen : List PoolEntry) (ws : List Winner), determineWinners shuffle entries winningNumbers P = .ok ws ∧
      chosen.Subperm entries ∧
      ws.length = min 3 entries.length ∧
      chosen.length = ws.length ∧
      ws.map (fun x => x.walletAddress) = chosen.map (fun e => e.walletAddress) ∧
      ws.map (fun x => some x.ticketNumber) =
        chosen.map (fun e => e.tickets.head?.map (fun t => t.ticketNumber)) ∧
      ws.map (fun x => x.prize) = [P * (7 / 10), P * (2 / 10), P * (1 / 10)].take ws.length := by
  have hlen : (shuffle entries).length = entries.length := hperm.length_eq
  obtain ⟨ws, hws, hl, hp, hwal⟩ := mapWinners_cases P ((shuffle entries).take 3)
    (by simp) (fun e he => ht e (hperm.subset (List.mem_of_mem_take he)))
  refine ⟨(shuffle entries).take 3, ws, hws, ?_, ?_, ?_, hwal, ?_, ?_⟩
  · exact (List.take_sublist 3 (shuffle entries)).subperm.trans hperm.subperm
  · rw [hl, List.length_take, hlen]
  · exact hl.symm
  · exact mapWinners_tickets P _ 0 ws hws
  · rw [hp, hl]
    simp [prizeShares, List.map_take]

theorem determineWinners_top_three_witness :
    ∃ (chosen : List PoolEntry) (ws : List Winner), determineWinners (fun l => l.reverse)
        [PoolEntry.single "p" "A" "t1", PoolEntry.single "p" "B" "t2"] [7] 100 = .ok ws ∧
      chosen.Subperm [PoolEntry.single "p" "A" "t1", PoolEntry.single "p" "B" "t2"] ∧
      ws.length = min 3 [PoolEntry.single "p" "A" "t1", PoolEntry.single "p" "B" "t2"].length ∧
      chosen.length = ws.length ∧
      ws.map (fun x => x.walletAddress) = chosen.map (fun e => e.walletAddress) ∧
      ws.map (fun x => some x.ticketNumber) =
        chosen.map (fun e => e.tickets.head?.map (fun t => t.ticketNumber)) ∧
      ws.map (fun x => x.prize) =
        [(100 : Rat) * (7 / 10), 100 * (2 / 10), 100 * (1 / 10)].take ws.length :=
  determineWinners_top_three (fun l => l.reverse)
    [PoolEntry.single "p" "A" "t1", PoolEntry.single "p" "B" "t2"] [7] 100
    (List.reverse_perm _) (by simp [PoolEntry.single])

/-- C29: the winning numbers do not influence who wins: for every list of entries, every prize
pool and every fixed outcome of the shuffle, `determineWinners` returns the same result for any
two lists of winning numbers. -/
theorem determineWinners_ignores_winning_numbers (shuffle : List PoolEntry → List PoolEntry)
    (entries : List PoolEntry) (winningNumbers1 winningNumbers2 : List Int) (P : Rat) :
    determineWinners shuffle entries winningNumbers1 P =
      determineWinners shuffle entries winningNumbers2 P :=
  rfl

/-! ## The realtime hub -/

theorem HubOp.run_bind {α β : Type} (m : HubOp α) (f : α → HubOp β) (h : Hub) :
    (m >>= f) h = match m h with
      | (.ok a, h1) => f a h1
      | (.error e, h1) => (.error e, h1) := rfl

theorem HubOp.run_pure {α : Type} (a : α) (h : Hub) :
    (Pure.pure a : HubOp α) h = (.ok a, h) := rfl

theorem handleSocketError_run (nodeEnv : Option String) (err : String) (h : Hub) :
    handleSocketError nodeEnv err h =
      (.ok (), { h with
        world := { h.world with logs := h.world.logs ++ ["Socket Error:" ++ " " ++ err] }
        emitted := h.emitted ++
          [{ recipient := .socket h.socket.id, event := "error"
             payload := .message
               (if nodeEnv == some "development" then err else "Something went wrong") }] }) :=
  rfl

/-- The catch block of `purchase_tickets`. -/
theorem purchase_tickets_catch (nodeEnv : Option String) (err : String) (h : Hub) :
    (do handleSocketError nodeEnv err
        socketEmit "purchase_error" (.message err) : HubOp Unit) h =
      (.ok (), { h with
        world := { h.world with logs := h.world.logs ++ ["Socket Error:" ++ " " ++ err] }
        emitted := h.emitted ++
          [{ recipient := .socket h.socket.id, event := "error"
             payload := .message
               (if nodeEnv == some "development" then err else "Something went wrong") },
           { recipient := .socket h.socket.id, event := "purchase_error"
             payload := .message err }] }) := by
  simp [HubOp.run_bind, handleSocketError_run, socketEmit]

/-- The handler `purchase_tickets` on a socket with a wallet attached: what it does is decided
by the outcome of `lotteryService.purchaseTickets` on the pool id and quantity of the request
and the wallet of the socket. -/
theorem purchase_tickets_forwards (lotteryService : PurchaseData → Op PurchaseResult)
    (env : Env) (nodeEnv : Option String) (request : PurchaseRequest) (a : String) (hub : Hub)
    (hs : hub.socket.walletAddress = some a) (ha : a ≠ "") :
    (∀ r w1, lotteryService
        { poolId := request.poolId, buyerWallet := a, quantity := request.quantity }
        hub.world = (.ok r, w1) →
      purchase_tickets lotteryService env nodeEnv (some request) hub =
        broadcastPoolUpdate env request.poolId
          { hub with
            world := w1
            emitted := hub.emitted ++
              [{ recipient := .socket hub.socket.id, event := "purchase_confirmation"
                 payload := .purchaseConfirmation r.tickets r.totalCost r.signature }] }) ∧
    (∀ e w1, lotteryService
        { poolId := request.poolId, buyerWallet := a, quantity := request.quantity }
        hub.world = (.error e, w1) →
      purchase_tickets lotteryService env nodeEnv (some request) hub =
        (.ok (), { hub with
          world := { w1 with logs := w1.logs ++ ["Socket Error:" ++ " " ++ e] }
          emitted := hub.emitted ++
            [{ recipient := .socket hub.socket.id, event := "error"
               payload := .message
                 (if nodeEnv == some "development" then e else "Something went wrong") },
             { recipient := .socket hub.socket.id, event := "purchase_error"
               payload := .message e }] })) := by
  have hf : falsyString (some a) = false := by
    simp [falsyString, ha]
  refine ⟨?_, ?_⟩
  · intro r w1 hr
    have hb : ∀ h0 : Hub, ∃ h1, broadcastPoolUpdate env request.poolId h0 = (.ok (), h1) := by
      intro h0
      simp only [broadcastPoolUpdate, HubOp.tryCatch, HubOp.run_bind, liftOp]
      rcases getPoolStatistics env request.poolId h0.world with ⟨r0, w0⟩
      cases r0 with
      | error e0 => exact ⟨_, rfl⟩
      | ok s0 => exact ⟨_, rfl⟩
    obtain ⟨h1, hh1⟩ := hb { hub with
            world := w1
            emitted := hub.emitted ++
              [{ recipient := .socket hub.socket.id, event := "purchase_confirmation"
                 payload := .purchaseConfirmation r.tickets r.totalCost r.signature }] }
    simp only [purchase_tickets, HubOp.tryCatch, HubOp.run_bind, getSocket, hf, liftOp, hs,
      Option.getD_some, hr, socketEmit, Bool.false_eq_true, if_false]
    rw [hh1]
  · intro e w1 hr
    simp only [purchase_tickets, HubOp.tryCatch, HubOp.run_bind, getSocket, hf, liftOp, hs,
      Option.getD_some, hr, Bool.false_eq_true, if_false]
    exact purchase_tickets_catch nodeEnv e _

/-- C21: a `purchase_tickets` event on a socket with no wallet attached is not forwarded to
`lotteryService.purchaseTickets`: whatever the service is, the handler leaves the stores as
they are (one more log line), sends the requester an `error` and a `purchase_error` event,
and sends nothing else: no `purchase_confirmation`, no `pool_update`, nothing to the room of
the pool.  For a request that carries data the `purchase_error` says `Wallet not
connected`. -/
theorem purchase_tickets_requires_wallet (lotteryService : PurchaseData → Op PurchaseResult)
    (env : Env) (nodeEnv : Option String) (data : Option PurchaseRequest) (hub : Hub)
    (hw : falsyString hub.socket.walletAddress = true) :
    ∃ reason,
      purchase_tickets lotteryService env nodeEnv data hub =
        (.ok (), { hub with
          world := { hub.world with
            logs := hub.world.logs ++ ["Socket Error:" ++ " " ++ reason] }
          emitted := hub.emitted ++
            [{ recipient := .socket hub.socket.id, event := "error"
               payload := .message
                 (if nodeEnv == some "development" then reason else "Something went wrong") },
             { recipient := .socket hub.socket.id, event := "purchase_error"
               payload := .message reason }] }) ∧
      (∀ request, data = some request → reason = "Wallet not connected") := by
  cases data with
  | none =>
    refine ⟨"TypeError: Cannot destructure property poolId of data as it is undefined.", ?_,
      fun _ h => by cases h⟩
    simp only [purchase_tickets, HubOp.tryCatch, HubOp.throw]
    exact purchase_tickets_catch nodeEnv _ _
  | some request =>
    refine ⟨"Wallet not connected", ?_, fun _ _ => rfl⟩
    simp only [purchase_tickets, HubOp.tryCatch, HubOp.run_bind, getSocket, hw, if_true,
      HubOp.throw]
    exact purchase_tickets_catch nodeEnv _ _

theorem purchase_tickets_requires_wallet_witness :
    ∃ reason,
      purchase_tickets (purchaseTickets LotteryService.default Env.quiet) Env.quiet
          (some "production") (some { poolId := "p", quantity := 2 }) (Hub.sample none) =
        (.ok (), { Hub.sample none with
          world := { (Hub.sample none).world with
            logs := (Hub.sample none).world.logs ++ ["Socket Error:" ++ " " ++ reason] }
          emitted := (Hub.sample none).emitted ++
            [{ recipient := .socket (Hub.sample none).socket.id, event := "error"
               payload := .message
                 (if some "production" == some "development" then reason
                  else "Something went wrong") },
             { recipient := .socket (Hub.sample none).socket.id, event := "purchase_error"
               payload := .message reason }] }) ∧
      (∀ request, some ({ poolId := "p", quantity := 2 } : PurchaseRequest) = some request →
        reason = "Wallet not connected") :=
  purchase_tickets_requires_wallet (purchaseTickets LotteryService.default Env.quiet) Env.quiet
    (some "production") (some { poolId := "p", quantity := 2 }) (Hub.sample none) rfl

/-- C23 (the code at the failing input): outside development mode, when the ledger fails a
purchase with the error `ledger unavailable`, the requester is sent an `error` event with the
generic message and a `purchase_error` event that carries the message of the underlying
error. -/
theorem purchase_tickets_leaks_error_message :
    (purchase_tickets (purchaseTickets LotteryService.default Env.ledgerDown) Env.ledgerDown
        (some "production") (some { poolId := "p", quantity := 3 })
        (Hub.sample (some "A"))).2.emitted =
      [{ recipient := .socket "s", event := "error"
         payload := .message "Something went wrong" },
       { recipient := .socket "s", event := "purchase_error"
         payload := .message "ledger unavailable" }] := by
  have hw := purchaseTickets_wp_ledger_failure LotteryService.default Env.ledgerDown
    { poolId := "p", buyerWallet := "A", quantity := 3 } World.empty "ledger unavailable"
    (fun _ => rfl)
  unfold Op.wp at hw
  have he := hw.2.2.2.2.2.2 (by simp [default_ceiling]) (fun _ => rfl) (fun _ => rfl)
  have hr : purchaseTickets LotteryService.default Env.ledgerDown
      { poolId := "p", buyerWallet := "A", quantity := 3 } (Hub.sample (some "A")).world =
      (.error "ledger unavailable", (purchaseTickets LotteryService.default Env.ledgerDown
        { poolId := "p", buyerWallet := "A", quantity := 3 } World.empty).2) :=
    Prod.ext he rfl
  rw [(purchase_tickets_forwards _ Env.ledgerDown (some "production")
    { poolId := "p", quantity := 3 } "A" (Hub.sample (some "A")) rfl (by decide)).2 _ _ hr]
  simp [Hub.sample]

/-! ### Subscriptions and disconnection -/

theorem logActivity_fails (env : Env) (activityData : ActivityLog) (w : World) (e : String)
    (h : env.failure w (.logActivity activityData) = some e) :
    logActivity env activityData w =
      (.error e, { w with calls := w.calls ++ [.logActivity activityData]
                          logs := w.logs ++ ["Error logging activity:" ++ " " ++ e] }) := by
  simp [logActivity, Op.tryCatch, Op.bind_run, external, h, loggerError, Op.throw]

theorem logActivity_succeeds (env : Env) (activityData : ActivityLog) (w : World)
    (h : env.failure w (.logActivity activityData) = none) :
    logActivity env activityData w =
      (.ok activityData, { w with calls := w.calls ++ [.logActivity activityData]
                                  activityLog := w.activityLog ++ [activityData] }) := by
  simp [logActivity, Op.tryCatch, Op.bind_run, external, h, modifyWorld, Op.pure_run]

/-- The handler `subscribe_pool` on a socket with a wallet: the pool id is added to the entry
of the socket in `userSubscriptions`, whatever happens afterwards. -/
theorem subscribe_pool_subscriptions (env : Env) (nodeEnv : Option String) (poolId a : String)
    (hub : Hub) (hs : hub.socket.walletAddress = some a) (ha : a ≠ "") :
    (subscribe_pool env nodeEnv poolId hub).2.userSubscriptions =
      (subscribe hub.socket.id poolId hub).userSubscriptions ∧
    (subscribe_pool env nodeEnv poolId hub).2.socket = hub.socket := by
  have hf : falsyString (some a) = false := by
    simp [falsyString, ha]
  simp only [subscribe_pool, HubOp.tryCatch, HubOp.run_bind, socketJoin, getSocket, hs, hf,
    Bool.not_false, if_true, modifyHub, liftOp, subscribe]
  rcases logActivity env _ _ with ⟨r1, w1⟩
  cases r1 with
  | error e1 => simp [handleSocketError_run]
  | ok x1 =>
    simp only [HubOp.run_pure]
    rcases getPoolStatistics env poolId w1 with ⟨r2, w2⟩
    cases r2 with
    | error e2 => simp [handleSocketError_run]
    | ok x2 => simp [socketEmit]

/-- The handler `disconnect`, case by case: the entry of the socket in `userSubscriptions` is
deleted when the socket has no wallet or the disconnection is logged, and is kept when logging
the disconnection fails. -/
theorem disconnect_cases (env : Env) (hub : Hub) :
    (falsyString hub.socket.walletAddress = true →
      (disconnect env hub).2.userSubscriptions =
        mapDelete hub.userSubscriptions hub.socket.id) ∧
    (falsyString hub.socket.walletAddress = false →
      env.failure hub.world (.logActivity
        { activityType := "SOCKET_DISCONNECTED", walletAddress := hub.socket.walletAddress,
          poolId := none, data := [("socketId", hub.socket.id)] }) = none →
      (disconnect env hub).2.userSubscriptions =
        mapDelete hub.userSubscriptions hub.socket.id) ∧
    (∀ e, falsyString hub.socket.walletAddress = false →
      env.failure hub.world (.logActivity
        { activityType := "SOCKET_DISCONNECTED", walletAddress := hub.socket.walletAddress,
          poolId := none, data := [("socketId", hub.socket.id)] }) = some e →
      (disconnect env hub).2.userSubscriptions = hub.userSubscriptions) := by
  refine ⟨?_, ?_, ?_⟩
  · intro hf
    simp [disconnect, HubOp.tryCatch, HubOp.run_bind, getSocket, hf, modifyHub, unsubscribe,
      HubOp.run_pure]
  · intro hf hok
    simp [disconnect, HubOp.tryCatch, HubOp.run_bind, getSocket, hf, modifyHub, unsubscribe,
      HubOp.run_pure, liftOp, logActivity_succeeds env _ _ hok]
  · intro e hf herr
    simp [disconnect, HubOp.tryCatch, HubOp.run_bind, getSocket, hf, modifyHub, unsubscribe,
      HubOp.run_pure, liftOp, logActivity_fails env _ _ e herr, loggerError]

/-- C24 (the code at the failing input): a socket with wallet `A` subscribes to pool `p`,
which gives it the entry `s: p` in `userSubscriptions`; when the disconnect handler then runs
and the disconnection cannot be logged, the entry is still there. -/
theorem disconnect_keeps_entry_when_logging_fails :
    (subscribe_pool Env.disconnectLogDown (some "production") "p"
        (Hub.sample (some "A"))).2.userSubscriptions = [("s", ["p"])] ∧
    (disconnect Env.disconnectLogDown
        (subscribe_pool Env.disconnectLogDown (some "production") "p"
          (Hub.sample (some "A"))).2).2.userSubscriptions = [("s", ["p"])] := by
  obtain ⟨h1, h2⟩ := subscribe_pool_subscriptions Env.disconnectLogDown (some "production")
    "p" "A" (Hub.sample (some "A")) rfl (by decide)
  have h3 : (subscribe (Hub.sample (some "A")).socket.id "p"
      (Hub.sample (some "A"))).userSubscriptions = [("s", ["p"])] := by
    simp [subscribe, Hub.sample, subscriptionsOf, mapSet]
  refine ⟨h1.trans h3, ?_⟩
  have hf : falsyString (subscribe_pool Env.disconnectLogDown (some "production") "p"
      (Hub.sample (some "A"))).2.socket.walletAddress = false := by
    rw [h2]
    simp [Hub.sample, falsyString]
  rw [(disconnect_cases Env.disconnectLogDown _).2.2 "document store unavailable" hf
    (by simp [Env.disconnectLogDown, Env.quiet])]
  exact h1.trans h3

/-! ### The two purchase paths -/

theorem broadcastPoolUpdate_emitted (env : Env) (poolId : String) (h : Hub) (x : Emission)
    (hx : x ∈ h.emitted) : x ∈ (broadcastPoolUpdate env poolId h).2.emitted := by
  simp only [broadcastPoolUpdate, HubOp.tryCatch, HubOp.run_bind, liftOp]
  rcases getPoolStatistics env poolId h.world with ⟨r, w1⟩
  cases r with
  | error e => exact hx
  | ok stats =>
    simp only [dateNow, roomEmit]
    exact List.mem_append_left _ hx

/-! ### The wallet of a socket -/

theorem HubOp.keepsSocket_bind {α β : Type} (m : HubOp α) (f : α → HubOp β)
    (hm : m.keepsSocket) (hf : ∀ a, (f a).keepsSocket) : (m >>= f).keepsSocket := by
  intro h
  have h1 := hm h
  simp only [HubOp.run_bind]
  rcases hmh : m h with ⟨r, h2⟩
  rw [hmh] at h1
  cases r with
  | ok a => exact (hf a h2).trans h1
  | error e => exact h1

theorem HubOp.keepsSocket_tryCatch {α : Type} (body : HubOp α) (handler : String → HubOp α)
    (hb : body.keepsSocket) (hh : ∀ e, (handler e).keepsSocket) :
    (HubOp.tryCatch body handler).keepsSocket := by
  intro h
  have h1 := hb h
  simp only [HubOp.tryCatch]
  rcases hbh : body h with ⟨r, h2⟩
  rw [hbh] at h1
  cases r with
  | ok a => exact h1
  | error e => exact (hh e h2).trans h1

theorem HubOp.keepsSocket_ite {α : Type} (c : Prop) [Decidable c] (m1 m2 : HubOp α)
    (h1 : m1.keepsSocket) (h2 : m2.keepsSocket) : (if c then m1 else m2).keepsSocket := by
  split
  · exact h1
  · exact h2

theorem HubOp.keepsSocket_pure {α : Type} (a : α) : (Pure.pure a : HubOp α).keepsSocket :=
  fun _ => rfl

theorem HubOp.keepsSocket_throw {α : Type} (e : String) : (HubOp.throw e : HubOp α).keepsSocket :=
  fun _ => rfl

theorem HubOp.keepsSocket_liftOp {α : Type} (op : Op α) : (liftOp op).keepsSocket :=
  fun _ => rfl

theorem HubOp.keepsSocket_getSocket : getSocket.keepsSocket := fun _ => rfl

theorem HubOp.keepsSocket_socketEmit (event : String) (payload : Payload) :
    (socketEmit event payload).keepsSocket := fun _ => rfl

theorem HubOp.keepsSocket_roomEmit (room event : String) (payload : Payload) :
    (roomEmit room event payload).keepsSocket := fun _ => rfl

theorem HubOp.keepsSocket_socketJoin (room : String) : (socketJoin room).keepsSocket :=
  fun _ => rfl

theorem HubOp.keepsSocket_subscribe (id poolId : String) :
    (modifyHub (subscribe id poolId)).keepsSocket := fun _ => rfl

theorem HubOp.keepsSocket_unsubscribe (id : String) :
    (modifyHub (unsubscribe id)).keepsSocket := fun _ => rfl

theorem handleSocketError_keepsSocket (nodeEnv : Option String) (err : String) :
    (handleSocketError nodeEnv err).keepsSocket := fun _ => rfl

theorem broadcastPoolUpdate_keepsSocket (env : Env) (poolId : String) :
    (broadcastPoolUpdate env poolId).keepsSocket := by
  unfold broadcastPoolUpdate
  refine HubOp.keepsSocket_tryCatch _ _ ?_ (fun _ => HubOp.keepsSocket_liftOp _)
  refine HubOp.keepsSocket_bind _ _ (HubOp.keepsSocket_liftOp _) (fun _ => ?_)
  exact HubOp.keepsSocket_bind _ _ (HubOp.keepsSocket_liftOp _)
    (fun _ => HubOp.keepsSocket_roomEmit _ _ _)

theorem subscribe_pool_keepsSocket (env : Env) (nodeEnv : Option String) (poolId : String) :
    (subscribe_pool env nodeEnv poolId).keepsSocket := by
  unfold subscribe_pool
  refine HubOp.keepsSocket_tryCatch _ _ ?_ (fun _ => handleSocketError_keepsSocket _ _)
  refine HubOp.keepsSocket_bind _ _ (HubOp.keepsSocket_socketJoin _) (fun _ => ?_)
  refine HubOp.keepsSocket_bind _ _ HubOp.keepsSocket_getSocket (fun socket => ?_)
  have hrest : ∀ y : PUnit, (do
      let poolStats ← liftOp (getPoolStatistics env poolId)
      socketEmit "pool_update" (Payload.poolUpdate poolId poolStats none) :
        HubOp Unit).keepsSocket :=
    fun _ => HubOp.keepsSocket_bind _ _ (HubOp.keepsSocket_liftOp _)
      (fun _ => HubOp.keepsSocket_socketEmit _ _)
  refine HubOp.keepsSocket_ite _ _ _ ?_ ?_
  · refine HubOp.keepsSocket_bind _ _ (HubOp.keepsSocket_subscribe _ _) (fun _ => ?_)
    refine HubOp.keepsSocket_bind _ _ (HubOp.keepsSocket_liftOp _) (fun _ => ?_)
    exact HubOp.keepsSocket_bind _ _ (HubOp.keepsSocket_pure _) hrest
  · exact HubOp.keepsSocket_bind _ _ (HubOp.keepsSocket_pure _) hrest

theorem purchase_tickets_keepsSocket (lotteryService : PurchaseData → Op PurchaseResult)
    (env : Env) (nodeEnv : Option String) (data : Option PurchaseRequest) :
    (purchase_tickets lotteryService env nodeEnv data).keepsSocket := by
  unfold purchase_tickets
  refine HubOp.keepsSocket_tryCatch _ _ ?_ (fun _ => ?_)
  · cases data with
    | none => exact HubOp.keepsSocket_throw _
    | some request =>
      refine HubOp.keepsSocket_bind _ _ HubOp.keepsSocket_getSocket (fun socket => ?_)
      refine HubOp.keepsSocket_ite _ _ _ (HubOp.keepsSocket_throw _) ?_
      refine HubOp.keepsSocket_bind _ _ (HubOp.keepsSocket_liftOp _) (fun _ => ?_)
      exact HubOp.keepsSocket_bind _ _ (HubOp.keepsSocket_socketEmit _ _)
        (fun _ => broadcastPoolUpdate_keepsSocket _ _)
  · exact HubOp.keepsSocket_bind _ _ (handleSocketError_keepsSocket _ _)
      (fun _ => HubOp.keepsSocket_socketEmit _ _)

theorem disconnect_keepsSocket (env : Env) : (disconnect env).keepsSocket := by
  unfold disconnect
  refine HubOp.keepsSocket_tryCatch _ _ ?_ (fun _ => HubOp.keepsSocket_liftOp _)
  refine HubOp.keepsSocket_bind _ _ HubOp.keepsSocket_getSocket (fun socket => ?_)
  refine HubOp.keepsSocket_ite _ _ _ ?_ ?_
  · refine HubOp.keepsSocket_bind _ _ (HubOp.keepsSocket_liftOp _) (fun _ => ?_)
    exact HubOp.keepsSocket_bind _ _ (HubOp.keepsSocket_pure _)
      (fun _ => HubOp.keepsSocket_unsubscribe _)
  · exact HubOp.keepsSocket_bind _ _ (HubOp.keepsSocket_pure _)
      (fun _ => HubOp.keepsSocket_unsubscribe _)

/-- The handler `wallet_connected` attaches the address when it is valid and leaves the socket
as it is otherwise. -/
theorem wallet_connected_socket (getUserTickets : String → Op (List Ticket)) (env : Env)
    (nodeEnv : Option String) (walletAddress : String) (hub : Hub) :
    (wallet_connected getUserTickets env nodeEnv walletAddress hub).2.socket =
      if env.isValidSolanaAddress walletAddress then
        { hub.socket with walletAddress := some walletAddress }
      else hub.socket := by
  cases hv : env.isValidSolanaAddress walletAddress with
  | false =>
    have hk : (wallet_connected getUserTickets env nodeEnv walletAddress).keepsSocket := by
      unfold wallet_connected
      refine HubOp.keepsSocket_tryCatch _ _ ?_ (fun _ => handleSocketError_keepsSocket _ _)
      simp only [hv, Bool.not_false, if_true]
      exact HubOp.keepsSocket_throw _
    simpa using hk hub
  | true =>
    have hk : (HubOp.tryCatch
        (do
          let socket ← getSocket
          let _ ← liftOp (logActivity env
            { activityType := "WALLET_CONNECTED"
              walletAddress := some walletAddress
              poolId := none
              data := [("socketId", socket.id)] })
          let userTickets ← liftOp (getUserTickets walletAddress)
          socketEmit "wallet_state" (.walletState userTickets))
        (fun error => handleSocketError nodeEnv error)).keepsSocket := by
      refine HubOp.keepsSocket_tryCatch _ _ ?_ (fun _ => handleSocketError_keepsSocket _ _)
      refine HubOp.keepsSocket_bind _ _ HubOp.keepsSocket_getSocket (fun socket => ?_)
      refine HubOp.keepsSocket_bind _ _ (HubOp.keepsSocket_liftOp _) (fun _ => ?_)
      exact HubOp.keepsSocket_bind _ _ (HubOp.keepsSocket_liftOp _)
        (fun _ => HubOp.keepsSocket_socketEmit _ _)
    have hrun : wallet_connected getUserTickets env nodeEnv walletAddress hub =
        HubOp.tryCatch
          (do
            let socket ← getSocket
            let _ ← liftOp (logActivity env
              { activityType := "WALLET_CONNECTED"
                walletAddress := some walletAddress
                poolId := none
                data := [("socketId", socket.id)] })
            let userTickets ← liftOp (getUserTickets walletAddress)
            socketEmit "wallet_state" (.walletState userTickets))
          (fun error => handleSocketError nodeEnv error) (attachWallet walletAddress hub) := by
      simp only [wallet_connected, hv, Bool.not_true, Bool.false_eq_true, if_false,
        HubOp.tryCatch, HubOp.run_bind, modifyHub]
    rw [hrun, hk (attachWallet walletAddress hub)]
    simp [attachWallet]

theorem connectionMiddleware_socket (env : Env) (handshake : Handshake) (socket : Socket)
    (w : World) :
    (connectionMiddleware env handshake socket w).1.1 = socket ∨
    ∃ a, env.isValidSolanaAddress a = true ∧
      (connectionMiddleware env handshake socket w).1.1 =
        { socket with walletAddress := some a } := by
  unfold connectionMiddleware
  cases handshake.walletAddress with
  | none => exact Or.inl rfl
  | some a =>
    simp only []
    split
    · exact Or.inl rfl
    · cases hv : env.isValidSolanaAddress a with
      | false => exact Or.inl (by simp)
      | true =>
        refine Or.inr ⟨a, hv, ?_⟩
        simp only [Bool.not_true, Bool.false_eq_true, if_false]
        split <;> rfl

/-- One event keeps the wallet of the socket absent or validated. -/
theorem handleEvent_wallet (lotteryService : PurchaseData → Op PurchaseResult)
    (getUserTickets : String → Op (List Ticket)) (env : Env) (nodeEnv : Option String)
    (event : SocketEvent) (hub : Hub)
    (h0 : ∀ a, hub.socket.walletAddress = some a → env.isValidSolanaAddress a = true) :
    ∀ a, (handleEvent lotteryService getUserTickets env nodeEnv event hub).socket.walletAddress
      = some a → env.isValidSolanaAddress a = true := by
  cases event with
  | handshake handshake =>
    intro a
    simp only [handleEvent]
    rcases connectionMiddleware_socket env handshake hub.socket hub.world with h | ⟨b, hb, h⟩
    · rw [h]; exact h0 a
    · rw [h]
      intro hab
      simp only [Option.some.injEq] at hab
      rw [← hab]; exact hb
  | wallet_connected walletAddress =>
    intro a
    simp only [handleEvent, wallet_connected_socket]
    cases hv : env.isValidSolanaAddress walletAddress with
    | false => simpa using h0 a
    | true =>
      intro hab
      simp only [if_true, Option.some.injEq] at hab
      rw [← hab]; exact hv
  | subscribe_pool poolId =>
    intro a
    simp only [handleEvent]
    rw [subscribe_pool_keepsSocket env nodeEnv poolId hub]
    exact h0 a
  | purchase_tickets data =>
    intro a
    simp only [handleEvent]
    rw [purchase_tickets_keepsSocket lotteryService env nodeEnv data hub]
    exact h0 a
  | disconnect =>
    intro a
    simp only [handleEvent]
    rw [disconnect_keepsSocket env hub]
    exact h0 a

/-- One event calls the purchase service on validated wallets only: two services that agree
on every purchase with a validated buyer wallet give the same hub. -/
theorem handleEvent_agree (lotteryService lotteryService2 : PurchaseData → Op PurchaseResult)
    (getUserTickets : String → Op (List Ticket)) (env : Env) (nodeEnv : Option String)
    (event : SocketEvent) (hub : Hub)
    (h0 : ∀ a, hub.socket.walletAddress = some a → env.isValidSolanaAddress a = true)
    (hagree : ∀ d, env.isValidSolanaAddress d.buyerWallet = true →
      lotteryService d = lotteryService2 d) :
    handleEvent lotteryService getUserTickets env nodeEnv event hub =
      handleEvent lotteryService2 getUserTickets env nodeEnv event hub := by
  cases event with
  | handshake handshake => rfl
  | wallet_connected walletAddress => rfl
  | subscribe_pool poolId => rfl
  | disconnect => rfl
  | purchase_tickets data =>
    simp only [handleEvent]
    cases data with
    | none => rfl
    | some request =>
      cases hw : hub.socket.walletAddress with
      | none =>
        simp [purchase_tickets, HubOp.tryCatch, HubOp.run_bind, getSocket, hw, falsyString]
      | some a =>
        have hpd := hagree
          { poolId := request.poolId, buyerWallet := a, quantity := request.quantity }
          (h0 a hw)
        simp only [purchase_tickets, HubOp.tryCatch, HubOp.run_bind, getSocket, hw,
          Option.getD_some, hpd]

/-- C30: under any sequence of handshake, `wallet_connected`, `subscribe_pool`,
`purchase_tickets` and `disconnect` events on a socket that starts with no wallet (or a
validated one), the wallet address attached to the socket is absent or accepted by
`isValidSolanaAddress`; and the purchase service is only ever called with a validated buyer
wallet: replacing it by any service that agrees with it on the purchases whose buyer wallet is
validated changes nothing in the run. -/
theorem session_wallet_is_validated
    (lotteryService lotteryService2 : PurchaseData → Op PurchaseResult)
    (getUserTickets : String → Op (List Ticket)) (env : Env) (nodeEnv : Option String)
    (events : List SocketEvent) (hub : Hub)
    (h0 : ∀ a, hub.socket.walletAddress = some a → env.isValidSolanaAddress a = true)
    (hagree : ∀ d, env.isValidSolanaAddress d.buyerWallet = true →
      lotteryService d = lotteryService2 d) :
    (∀ a, (handleEvents lotteryService getUserTickets env nodeEnv events hub).socket.walletAddress
      = some a → env.isValidSolanaAddress a = true) ∧
    handleEvents lotteryService getUserTickets env nodeEnv events hub =
      handleEvents lotteryService2 getUserTickets env nodeEnv events hub := by
  induction events generalizing hub with
  | nil => exact ⟨h0, rfl⟩
  | cons event rest ih =>
    have h1 := handleEvent_wallet lotteryService getUserTickets env nodeEnv event hub h0
    have h2 := handleEvent_agree lotteryService lotteryService2 getUserTickets env nodeEnv
      event hub h0 hagree
    obtain ⟨i1, i2⟩ := ih (handleEvent lotteryService getUserTickets env nodeEnv event hub) h1
    refine ⟨?_, ?_⟩
    · simpa [handleEvents] using i1
    · simp only [handleEvents, List.foldl_cons] at i2 ⊢
      rw [i2, h2]

theorem session_wallet_is_validated_witness :
    (∀ a, (handleEvents (purchaseTickets LotteryService.default Env.quiet)
        (fun _ => Op.throw "TypeError: databaseService.getUserTickets is not a function")
        Env.quiet (some "production")
        [.handshake { walletAddress := some "bad", userAgent := "ua" }, .wallet_connected "A",
         .subscribe_pool "p", .purchase_tickets (some { poolId := "p", quantity := 2 }),
         .wallet_connected "bad", .disconnect]
        (Hub.sample none)).socket.walletAddress = some a →
      Env.quiet.isValidSolanaAddress a = true) ∧
    handleEvents (purchaseTickets LotteryService.default Env.quiet)
        (fun _ => Op.throw "TypeError: databaseService.getUserTickets is not a function")
        Env.quiet (some "production")
        [.handshake { walletAddress := some "bad", userAgent := "ua" }, .wallet_connected "A",
         .subscribe_pool "p", .purchase_tickets (some { poolId := "p", quantity := 2 }),
         .wallet_connected "bad", .disconnect]
        (Hub.sample none) =
      handleEvents
        (fun d => if Env.quiet.isValidSolanaAddress d.buyerWallet then
          purchaseTickets LotteryService.default Env.quiet d
          else Op.throw "not reached")
        (fun _ => Op.throw "TypeError: databaseService.getUserTickets is not a function")
        Env.quiet (some "production")
        [.handshake { walletAddress := some "bad", userAgent := "ua" }, .wallet_connected "A",
         .subscribe_pool "p", .purchase_tickets (some { poolId := "p", quantity := 2 }),
         .wallet_connected "bad", .disconnect]
        (Hub.sample none) :=
  session_wallet_is_validated (purchaseTickets LotteryService.default Env.quiet)
    (fun d => if Env.quiet.isValidSolanaAddress d.buyerWallet then
      purchaseTickets LotteryService.default Env.quiet d
      else Op.throw "not reached")
    (fun _ => Op.throw "TypeError: databaseService.getUserTickets is not a function")
    Env.quiet (some "production")
    [.handshake { walletAddress := some "bad", userAgent := "ua" }, .wallet_connected "A",
     .subscribe_pool "p", .purchase_tickets (some { poolId := "p", quantity := 2 }),
     .wallet_connected "bad", .disconnect]
    (Hub.sample none) (fun a h => by cases h) (fun d hd => by simp [hd])

theorem roundToNumber_small (n : Nat) (h : n < 2 ^ 53) : roundToNumber n = n := by
  have he : Nat.log 2 n - 52 = 0 := by
    have : Nat.log 2 n < 53 := by
      by_cases h0 : n = 0
      · subst h0; simp
      · exact Nat.log_lt_of_lt_pow h0 h
    omega
  unfold roundToNumber
  simp [he, Nat.mod_one]

theorem roundToNumber_exact (m e : Nat) (h1 : 2 ^ 52 ≤ m) (h2 : m < 2 ^ 53) :
    roundToNumber (m * 2 ^ e) = m * 2 ^ e := by
  have hlog : Nat.log 2 (m * 2 ^ e) = 52 + e := by
    apply (Nat.log_eq_iff (Or.inr ⟨by norm_num, ?_⟩)).2
    · constructor
      · rw [pow_add]
        exact Nat.mul_le_mul_right _ h1
      · rw [show 52 + e + 1 = 53 + e by omega, pow_add]
        exact Nat.mul_lt_mul_of_pos_right h2 (pow_pos (by norm_num) e)
    · have : 0 < m := lt_of_lt_of_le (pow_pos (by norm_num) 52) h1
      exact Nat.mul_ne_zero (Nat.pos_iff_ne_zero.1 this) (pow_ne_zero _ (by norm_num))
  have hpos : 0 < 2 ^ e := pow_pos (by norm_num) e
  unfold roundToNumber
  simp only [hlog, Nat.add_sub_cancel_left, Nat.mul_div_cancel _ hpos, Nat.mul_mod_left,
    Nat.mul_zero, hpos, true_or, if_true]

theorem leadingDigitFrom_bounds (x : Nat) (hx : 10 ^ 21 ≤ x) :
    ∀ (fuel k : Nat), 1 ≤ k → k + fuel ≤ 18 →
      1 ≤ leadingDigitFrom x fuel k ∧ leadingDigitFrom x fuel k ≤ 9 := by
  have hx0 : x ≠ 0 := by
    intro h0
    rw [h0] at hx
    exact absurd hx (Nat.not_le.2 (pow_pos (by norm_num) 21))
  have hlo : 10 ^ Nat.log 10 x ≤ x := Nat.pow_log_le_self 10 hx0
  have hhi : x < 10 ^ (Nat.log 10 x + 1) := Nat.lt_pow_succ_log_self (by norm_num) _
  have hlog : 21 ≤ Nat.log 10 x := by
    by_contra hlt
    have h1 : Nat.log 10 x + 1 ≤ 21 := by omega
    have h2 : (10 : Nat) ^ (Nat.log 10 x + 1) ≤ 10 ^ 21 := Nat.pow_le_pow_right (by norm_num) h1
    omega
  intro fuel
  induction fuel with
  | zero =>
    intro k _ _
    simp only [leadingDigitFrom]
    constructor
    · exact (Nat.one_le_div_iff (pow_pos (by norm_num) _)).2 hlo
    · apply Nat.le_of_lt_succ
      apply Nat.div_lt_of_lt_mul
      rw [pow_succ] at hhi
      exact hhi
  | succ fuel ih =>
    intro k hk1 hk
    have hscale : 0 < 10 ^ (Nat.log 10 x + 1 - k) := pow_pos (by norm_num) _
    have hk0 : 0 < 10 ^ (k - 1) := pow_pos (by norm_num) _
    have hsplit : (10 : Nat) ^ (k - 1) * 10 ^ (Nat.log 10 x + 1 - k) = 10 ^ Nat.log 10 x := by
      rw [← pow_add]
      congr 1
      omega
    have hsplit2 : (10 : Nat) ^ (Nat.log 10 x + 1 - k) * 10 ^ k = 10 ^ (Nat.log 10 x + 1) := by
      rw [← pow_add]
      congr 1
      omega
    have hk10 : (10 : Nat) ^ k = 10 ^ (k - 1) * 10 := by
      rw [← pow_succ]
      congr 1
      omega
    have hlo1 : 10 ^ (k - 1) ≤ x / 10 ^ (Nat.log 10 x + 1 - k) := by
      rw [Nat.le_div_iff_mul_le hscale, hsplit]
      exact hlo
    have hlo2 : x / 10 ^ (Nat.log 10 x + 1 - k) < 10 ^ k := by
      apply Nat.div_lt_of_lt_mul
      rw [hsplit2]
      exact hhi
    simp only [leadingDigitFrom]
    split_ifs with h1 h2 h3
    · constructor
      · exact (Nat.one_le_div_iff hk0).2 hlo1
      · apply Nat.le_of_lt_succ
        apply Nat.div_lt_of_lt_mul
        rw [← hk10]
        exact hlo2
    · exact ⟨le_refl _, by norm_num⟩
    · constructor
      · exact (Nat.one_le_div_iff hk0).2 (by omega)
      · apply Nat.le_of_lt_succ
        apply Nat.div_lt_of_lt_mul
        rw [← hk10]
        omega
    · exact ih (k + 1) (by omega) (by omega)

theorem parseInt_small (quantity : Int) (h : roundToNumber quantity.natAbs < 10 ^ 21) :
    parseInt quantity = quantity := by
  unfold parseInt
  rw [if_pos h]

theorem parseInt_large (quantity : Int) (h : 10 ^ 21 ≤ roundToNumber quantity.natAbs) :
    parseInt quantity =
      quantity.sign * (leadingDigit (roundToNumber quantity.natAbs) : Nat) ∧
    1 ≤ (parseInt quantity).natAbs ∧ (parseInt quantity).natAbs ≤ 9 := by
  have hn : ¬ roundToNumber quantity.natAbs < 10 ^ 21 := Nat.not_lt.2 h
  have hq : quantity ≠ 0 := by
    intro h0
    rw [h0] at hn
    apply hn
    have h00 : (0 : Int).natAbs = 0 := rfl
    rw [h00, roundToNumber_small 0 (pow_pos (by norm_num) 53)]
    exact pow_pos (by norm_num) 21
  have hval : parseInt quantity =
      quantity.sign * (leadingDigit (roundToNumber quantity.natAbs) : Nat) := by
    unfold parseInt
    rw [if_neg hn]
  have habs : (parseInt quantity).natAbs = leadingDigit (roundToNumber quantity.natAbs) := by
    rw [hval, Int.natAbs_mul, Int.natAbs_sign_of_nonzero hq, Int.natAbs_ofNat, Nat.one_mul]
  have hb := leadingDigitFrom_bounds _ h 17 1 (le_refl _) (le_refl _)
  refine ⟨hval, ?_, ?_⟩
  · rw [habs]; exact hb.1
  · rw [habs]; exact hb.2

theorem leadingDigit_ten_pow (k : Nat) (h : roundToNumber (10 ^ k) = 10 ^ k) :
    leadingDigit (10 ^ k) = 1 := by
  have hpos : 0 < 10 ^ k := pow_pos (by norm_num) k
  unfold leadingDigit
  simp only [leadingDigitFrom, Nat.log_pow (by norm_num : 1 < 10), Nat.add_sub_cancel,
    Nat.div_self hpos, Nat.one_mul, h, if_true, Nat.sub_self, pow_zero, Nat.div_one]

theorem parseInt_ten_pow_21 : parseInt (10 ^ 21) = 1 := by
  have hn : ((10 : Int) ^ 21).natAbs = (10 : Nat) ^ 21 := by
    rw [Int.natAbs_pow]
    rfl
  have hs : ((10 : Int) ^ 21).sign = 1 := Int.sign_eq_one_of_pos (pow_pos (by norm_num) 21)
  have hr : roundToNumber (10 ^ 21) = 10 ^ 21 := by
    have h : (10 : Nat) ^ 21 = 7629394531250000 * 2 ^ 17 := by norm_num
    rw [h]
    exact roundToNumber_exact _ _ (by norm_num) (by norm_num)
  have hle : (10 : Nat) ^ 21 ≤ roundToNumber ((10 : Int) ^ 21).natAbs := by
    rw [hn, hr]
  rw [(parseInt_large (10 ^ 21) hle).1, hn, hr, leadingDigit_ten_pow 21 hr, hs]
  rfl

/-- C25 (counterexample): for pool `p` and the valid wallet `A`, the two paths differ on
quantity 0 and on quantity 10^21.  For quantity 0 the route `POST /purchase` rejects the
request with `Missing required fields` and leaves the stores untouched, while the handler of
`purchase_tickets` forwards it to `lotteryService.purchaseTickets` and confirms the purchase to
the requester.  For quantity 10^21 the route calls the service with quantity 1, while the
handler forwards 10^21, which the service rejects as above the ceiling. -/
theorem purchase_paths_differ_on_zero_quantity :
    Env.quiet.isValidSolanaAddress "A" = true ∧
    postPurchase (purchaseTickets LotteryService.default Env.quiet) Env.quiet
        { poolId := some "p", walletAddress := some "A", quantity := some 0 } World.empty =
      (.error "Missing required fields", World.empty) ∧
    (∃ tickets totalCost signature,
      ({ recipient := .socket "s", event := "purchase_confirmation"
         payload := .purchaseConfirmation tickets totalCost signature } : Emission) ∈
        (purchase_tickets (purchaseTickets LotteryService.default Env.quiet) Env.quiet
          (some "production") (some { poolId := "p", quantity := 0 })
          (Hub.sample (some "A"))).2.emitted) ∧
    postPurchase (purchaseTickets LotteryService.default Env.quiet) Env.quiet
        { poolId := some "p", walletAddress := some "A", quantity := some (10 ^ 21) } =
      purchaseTickets LotteryService.default Env.quiet
        { poolId := "p", buyerWallet := "A", quantity := 1 } ∧
    (purchase_tickets (purchaseTickets LotteryService.default Env.quiet) Env.quiet
        (some "production") (some { poolId := "p", quantity := 10 ^ 21 })
        (Hub.sample (some "A"))).2.emitted =
      [{ recipient := .socket "s", event := "error"
         payload := .message "Something went wrong" },
       { recipient := .socket "s", event := "purchase_error"
         payload := .message ("Maximum " ++
           toString LotteryService.default.maxTicketsPerPurchase ++ " tickets per purchase") }]
    := by
  refine ⟨by simp [Env.quiet], ?_, ?_, ?_, ?_⟩
  · simp [postPurchase, falsyString, falsyNumber, Op.throw]
  · have hw := purchaseTickets_quiet LotteryService.default Env.quiet
      { poolId := "p", buyerWallet := "A", quantity := 0 } World.empty (fun _ _ => rfl)
      (by simp [default_ceiling])
    unfold Op.wp at hw
    obtain ⟨hres, -⟩ := hw
    have hworld : (Hub.sample (some "A")).world = World.empty := rfl
    rcases hrun : purchaseTickets LotteryService.default Env.quiet
      { poolId := "p", buyerWallet := "A", quantity := 0 } World.empty with ⟨r0, w1⟩
    rw [hrun] at hres
    simp only at hres
    rw [hres] at hrun
    have hf := (purchase_tickets_forwards (purchaseTickets LotteryService.default Env.quiet)
      Env.quiet (some "production")
      { poolId := "p", quantity := 0 } "A" (Hub.sample (some "A")) rfl (by decide)).1 _ w1
      (by rw [hworld]; exact hrun)
    rw [hf]
    exact ⟨_, _, _, broadcastPoolUpdate_emitted _ _ _ _
      (List.mem_append_right _ (List.mem_singleton.2 rfl))⟩
  · have hfn : falsyNumber (some ((10 : Int) ^ 21)) = false := by
      have : (10 : Int) ^ 21 ≠ 0 := pow_ne_zero _ (by norm_num)
      simp [falsyNumber, this]
    have hv : Env.quiet.isValidSolanaAddress "A" = true := by simp [Env.quiet]
    simp only [postPurchase, falsyString, hfn, Option.getD_some, hv, parseInt_ten_pow_21]
    simp
  · have hgt : (10 : Int) ^ 21 > LotteryService.default.maxTicketsPerPurchase := by
      rw [default_ceiling]
      have h3 : (10 : Int) ^ 3 ≤ 10 ^ 21 := pow_le_pow_right₀ (by norm_num) (by norm_num)
      have : (10 : Int) ^ 3 = 1000 := by norm_num
      omega
    have hr := purchaseTickets_reject_run LotteryService.default Env.quiet
      { poolId := "p", buyerWallet := "A", quantity := 10 ^ 21 } (Hub.sample (some "A")).world hgt
    rw [(purchase_tickets_forwards (purchaseTickets LotteryService.default Env.quiet)
      Env.quiet (some "production")
      { poolId := "p", quantity := 10 ^ 21 } "A" (Hub.sample (some "A")) rfl (by decide)).2 _ _ hr]
    simp [Hub.sample]

/-- C25 (amended): for a wallet address that passes validation, the route `POST /purchase`
and the handler of `purchase_tickets` on a socket with that wallet call
`lotteryService.purchaseTickets` with the same pool id, buyer wallet and quantity when the pool
id is not empty and the integer quantity is not 0 and, as a Number, below 10^21 in magnitude:
the route is then that call, and what the handler sends is decided by the outcome of that call.
Elsewhere the two paths differ.  For an empty pool id or quantity 0 the route rejects the
request with `Missing required fields` without calling the service; for a finite quantity of
magnitude 10^21 or more the route calls the service with `parseInt` of the quantity, a number
between 1 and 9 in magnitude; the handler forwards the pool id and the quantity as they are in
every case. -/
theorem purchase_paths_agree_on_present_fields
    (lotteryService : PurchaseData → Op PurchaseResult) (env : Env) (nodeEnv : Option String)
    (poolId a : String) (quantity : Int) (hub : Hub)
    (hvalid : env.isValidSolanaAddress a = true) (ha : a ≠ "")
    (hs : hub.socket.walletAddress = some a) :
    (poolId ≠ "" → quantity ≠ 0 → roundToNumber quantity.natAbs < 10 ^ 21 →
      postPurchase lotteryService env
          { poolId := some poolId, walletAddress := some a, quantity := some quantity } =
        lotteryService { poolId := poolId, buyerWallet := a, quantity := quantity }) ∧
    ((poolId = "" ∨ quantity = 0) →
      postPurchase lotteryService env
          { poolId := some poolId, walletAddress := some a, quantity := some quantity } =
        Op.throw "Missing required fields") ∧
    (poolId ≠ "" → 10 ^ 21 ≤ roundToNumber quantity.natAbs →
      roundToNumber quantity.natAbs < 2 ^ 1024 →
      postPurchase lotteryService env
          { poolId := some poolId, walletAddress := some a, quantity := some quantity } =
        lotteryService { poolId := poolId, buyerWallet := a, quantity := parseInt quantity } ∧
      1 ≤ (parseInt quantity).natAbs ∧ (parseInt quantity).natAbs ≤ 9) ∧
    (∀ r w1, lotteryService { poolId := poolId, buyerWallet := a, quantity := quantity }
        hub.world = (.ok r, w1) →
      purchase_tickets lotteryService env nodeEnv
          (some { poolId := poolId, quantity := quantity }) hub =
        broadcastPoolUpdate env poolId
          { hub with
            world := w1
            emitted := hub.emitted ++
              [{ recipient := .socket hub.socket.id, event := "purchase_confirmation"
                 payload := .purchaseConfirmation r.tickets r.totalCost r.signature }] }) ∧
    (∀ e w1, lotteryService { poolId := poolId, buyerWallet := a, quantity := quantity }
        hub.world = (.error e, w1) →
      purchase_tickets lotteryService env nodeEnv
          (some { poolId := poolId, quantity := quantity }) hub =
        (.ok (), { hub with
          world := { w1 with logs := w1.logs ++ ["Socket Error:" ++ " " ++ e] }
          emitted := hub.emitted ++
            [{ recipient := .socket hub.socket.id, event := "error"
               payload := .message
                 (if nodeEnv == some "development" then e else "Something went wrong") },
             { recipient := .socket hub.socket.id, event := "purchase_error"
               payload := .message e }] })) := by
  have hf := purchase_tickets_forwards lotteryService env nodeEnv
    { poolId := poolId, quantity := quantity } a hub hs ha
  refine ⟨?_, ?_, ?_, hf.1, hf.2⟩
  · intro hp hq hsmall
    simp [postPurchase, falsyString, falsyNumber, hp, ha, hq, hvalid, parseInt_small _ hsmall]
  · rintro (hp | hq)
    · simp [postPurchase, falsyString, falsyNumber, hp]
    · simp [postPurchase, falsyString, falsyNumber, hq]
  · intro hp hbig _
    have hq : quantity ≠ 0 := by
      intro h0
      rw [h0] at hbig
      have h00 : (0 : Int).natAbs = 0 := rfl
      rw [h00, roundToNumber_small 0 (pow_pos (by norm_num) 53)] at hbig
      exact absurd hbig (Nat.not_le.2 (pow_pos (by norm_num) 21))
    refine ⟨?_, (parseInt_large quantity hbig).2⟩
    simp [postPurchase, falsyString, falsyNumber, hp, ha, hq, hvalid]

theorem purchase_paths_agree_on_present_fields_witness :
    (("p" : String) ≠ "" → (2 : Int) ≠ 0 → roundToNumber (2 : Int).natAbs < 10 ^ 21 →
      postPurchase (purchaseTickets LotteryService.default Env.quiet) Env.quiet
          { poolId := some "p", walletAddress := some "A", quantity := some 2 } =
        purchaseTickets LotteryService.default Env.quiet
          { poolId := "p", buyerWallet := "A", quantity := 2 }) ∧
    ((("p" : String) = "" ∨ (2 : Int) = 0) →
      postPurchase (purchaseTickets LotteryService.default Env.quiet) Env.quiet
          { poolId := some "p", walletAddress := some "A", quantity := some 2 } =
        Op.throw "Missing required fields") ∧
    (("p" : String) ≠ "" → 10 ^ 21 ≤ roundToNumber (2 : Int).natAbs →
      roundToNumber (2 : Int).natAbs < 2 ^ 1024 →
      postPurchase (purchaseTickets LotteryService.default Env.quiet) Env.quiet
          { poolId := some "p", walletAddress := some "A", quantity := some 2 } =
        purchaseTickets LotteryService.default Env.quiet
          { poolId := "p", buyerWallet := "A", quantity := parseInt 2 } ∧
      1 ≤ (parseInt 2).natAbs ∧ (parseInt 2).natAbs ≤ 9) ∧
    (∀ r w1, purchaseTickets LotteryService.default Env.quiet
        { poolId := "p", buyerWallet := "A", quantity := 2 }
        (Hub.sample (some "A")).world = (.ok r, w1) →
      purchase_tickets (purchaseTickets LotteryService.default Env.quiet) Env.quiet
          (some "production") (some { poolId := "p", quantity := 2 })
          (Hub.sample (some "A")) =
        broadcastPoolUpdate Env.quiet "p"
          { Hub.sample (some "A") with
            world := w1
            emitted := (Hub.sample (some "A")).emitted ++
              [{ recipient := .socket (Hub.sample (some "A")).socket.id
                 event := "purchase_confirmation"
                 payload := .purchaseConfirmation r.tickets r.totalCost r.signature }] }) ∧
    (∀ e w1, purchaseTickets LotteryService.default Env.quiet
        { poolId := "p", buyerWallet := "A", quantity := 2 }
        (Hub.sample (some "A")).world = (.error e, w1) →
      purchase_tickets (purchaseTickets LotteryService.default Env.quiet) Env.quiet
          (some "production") (some { poolId := "p", quantity := 2 })
          (Hub.sample (some "A")) =
        (.ok (), { Hub.sample (some "A") with
          world := { w1 with logs := w1.logs ++ ["Socket Error:" ++ " " ++ e] }
          emitted := (Hub.sample (some "A")).emitted ++
            [{ recipient := .socket (Hub.sample (some "A")).socket.id, event := "error"
               payload := .message
                 (if some "production" == some "development" then e
                  else "Something went wrong") },
             { recipient := .socket (Hub.sample (some "A")).socket.id
               event := "purchase_error"
               payload := .message e }] })) :=
  purchase_paths_agree_on_present_fields (purchaseTickets LotteryService.default Env.quiet)
    Env.quiet (some "production") "p" "A" 2 (Hub.sample (some "A"))
    (by simp [Env.quiet]) (by decide) rfl

/-- A pool creation whose ledger call fails, when the creator wallet is valid and the user
lookup and creation succeed: the ledger is reached, its error is the error of `createPool`,
and the user row of a creator not known before has been created. -/
theorem createPool_wp_ledger_reached (svc : LotteryService) (env : Env)
    (poolData : PoolData) (w : World) (e : String)
    (hledger : ∀ w0, env.failure w0 (.solanaCreateLotteryPool poolData.creatorWallet
      svc.ticketPrice poolData.minPlayers poolData.maxPlayers) = some e)
    (hvalid : env.isValidSolanaAddress poolData.creatorWallet = true)
    (hlookup : ∀ w0, env.failure w0 (.getUserByWallet poolData.creatorWallet) = none)
    (hcreate : ∀ w0, env.failure w0 (.createUser poolData.creatorWallet) = none) :
    Op.wp (createPool svc env poolData) w (fun r w1 =>
      r = .error e ∧
      ((∃ u, w.pg.users.find? (fun u => u.wallet_address == poolData.creatorWallet) = some u) →
        w1.pg.users = w.pg.users ∧
        w1.calls = w.calls ++ [.getUserByWallet poolData.creatorWallet,
          .solanaCreateLotteryPool poolData.creatorWallet svc.ticketPrice poolData.minPlayers
            poolData.maxPlayers]) ∧
      (w.pg.users.find? (fun u => u.wallet_address == poolData.creatorWallet) = none →
        w1.pg.users = w.pg.users ++
          [{ id := w.pg.users.length + 1, wallet_address := poolData.creatorWallet }] ∧
        w1.calls = w.calls ++ [.getUserByWallet poolData.creatorWallet,
          .createUser poolData.creatorWallet,
          .solanaCreateLotteryPool poolData.creatorWallet svc.ticketPrice poolData.minPlayers
            poolData.maxPlayers])) := by
  unfold createPool
  rw [Op.wp_tryCatch]
  simp only [hvalid, Bool.not_true, Bool.false_eq_true, if_false, Op.wp_bind, getUserByWallet,
    executeQuery, Op.wp_tryCatch, Op.wp_external, Op.wp_getWorld, Op.wp_pure, hlookup]
  cases hf : List.find? (fun u => u.wallet_address == poolData.creatorWallet) w.pg.users with
  | some u =>
    simp only [Op.wp_bind, Op.wp_pure, Op.wp_external, hledger, Op.wp_loggerError,
      Op.wp_throw]
    simp
  | none =>
    simp only [Op.wp_bind, createUser, executeQuery, Op.wp_tryCatch, Op.wp_external,
      Op.wp_getWorld, Op.wp_modifyWorld, Op.wp_pure, hcreate, hledger, Op.wp_loggerError,
      Op.wp_throw]
    simp

/-- C15 (amended): when the ledger gateway fails to create the on-chain pool, `createPool`
fails and creates no pool row, no transaction row, no aggregate row and no activity log entry,
and the user table is as before when the creator wallet was known.  When the creator wallet
is valid and the user lookup and creation succeed, so that the ledger is called, the error of
`createPool` is the error of the ledger, and for a creator wallet that was not known the user
table is the one before with the row of the creator added: the user is created before the
ledger is called and the row stays. -/
theorem createPool_ledger_failure_no_pool (svc : LotteryService) (env : Env)
    (poolData : PoolData) (w : World) (e : String)
    (hledger : ∀ w0, env.failure w0 (.solanaCreateLotteryPool poolData.creatorWallet
      svc.ticketPrice poolData.minPlayers poolData.maxPlayers) = some e) :
    (∃ e1, (createPool svc env poolData w).1 = .error e1) ∧
    (createPool svc env poolData w).2.pg.pools = w.pg.pools ∧
    (createPool svc env poolData w).2.pg.transactions = w.pg.transactions ∧
    (createPool svc env poolData w).2.realTimeStats = w.realTimeStats ∧
    (createPool svc env poolData w).2.activityLog = w.activityLog ∧
    ((∃ u, w.pg.users.find? (fun u => u.wallet_address == poolData.creatorWallet) = some u) →
      (createPool svc env poolData w).2.pg.users = w.pg.users) ∧
    (env.isValidSolanaAddress poolData.creatorWallet = true →
      (∀ w0, env.failure w0 (.getUserByWallet poolData.creatorWallet) = none) →
      (∀ w0, env.failure w0 (.createUser poolData.creatorWallet) = none) →
      (createPool svc env poolData w).1 = .error e ∧
      ((∃ u, w.pg.users.find? (fun u => u.wallet_address == poolData.creatorWallet) = some u) →
        (createPool svc env poolData w).2.calls =
          w.calls ++ [.getUserByWallet poolData.creatorWallet,
            .solanaCreateLotteryPool poolData.creatorWallet svc.ticketPrice
              poolData.minPlayers poolData.maxPlayers]) ∧
      (w.pg.users.find? (fun u => u.wallet_address == poolData.creatorWallet) = none →
        (createPool svc env poolData w).2.pg.users = w.pg.users ++
          [{ id := w.pg.users.length + 1, wallet_address := poolData.creatorWallet }] ∧
        (createPool svc env poolData w).2.calls =
          w.calls ++ [.getUserByWallet poolData.creatorWallet,
            .createUser poolData.creatorWallet,
            .solanaCreateLotteryPool poolData.creatorWallet svc.ticketPrice
              poolData.minPlayers poolData.maxPlayers])) := by
  have h := createPool_wp_ledger_failure svc env poolData w e hledger
  unfold Op.wp at h
  obtain ⟨h1, h2, h3, h4, h5, -, h7⟩ := h
  refine ⟨h1, h2, h3, h4, h5, h7, ?_⟩
  intro hvalid hlookup hcreate
  have hr := createPool_wp_ledger_reached svc env poolData w e hledger hvalid hlookup hcreate
  unfold Op.wp at hr
  exact ⟨hr.1, fun hu => (hr.2.1 hu).2, hr.2.2⟩

theorem createPool_ledger_failure_no_pool_witness :
    (createPool LotteryService.default Env.poolLedgerDown PoolData.inverted
      World.empty).1 = .error "ledger unavailable" ∧
    (createPool LotteryService.default Env.poolLedgerDown PoolData.inverted
      World.empty).2.pg.pools = [] ∧
    (createPool LotteryService.default Env.poolLedgerDown PoolData.inverted
      World.empty).2.pg.users = [{ id := 1, wallet_address := "A" }] ∧
    (createPool LotteryService.default Env.poolLedgerDown PoolData.inverted
      World.empty).2.calls =
      [.getUserByWallet "A", .createUser "A",
       .solanaCreateLotteryPool "A" LotteryService.default.ticketPrice 5 2] :=
  ⟨((createPool_ledger_failure_no_pool LotteryService.default Env.poolLedgerDown
      PoolData.inverted World.empty "ledger unavailable" (fun _ => rfl)).2.2.2.2.2.2
      (by decide) (fun _ => rfl) (fun _ => rfl)).1,
   (createPool_ledger_failure_no_pool LotteryService.default Env.poolLedgerDown
      PoolData.inverted World.empty "ledger unavailable" (fun _ => rfl)).2.1,
   (((createPool_ledger_failure_no_pool LotteryService.default Env.poolLedgerDown
      PoolData.inverted World.empty "ledger unavailable" (fun _ => rfl)).2.2.2.2.2.2
      (by decide) (fun _ => rfl) (fun _ => rfl)).2.2 rfl).1,
   (((createPool_ledger_failure_no_pool LotteryService.default Env.poolLedgerDown
      PoolData.inverted World.empty "ledger unavailable" (fun _ => rfl)).2.2.2.2.2.2
      (by decide) (fun _ => rfl) (fun _ => rfl)).2.2 rfl).2⟩

set_option maxHeartbeats 1000000 in
/-- The calls of a successful draw, in order: the two reads, the ledger draw, the creation of
the DrawHistory, one prize distribution, the status update, and then notification requests
only. -/
theorem conductDraw_wp_calls (env : Env) (poolId : String) (w : World) :
    Op.wp (conductDraw env poolId) w (fun r w1 =>
      ∀ res, r = .ok res → ∃ cs,
        w1.calls = w.calls ++
          [.getPoolById poolId, .getPoolEntries poolId, .solanaDrawLottery poolId,
           .createDrawHistory res.drawHistory, .solanaDistributePrizes res.winners,
           .updatePoolStatus poolId "completed"
             (res.winners.head?.map (fun x => x.walletAddress))] ++ cs ∧
        ∀ c ∈ cs, ∃ n, c = Call.queueNotification n) := by
  simp only [conductDraw, getPoolById, Op.wp_tryCatch, Op.wp_bind,
    Op.wp_external, Op.wp_getWorld, Op.wp_pure]
  generalize env.failure _ _ = o
  cases o with
  | some e =>
    simp only [Op.wp_loggerError, Op.wp_throw]
    simp
  | none =>
    simp only []
    cases hpool : List.find? (fun p => p.id == poolId) w.pg.pools with
    | none =>
      simp only [Op.wp_loggerError, Op.wp_throw]
      simp
    | some pool =>
      simp only [getPoolEntries, Op.wp_bind, Op.wp_external, Op.wp_getWorld, Op.wp_pure]
      generalize env.failure _ _ = o
      cases o with
      | some e =>
        simp only [Op.wp_loggerError, Op.wp_throw]
        simp
      | none =>
        simp only []
        generalize hentries : List.filter (fun e => e.poolId == poolId) w.poolEntries = entries
        by_cases hlen : entries.length = 0
        · simp only [hlen, if_true, Op.wp_loggerError, Op.wp_throw]
          simp
        · simp only [hlen, if_false, Op.wp_bind, Op.wp_external]
          generalize env.failure _ _ = o
          cases o with
          | some e =>
            simp only [Op.wp_loggerError, Op.wp_throw]
            simp
          | none =>
            simp only []
            cases hdw : determineWinners env.shuffle entries (env.drawLottery poolId).winningNumbers
                pool.prize_amount with
            | error e =>
              simp only [Op.wp_loggerError, Op.wp_throw]
              simp
            | ok winners =>
              simp only [createDrawHistory, updatePoolStatus, Op.wp_bind, Op.wp_dateNow,
                Op.wp_tryCatch, Op.wp_external, Op.wp_modifyWorld, Op.wp_pure]
              generalize env.failure _ _ = o
              cases o with
              | some e =>
                simp only [Op.wp_loggerError, Op.wp_throw]
                simp
              | none =>
                simp only []
                generalize env.failure _ _ = o
                cases o with
                | some e =>
                  simp only [Op.wp_loggerError, Op.wp_throw]
                  simp
                | none =>
                  simp only []
                  generalize env.failure _ _ = o
                  cases o with
                  | some e =>
                    simp only [Op.wp_loggerError, Op.wp_throw]
                    simp
                  | none =>
                    simp only []
                    apply wp_notifyWinners
                    intro r ns cs ls k hcs hns hrec hq
                    cases r with
                    | error e =>
                      simp only [Op.wp_loggerError, Op.wp_throw]
                      simp
                    | ok rs =>
                      simp only [Op.wp_pure]
                      intro res hres
                      simp only [Except.ok.injEq] at hres
                      subst hres
                      exact ⟨cs, by simp, hcs⟩

/-- C18: a successful draw persists exactly one DrawHistory, the one it returns: its
participants are the number of pool entries of the pool, its total prize pool is the recorded
prize amount of the pool row, its winning numbers are those of the ledger, and its winner list
is the returned winner list.  The calls of the draw are, in this order, the two reads, the
ledger draw, the creation of that DrawHistory, one prize distribution request, whose argument
is the returned winner list, the status update, and then notification requests only: no other
list is passed to prize distribution.  The transactions returned are those of that
distribution, and the notifications queued are `PRIZE_WON` notifications whose recipients are,
in order, the wallets of the returned winners. -/
theorem conductDraw_success_consistent (env : Env) (poolId : String) (w : World)
    (res : DrawResult) (h : (conductDraw env poolId w).1 = .ok res) :
    ∃ pool, w.pg.pools.find? (fun p => p.id == poolId) = some pool ∧
      (conductDraw env poolId w).2.drawHistory = w.drawHistory ++ [res.drawHistory] ∧
      res.drawHistory.participants =
        (w.poolEntries.filter (fun e => e.poolId == poolId)).length ∧
      res.drawHistory.totalPrizePool = pool.prize_amount ∧
      res.drawHistory.winningNumbers = (env.drawLottery poolId).winningNumbers ∧
      res.drawHistory.winners = res.winners ∧
      res.transactions = env.distributePrizes res.winners ∧
      (∃ cs, (conductDraw env poolId w).2.calls = w.calls ++
          [.getPoolById poolId, .getPoolEntries poolId, .solanaDrawLottery poolId,
           .createDrawHistory res.drawHistory, .solanaDistributePrizes res.winners,
           .updatePoolStatus poolId "completed"
             (res.winners.head?.map (fun x => x.walletAddress))] ++ cs ∧
        ∀ c ∈ cs, ∃ n, c = Call.queueNotification n) ∧
      ∃ ns, (conductDraw env poolId w).2.notifications = w.notifications ++ ns ∧
        ns.map (fun n => n.recipient) = res.winners.map (fun x => x.walletAddress) ∧
        ∀ n ∈ ns, n.type = "PRIZE_WON" ∧ n.status = "pending" := by
  have hw := conductDraw_wp env poolId w
  have hc := conductDraw_wp_calls env poolId w
  unfold Op.wp at hw hc
  obtain ⟨pool, hp, -, -, hdh, htx, hhist, -, -, hns, -⟩ := hw.1 res h
  refine ⟨pool, hp, hhist, ?_, ?_, ?_, ?_, htx, hc res h, hns⟩ <;> rw [hdh] <;> rfl

theorem conductDraw_success_consistent_witness :
    ∃ res, (conductDraw Env.quiet "p" (World.withEntry "active")).1 = .ok res ∧
      res.winners = [{ walletAddress := "A", ticketNumber := "t1", prize := 70,
                       transactionSignature := none }] ∧
      ∃ pool, (World.withEntry "active").pg.pools.find? (fun p => p.id == "p") = some pool ∧
        (conductDraw Env.quiet "p" (World.withEntry "active")).2.drawHistory =
          (World.withEntry "active").drawHistory ++ [res.drawHistory] ∧
        res.drawHistory.participants =
          ((World.withEntry "active").poolEntries.filter (fun e => e.poolId == "p")).length ∧
        res.drawHistory.totalPrizePool = pool.prize_amount ∧
        res.drawHistory.winningNumbers = (Env.quiet.drawLottery "p").winningNumbers ∧
        res.drawHistory.winners = res.winners ∧
        res.transactions = Env.quiet.distributePrizes res.winners ∧
        (∃ cs, (conductDraw Env.quiet "p" (World.withEntry "active")).2.calls =
            (World.withEntry "active").calls ++
            [.getPoolById "p", .getPoolEntries "p", .solanaDrawLottery "p",
             .createDrawHistory res.drawHistory, .solanaDistributePrizes res.winners,
             .updatePoolStatus "p" "completed"
               (res.winners.head?.map (fun x => x.walletAddress))] ++ cs ∧
          ∀ c ∈ cs, ∃ n, c = Call.queueNotification n) ∧
        ∃ ns, (conductDraw Env.quiet "p" (World.withEntry "active")).2.notifications =
            (World.withEntry "active").notifications ++ ns ∧
          ns.map (fun n => n.recipient) = res.winners.map (fun x => x.walletAddress) ∧
          ∀ n ∈ ns, n.type = "PRIZE_WON" ∧ n.status = "pending" :=
  ⟨_, (conductDraw_quiet Env.quiet "p" (World.withEntry "active") (Pool.sample "p" "active") _
      (fun _ _ => rfl) (withEntry_pool _) (by rw [withEntry_entries]; simp)
      (withEntry_winners _)).1, rfl,
   conductDraw_success_consistent Env.quiet "p" (World.withEntry "active") _
    (conductDraw_quiet Env.quiet "p" (World.withEntry "active") (Pool.sample "p" "active") _
      (fun _ _ => rfl) (withEntry_pool _) (by rw [withEntry_entries]; simp)
      (withEntry_winners _)).1⟩

/-- What a purchase does to the `users` and `lottery_pools` tables, however it ends: the pool
rows are as before, and the user rows are as before or as after the user step. -/
theorem purchaseTickets_wp_users (svc : LotteryService) (env : Env) (d : PurchaseData)
    (w : World) :
    Op.wp (purchaseTickets svc env d) w (fun _ w1 =>
      w1.pg.pools = w.pg.pools ∧
      (w1.pg.users = w.pg.users ∨ w1.pg.users = purchaseUsers d w)) := by
  unfold purchaseTickets
  simp only [purchaseUsers]
  generalize hfound : List.find? (fun u => u.wallet_address == d.buyerWallet) w.pg.users = found
  rw [Op.wp_tryCatch]
  by_cases hq : d.quantity > svc.maxTicketsPerPurchase
  · simp [hq, Op.wp_throw, Op.wp_bind, Op.wp_loggerError]
  · simp only [hq, if_false, Op.wp_bind]
    apply wp_getUserByWallet
    · intro e ls
      simp [Op.wp_loggerError, Op.wp_throw, Op.wp_bind]
    · rw [hfound]
      cases found with
      | some u =>
        simp only [Op.wp_pure]
        simp only [Op.wp_bind, Op.wp_pure, Op.wp_external]
        generalize env.failure _ _ = o
        cases o with
        | some e => simp [Op.wp_loggerError, Op.wp_throw]
        | none =>
          simp only []
          apply wp_createTransaction
          · intro e cs ls
            simp [Op.wp_loggerError, Op.wp_throw]
          · intro cs
            simp only [wp_arrayFrom_newTicket]
            apply wp_updatePoolEntry
            · intro e ls
              simp [Op.wp_loggerError, Op.wp_throw]
            · simp only []
              apply wp_updateRealTimeStats
              · intro e ls
                simp [Op.wp_loggerError, Op.wp_throw]
              · simp only [Op.wp_dateNow]
                apply wp_queueNotification
                · intro e ls
                  simp [Op.wp_loggerError, Op.wp_throw]
                · simp [Op.wp_pure]
      | none =>
        simp only [Op.wp_bind]
        apply wp_createUser
        · intro e ls
          simp [Op.wp_loggerError, Op.wp_throw, Op.wp_bind]
        · simp only []
          simp only [Op.wp_bind, Op.wp_pure, Op.wp_external]
          generalize env.failure _ _ = o
          cases o with
          | some e => simp [Op.wp_loggerError, Op.wp_throw]
          | none =>
            simp only []
            apply wp_createTransaction
            · intro e cs ls
              simp [Op.wp_loggerError, Op.wp_throw]
            · intro cs
              simp only [wp_arrayFrom_newTicket]
              apply wp_updatePoolEntry
              · intro e ls
                simp [Op.wp_loggerError, Op.wp_throw]
              · simp only []
                apply wp_updateRealTimeStats
                · intro e ls
                  simp [Op.wp_loggerError, Op.wp_throw]
                · simp only [Op.wp_dateNow]
                  apply wp_queueNotification
                  · intro e ls
                    simp [Op.wp_loggerError, Op.wp_throw]
                  · simp [Op.wp_pure]

set_option maxHeartbeats 2000000 in
/-- A purchase in which the call of one step fails and every other call succeeds: it fails
with the error of that call, and its stores are those of the start with the user step and the
store writes before the failing step applied. -/
theorem purchaseTickets_wp_failing_step (svc : LotteryService) (env : Env) (d : PurchaseData)
    (w : World) (step : PurchaseStep) (e : String)
    (hq : d.quantity ≤ svc.maxTicketsPerPurchase)
    (hfail : ∀ w0 c, env.failure w0 c = if step.issues c then some e else none) :
    Op.wp (purchaseTickets svc env d) w (fun r w1 =>
      r = .error e ∧
      w1.pg.users = purchaseUsers d w ∧
      w1.pg.transactions =
        (if 1 ≤ step.completed then w.pg.transactions ++ [purchaseRow svc env d w]
         else w.pg.transactions) ∧
      w1.poolEntries =
        (if 2 ≤ step.completed then purchaseEntries svc env d w else w.poolEntries) ∧
      w1.realTimeStats =
        (if 3 ≤ step.completed then purchaseStats svc env d w else w.realTimeStats) ∧
      w1.notifications = w.notifications) := by
  have hq2 : ¬ d.quantity > svc.maxTicketsPerPurchase := by omega
  cases step <;>
  · simp only [purchaseTickets, getUserByWallet, createUser, executeQuery, createTransaction,
      withTransaction, updatePoolEntry, updateRealTimeStats, queueNotification,
      Op.wp_tryCatch, Op.wp_tryFinally, Op.wp_bind, Op.wp_pure, Op.wp_throw, Op.wp_external,
      Op.wp_loggerError, Op.wp_getWorld, Op.wp_modifyWorld, Op.wp_record, Op.wp_dateNow,
      wp_arrayFrom_newTicket, hfail, PurchaseStep.issues, PurchaseStep.completed, hq2, if_false,
      purchaseTicketList, purchaseSignature, purchaseUsers, purchaseRow, purchaseEntries,
      purchaseStats]
    cases List.find? (fun u => u.wallet_address == d.buyerWallet) w.pg.users <;>
    simp [Op.wp_bind, Op.wp_pure, Op.wp_external,
      Op.wp_tryCatch, Op.wp_tryFinally, Op.wp_throw,
      Op.wp_loggerError, Op.wp_getWorld, Op.wp_modifyWorld, Op.wp_record, Op.wp_dateNow,
      wp_arrayFrom_newTicket, hfail, PurchaseStep.issues, Nat.add_assoc]

/-- C10 (amended): `purchaseTickets` never undoes a completed step: its catch block only logs
and rethrows.  Whenever it fails, no notification of the attempt remains, the pool rows are as
before, the user rows are as before or with the row of the buyer added, and the other stores
hold the writes of the first steps of the attempt and nothing else: none; or the transaction
row; or the transaction row and the pool entry tickets; or those and the aggregate update.
Which of these it is, is decided by the step that fails: when the call of one step (the ledger
call, the `INSERT` of the transaction row, the pool entry update, the aggregate update, the
notification enqueue) fails and every other call succeeds, `purchaseTickets` fails with the
error of that call, the user row of a buyer not known before has been created, every store
write before the failing step is in place (the pending transaction row from the pool entry
step on, the tickets from the aggregate step on, the aggregate update at the notification
step), and the failing step and the steps after it have written nothing. -/
theorem purchaseTickets_failure_keeps_completed_steps (svc : LotteryService) (env : Env)
    (d : PurchaseData) (w : World) :
    (∀ e, (purchaseTickets svc env d w).1 = .error e →
      (purchaseTickets svc env d w).2.notifications = w.notifications ∧
      (purchaseTickets svc env d w).2.pg.pools = w.pg.pools ∧
      ((purchaseTickets svc env d w).2.pg.users = w.pg.users ∨
        (purchaseTickets svc env d w).2.pg.users = purchaseUsers d w) ∧
      ∃ stage : Nat, stage ≤ 3 ∧
        (purchaseTickets svc env d w).2.pg.transactions =
          (if 1 ≤ stage then w.pg.transactions ++ [purchaseRow svc env d w]
           else w.pg.transactions) ∧
        (purchaseTickets svc env d w).2.poolEntries =
          (if 2 ≤ stage then purchaseEntries svc env d w else w.poolEntries) ∧
        (purchaseTickets svc env d w).2.realTimeStats =
          (if 3 ≤ stage then purchaseStats svc env d w else w.realTimeStats)) ∧
    (∀ (step : PurchaseStep) (e : String), d.quantity ≤ svc.maxTicketsPerPurchase →
      (∀ w0 c, env.failure w0 c = if step.issues c then some e else none) →
      (purchaseTickets svc env d w).1 = .error e ∧
      (purchaseTickets svc env d w).2.pg.users = purchaseUsers d w ∧
      (purchaseTickets svc env d w).2.pg.transactions =
        (if 1 ≤ step.completed then w.pg.transactions ++ [purchaseRow svc env d w]
         else w.pg.transactions) ∧
      (purchaseTickets svc env d w).2.poolEntries =
        (if 2 ≤ step.completed then purchaseEntries svc env d w else w.poolEntries) ∧
      (purchaseTickets svc env d w).2.realTimeStats =
        (if 3 ≤ step.completed then purchaseStats svc env d w else w.realTimeStats) ∧
      (purchaseTickets svc env d w).2.notifications = w.notifications) := by
  refine ⟨?_, ?_⟩
  · intro e h
    obtain ⟨stage, hle, htx, hpe, hst, hno, -, hs⟩ := purchaseTickets_progress svc env d w
    have hu := purchaseTickets_wp_users svc env d w
    unfold Op.wp at hu
    have h4 : stage ≠ 4 := by
      intro h4
      rw [hs.1 h4] at h
      simp at h
    have h3 : stage ≤ 3 := by omega
    refine ⟨?_, hu.1, hu.2, stage, h3, htx, hpe, hst⟩
    rw [hno]
    have : ¬ 4 ≤ stage := by omega
    simp [this]
  · intro step e hq hfail
    exact purchaseTickets_wp_failing_step svc env d w step e hq hfail

theorem purchaseTickets_failure_keeps_completed_steps_witness :
    (purchaseTickets LotteryService.default Env.statsDown
        { poolId := "p", buyerWallet := "A", quantity := 1 } World.empty).1 =
      .error "document store unavailable" ∧
    (purchaseTickets LotteryService.default Env.statsDown
        { poolId := "p", buyerWallet := "A", quantity := 1 } World.empty).2.pg.users =
      [{ id := 1, wallet_address := "A" }] ∧
    (purchaseTickets LotteryService.default Env.statsDown
        { poolId := "p", buyerWallet := "A", quantity := 1 } World.empty).2.pg.transactions =
      [{ id := 1, pool_id := "p", user_id := 1, signature := "sig", amount := 1 / 10,
         type := "purchase", status := "pending", confirmed_at := none }] ∧
    (purchaseTickets LotteryService.default Env.statsDown
        { poolId := "p", buyerWallet := "A", quantity := 1 } World.empty).2.poolEntries =
      [{ poolId := "p", walletAddress := "A"
         tickets := [{ ticketNumber := toString (1000 : Nat) ++ "-" ++
                         (("0.abcdefghijk" : String).drop 2).take 9
                       purchaseTimestamp := 1002, transactionSignature := "sig" }]
         totalTickets := 1, joinedAt := 1003, lastUpdated := 1003 }] ∧
    (purchaseTickets LotteryService.default Env.statsDown
        { poolId := "p", buyerWallet := "A", quantity := 1 } World.empty).2.realTimeStats = [] ∧
    (purchaseTickets LotteryService.default Env.statsDown
        { poolId := "p", buyerWallet := "A", quantity := 1 } World.empty).2.notifications = []
    := by
  have hfail : ∀ (w0 : World) (c : Call), Env.statsDown.failure w0 c =
      if PurchaseStep.aggregate.issues c then some "document store unavailable" else none := by
    intro w0 c
    cases c <;> rfl
  have h := (purchaseTickets_failure_keeps_completed_steps LotteryService.default Env.statsDown
    { poolId := "p", buyerWallet := "A", quantity := 1 } World.empty).2 .aggregate
    "document store unavailable" (by simp [default_ceiling]) hfail
  rcases hrun : purchaseTickets LotteryService.default Env.statsDown
    { poolId := "p", buyerWallet := "A", quantity := 1 } World.empty with ⟨r, w1⟩
  rw [hrun] at h
  obtain ⟨h1, h2, h3, h4, h5, h6⟩ := h
  simp only at h1 h2 h3 h4 h5 h6
  refine ⟨h1, ?_, ?_, ?_, ?_, ?_⟩
  · rw [h2]
    simp [purchaseUsers, World.empty]
  · rw [h3]
    simp [PurchaseStep.completed, purchaseRow, purchaseSignature, Env.statsDown, Env.quiet,
      World.empty, default_price]
  · rw [h4]
    simp [PurchaseStep.completed, purchaseEntries, purchaseTicketList, purchaseSignature,
      ticketsFrom, pushTickets, findOneAndUpdate, updateFirst, Env.statsDown, Env.quiet,
      World.empty]
  · rw [h5]
    simp [PurchaseStep.completed, World.empty]
  · rw [h6]
    simp [World.empty]

theorem interleave_zero_cons (svc : LotteryService) (env : Env) (schedule : List Nat)
    (t : InFlight) (ts : List InFlight) (w : World) :
    interleave svc env (0 :: schedule) (t :: ts) w =
      interleave svc env schedule ((purchaseStep svc env t w).1 :: ts)
        (purchaseStep svc env t w).2 := rfl

theorem purchaseStep_done (svc : LotteryService) (env : Env) (d : PurchaseData)
    (r : Except String PurchaseResult) (w : World) :
    purchaseStep svc env { data := d, stage := .done r } w =
      ({ data := d, stage := .done r }, w) := rfl

/-- A purchase that has returned takes no further step. -/
theorem interleave_done (svc : LotteryService) (env : Env) (d : PurchaseData)
    (r : Except String PurchaseResult) (schedule : List Nat) (w : World) :
    interleave svc env schedule [{ data := d, stage := .done r }] w =
      ([{ data := d, stage := .done r }], w) := by
  induction schedule with
  | nil => rfl
  | cons i s ih =>
    cases i with
    | zero => rw [interleave_zero_cons, purchaseStep_done]; exact ih
    | succ j => simpa [interleave, stepAt] using ih

set_option maxHeartbeats 2000000 in
/-- Seven steps of a purchase that runs alone are `purchaseTickets`. -/
theorem interleave_alone (svc : LotteryService) (env : Env) (d : PurchaseData) (w : World) :
    interleave svc env (List.replicate 7 0) [InFlight.start d] w =
      ([{ data := d, stage := .done (purchaseTickets svc env d w).1 }],
       (purchaseTickets svc env d w).2) := by
  show interleave svc env [0, 0, 0, 0, 0, 0, 0] [InFlight.start d] w = _
  simp only [purchaseTickets, Op.tryCatch, Op.bind_run, InFlight.start]
  rw [interleave_zero_cons]
  by_cases hq : d.quantity > svc.maxTicketsPerPurchase
  · simp [purchaseStep, advance, hq, Op.throw, loggerError, Op.bind_run, interleave_done]
  · simp only [purchaseStep, advance, hq, if_false, Op.bind_run]
    rcases getUserByWallet env d.buyerWallet w with ⟨r1, w1⟩
    cases r1 with
    | error e => simp [interleave_done, loggerError, Op.throw, Op.bind_run, Op.pure_run]
    | ok found =>
      cases found with
      | some u =>
        simp only [Op.pure_run]
        rw [interleave_zero_cons]
        simp only [purchaseStep, advance, Op.bind_run, Op.pure_run]
        rcases external env (.solanaPurchaseTickets d.buyerWallet d.quantity
          (d.quantity * svc.ticketPrice)) w1 with ⟨r2, w2⟩
        cases r2 with
        | error e => simp [interleave_done, loggerError, Op.throw, Op.bind_run, Op.pure_run]
        | ok x2 =>
          simp only [Op.pure_run]
          rw [interleave_zero_cons]
          simp only [purchaseStep, advance, Op.bind_run]
          rcases createTransaction env _ w2 with ⟨r3, w3⟩
          cases r3 with
          | error e => simp [interleave_done, loggerError, Op.throw, Op.bind_run, Op.pure_run]
          | ok x3 =>
            simp only [Op.pure_run]
            rw [interleave_zero_cons]
            simp only [purchaseStep, advance, Op.bind_run, arrayFrom_newTicket]
            rcases updatePoolEntry env _ _ _ _ with ⟨r4, w4⟩
            cases r4 with
            | error e => simp [interleave_done, loggerError, Op.throw, Op.bind_run, Op.pure_run]
            | ok x4 =>
              simp only [Op.pure_run]
              rw [interleave_zero_cons]
              simp only [purchaseStep, advance, Op.bind_run]
              rcases updateRealTimeStats env _ _ w4 with ⟨r5, w5⟩
              cases r5 with
              | error e => simp [interleave_done, loggerError, Op.throw, Op.bind_run, Op.pure_run]
              | ok x5 =>
                simp only [Op.pure_run]
                rw [interleave_zero_cons]
                simp only [purchaseStep, advance, Op.bind_run, dateNow]
                rcases queueNotification env _ _ with ⟨r6, w6⟩
                cases r6 with
                | error e => simp [interleave_done, loggerError, Op.throw, Op.bind_run, Op.pure_run]
                | ok x6 => simp [interleave_done, Op.pure_run]
      | none =>
        simp only [Op.pure_run]
        rw [interleave_zero_cons]
        simp only [purchaseStep, advance, Op.bind_run]
        rcases createUser env d.buyerWallet w1 with ⟨r1b, w1b⟩
        cases r1b with
        | error e => simp [interleave_done, loggerError, Op.throw, Op.bind_run, Op.pure_run]
        | ok u =>
          simp only [Op.pure_run]
          rw [interleave_zero_cons]
          simp only [purchaseStep, advance, Op.bind_run]
          rcases external env (.solanaPurchaseTickets d.buyerWallet d.quantity
            (d.quantity * svc.ticketPrice)) w1b with ⟨r2, w2⟩
          cases r2 with
          | error e => simp [interleave_done, loggerError, Op.throw, Op.bind_run, Op.pure_run]
          | ok x2 =>
            simp only [Op.pure_run]
            rw [interleave_zero_cons]
            simp only [purchaseStep, advance, Op.bind_run]
            rcases createTransaction env _ w2 with ⟨r3, w3⟩
            cases r3 with
            | error e => simp [interleave_done, loggerError, Op.throw, Op.bind_run, Op.pure_run]
            | ok x3 =>
              simp only [Op.pure_run]
              rw [interleave_zero_cons]
              simp only [purchaseStep, advance, Op.bind_run, arrayFrom_newTicket]
              rcases updatePoolEntry env _ _ _ _ with ⟨r4, w4⟩
              cases r4 with
              | error e => simp [interleave_done, loggerError, Op.throw, Op.bind_run, Op.pure_run]
              | ok x4 =>
                simp only [Op.pure_run]
                rw [interleave_zero_cons]
                simp only [purchaseStep, advance, Op.bind_run]
                rcases updateRealTimeStats env _ _ w4 with ⟨r5, w5⟩
                cases r5 with
                | error e => simp [interleave_done, loggerError, Op.throw, Op.bind_run, Op.pure_run]
                | ok x5 =>
                  simp only [Op.pure_run]
                  rw [interleave_zero_cons]
                  simp only [purchaseStep, advance, Op.bind_run, dateNow]
                  rcases queueNotification env _ _ with ⟨r6, w6⟩
                  cases r6 with
                  | error e => simp [interleave_done, loggerError, Op.throw, Op.bind_run, Op.pure_run]
                  | ok x6 => simp [interleave_done, Op.pure_run]

theorem ticketsRecorded_congr (w w1 : World) (p : String) (h : w1.poolEntries = w.poolEntries) :
    ticketsRecorded w1 p = ticketsRecorded w p := by
  unfold ticketsRecorded
  rw [h]

set_option maxHeartbeats 2000000 in
/-- One step of a purchase in flight, whatever fails: the stage moves on, and the tickets
recorded for a pool together with those the purchase still owes do not grow. -/
theorem advance_wp (svc : LotteryService) (env : Env) (d : PurchaseData)
    (stage : PurchaseStage) (w : World) (p : String)
    (hs : InFlight.sound svc { data := d, stage := stage }) :
    Op.wp (advance svc env { data := d, stage := stage }) w (fun r w1 =>
      match r with
      | .ok s =>
        InFlight.sound svc { data := d, stage := s } ∧
        min 7 (stage.rank + 1) ≤ s.rank ∧
        ticketsRecorded w1 p + InFlight.owed svc p { data := d, stage := s } ≤
          ticketsRecorded w p + InFlight.owed svc p { data := d, stage := stage }
      | .error _ => w1.poolEntries = w.poolEntries) := by
  cases stage with
  | start =>
    simp only [advance]
    by_cases hq : d.quantity > svc.maxTicketsPerPurchase
    · simp [hq, Op.wp_throw]
    · have hq2 : d.quantity ≤ svc.maxTicketsPerPurchase := by omega
      simp only [hq, if_false, Op.wp_bind]
      apply wp_getUserByWallet
      · intro e ls
        rfl
      · cases List.find? (fun u => u.wallet_address == d.buyerWallet) w.pg.users with
        | some u =>
          simp [Op.wp_pure, InFlight.sound, InFlight.owed, PurchaseStage.rank, hq2,
            ticketsRecorded]
        | none =>
          simp [Op.wp_pure, InFlight.sound, InFlight.owed, PurchaseStage.rank, hq2,
            ticketsRecorded]
  | createUser =>
    have hq2 : d.quantity ≤ svc.maxTicketsPerPurchase := hs
    simp only [advance, Op.wp_bind]
    apply wp_createUser
    · intro e ls
      rfl
    · simp [Op.wp_pure, InFlight.sound, InFlight.owed, PurchaseStage.rank, hq2,
        ticketsRecorded]
  | ledger user =>
    have hq2 : d.quantity ≤ svc.maxTicketsPerPurchase := hs
    simp only [advance, Op.wp_bind, Op.wp_external]
    cases env.failure w _ with
    | some e => trivial
    | none =>
      simp [Op.wp_pure, InFlight.sound, InFlight.owed, PurchaseStage.rank, hq2,
        ticketsRecorded]
  | transaction user =>
    have hq2 : d.quantity ≤ svc.maxTicketsPerPurchase := hs
    simp only [advance, Op.wp_bind]
    apply wp_createTransaction
    · intro e cs ls
      rfl
    · intro cs
      simp [Op.wp_pure, InFlight.sound, InFlight.owed, PurchaseStage.rank, hq2,
        ticketsRecorded]
  | poolEntry =>
    have hq2 : d.quantity ≤ svc.maxTicketsPerPurchase := hs
    simp only [advance, Op.wp_bind, wp_arrayFrom_newTicket]
    apply wp_updatePoolEntry
    · intro e ls
      rfl
    · simp only [Op.wp_pure, InFlight.sound, InFlight.owed, PurchaseStage.rank, hq2,
        ticketsRecorded, ticketCount_pushTickets, ticketsFrom_length]
      refine ⟨⟨trivial, trivial⟩, by decide, ?_⟩
      by_cases hp : d.poolId = p <;> simp [hp]
  | aggregate tickets =>
    have hq2 : d.quantity ≤ svc.maxTicketsPerPurchase := hs.1
    simp only [advance, Op.wp_bind]
    apply wp_updateRealTimeStats
    · intro e ls
      rfl
    · simp [Op.wp_pure, InFlight.sound, InFlight.owed, PurchaseStage.rank, hq2,
        ticketsRecorded, hs.2]
  | notification tickets =>
    have hq2 : d.quantity ≤ svc.maxTicketsPerPurchase := hs.1
    simp only [advance, Op.wp_bind, Op.wp_dateNow]
    apply wp_queueNotification
    · intro e ls
      rfl
    · simp [Op.wp_pure, InFlight.sound, InFlight.owed, PurchaseStage.rank, hq2,
        ticketsRecorded, hs.2]
  | done result =>
    simp only [advance, Op.wp_pure]
    exact ⟨hs, by simp [PurchaseStage.rank], le_refl _⟩

set_option maxHeartbeats 2000000 in
/-- One step of a purchase in flight when no call fails: it is rejected only at its first
step and only above the ceiling, and the tickets recorded for a pool together with those the
purchase still owes stay the same. -/
theorem advance_wp_quiet (svc : LotteryService) (env : Env) (d : PurchaseData)
    (stage : PurchaseStage) (w : World) (p : String)
    (hquiet : ∀ w0 c, env.failure w0 c = none)
    (hs : InFlight.sound svc { data := d, stage := stage }) :
    Op.wp (advance svc env { data := d, stage := stage }) w (fun r w1 =>
      match r with
      | .ok s =>
        (InFlight.accepted svc { data := d, stage := stage } →
          InFlight.accepted svc { data := d, stage := s }) ∧
        ticketsRecorded w1 p + InFlight.owed svc p { data := d, stage := s } =
          ticketsRecorded w p + InFlight.owed svc p { data := d, stage := stage }
      | .error _ =>
        d.quantity > svc.maxTicketsPerPurchase ∧
        ticketsRecorded w1 p = ticketsRecorded w p + InFlight.owed svc p
          { data := d, stage := stage }) := by
  cases stage with
  | start =>
    simp only [advance]
    by_cases hq : d.quantity > svc.maxTicketsPerPurchase
    · have hq3 : ¬ d.quantity ≤ svc.maxTicketsPerPurchase := by omega
      simp [hq, Op.wp_throw, InFlight.owed, hq3]
    · have hq2 : d.quantity ≤ svc.maxTicketsPerPurchase := by omega
      simp only [hq, if_false, Op.wp_bind, getUserByWallet, executeQuery, Op.wp_tryCatch,
        Op.wp_external, Op.wp_getWorld, Op.wp_pure, hquiet]
      cases List.find? (fun u => u.wallet_address == d.buyerWallet) w.pg.users with
      | some u =>
        simp [Op.wp_pure, InFlight.accepted, InFlight.owed, PurchaseStage.rank, hq2,
          ticketsRecorded]
      | none =>
        simp [Op.wp_pure, InFlight.accepted, InFlight.owed, PurchaseStage.rank, hq2,
          ticketsRecorded]
  | createUser =>
    have hq2 : d.quantity ≤ svc.maxTicketsPerPurchase := hs
    simp [advance, Op.wp_bind, createUser, executeQuery, Op.wp_tryCatch,
      Op.wp_external, Op.wp_getWorld, Op.wp_modifyWorld, Op.wp_pure, hquiet,
      InFlight.accepted, InFlight.owed, PurchaseStage.rank, hq2, ticketsRecorded]
  | ledger user =>
    have hq2 : d.quantity ≤ svc.maxTicketsPerPurchase := hs
    simp [advance, Op.wp_bind, Op.wp_external, Op.wp_pure, hquiet,
      InFlight.accepted, InFlight.owed, PurchaseStage.rank, hq2, ticketsRecorded]
  | transaction user =>
    have hq2 : d.quantity ≤ svc.maxTicketsPerPurchase := hs
    simp [advance, createTransaction, withTransaction, Op.wp_tryCatch, Op.wp_tryFinally,
      Op.wp_bind, Op.wp_external, Op.wp_getWorld, Op.wp_modifyWorld, Op.wp_record,
      Op.wp_pure, hquiet,
      InFlight.accepted, InFlight.owed, PurchaseStage.rank, hq2, ticketsRecorded]
  | poolEntry =>
    have hq2 : d.quantity ≤ svc.maxTicketsPerPurchase := hs
    simp only [advance, Op.wp_bind, wp_arrayFrom_newTicket, updatePoolEntry, Op.wp_tryCatch,
      Op.wp_dateNow, Op.wp_external, Op.wp_getWorld, Op.wp_modifyWorld, Op.wp_pure, hquiet,
      InFlight.accepted, InFlight.owed, PurchaseStage.rank, hq2, ticketsRecorded,
      ticketCount_pushTickets, ticketsFrom_length]
    refine ⟨fun _ => trivial, ?_⟩
    by_cases hp : d.poolId = p <;> simp [hp]
  | aggregate tickets =>
    have hq2 : d.quantity ≤ svc.maxTicketsPerPurchase := hs.1
    simp [advance, updateRealTimeStats, Op.wp_tryCatch, Op.wp_dateNow,
      Op.wp_bind, Op.wp_external, Op.wp_getWorld, Op.wp_modifyWorld, Op.wp_pure, hquiet,
      InFlight.accepted, InFlight.owed, PurchaseStage.rank, hq2, ticketsRecorded]
  | notification tickets =>
    have hq2 : d.quantity ≤ svc.maxTicketsPerPurchase := hs.1
    simp [advance, queueNotification, Op.wp_tryCatch, Op.wp_dateNow,
      Op.wp_bind, Op.wp_external, Op.wp_getWorld, Op.wp_modifyWorld, Op.wp_pure, hquiet,
      InFlight.accepted, InFlight.owed, PurchaseStage.rank, hq2, ticketsRecorded]
  | done result =>
    simp [advance, Op.wp_pure]

theorem purchaseStep_eq (svc : LotteryService) (env : Env) (d : PurchaseData)
    (stage : PurchaseStage) (w : World) (hnd : ∀ r, stage ≠ .done r) :
    purchaseStep svc env { data := d, stage := stage } w =
      match advance svc env { data := d, stage := stage } w with
      | (.ok s, w1) => ({ data := d, stage := s }, w1)
      | (.error e, w1) =>
        ({ data := d, stage := .done (.error e) },
         (loggerError "Error purchasing tickets:" e w1).2) := by
  cases stage with
  | done r => exact absurd rfl (hnd r)
  | _ => rfl

/-- One step of a purchase in flight: the request is kept, the stage moves on, and the tickets
recorded for a pool together with those the purchase still owes do not grow; when no call
fails they stay the same and the purchase is not rejected. -/
theorem purchaseStep_spec (svc : LotteryService) (env : Env) (t : InFlight) (w : World)
    (p : String) (hs : t.sound svc) :
    (purchaseStep svc env t w).1.data = t.data ∧
    (purchaseStep svc env t w).1.sound svc ∧
    min 7 (t.stage.rank + 1) ≤ (purchaseStep svc env t w).1.stage.rank ∧
    ticketsRecorded (purchaseStep svc env t w).2 p + (purchaseStep svc env t w).1.owed svc p ≤
      ticketsRecorded w p + t.owed svc p ∧
    ((∀ w0 c, env.failure w0 c = none) → t.accepted svc →
      (purchaseStep svc env t w).1.accepted svc ∧
      ticketsRecorded (purchaseStep svc env t w).2 p +
          (purchaseStep svc env t w).1.owed svc p =
        ticketsRecorded w p + t.owed svc p) := by
  obtain ⟨d, stage⟩ := t
  by_cases hnd : ∀ r, stage ≠ .done r
  · rw [purchaseStep_eq svc env d stage w hnd]
    have h1 := advance_wp svc env d stage w p hs
    unfold Op.wp at h1
    rcases hadv : advance svc env { data := d, stage := stage } w with ⟨r, w1⟩
    rw [hadv] at h1
    cases r with
    | ok s =>
      simp only at h1 ⊢
      refine ⟨trivial, h1.1, h1.2.1, h1.2.2, fun hquiet hacc => ?_⟩
      have h2 := advance_wp_quiet svc env d stage w p hquiet hs
      unfold Op.wp at h2
      rw [hadv] at h2
      simp only at h2
      exact ⟨h2.1 hacc, h2.2⟩
    | error e =>
      simp only at h1 ⊢
      have hpe : ticketsRecorded (loggerError "Error purchasing tickets:" e w1).2 p =
          ticketsRecorded w p := ticketsRecorded_congr _ _ _ h1
      have how : InFlight.owed svc p { data := d, stage := .done (.error e) } = 0 := by
        simp [InFlight.owed, PurchaseStage.rank]
      refine ⟨trivial, trivial, by simp [PurchaseStage.rank], ?_, fun hquiet hacc => ?_⟩
      · rw [hpe, how]
        omega
      · have h2 := advance_wp_quiet svc env d stage w p hquiet hs
        unfold Op.wp at h2
        rw [hadv] at h2
        simp only at h2
        refine ⟨h2.1, ?_⟩
        rw [how, Nat.add_zero, ← h2.2]
        exact ticketsRecorded_congr _ _ _ rfl
  · have : ∃ r, stage = .done r := by
      by_contra hne
      exact hnd (fun r hr => hne ⟨r, hr⟩)
    obtain ⟨r, rfl⟩ := this
    rw [purchaseStep_done]
    exact ⟨rfl, hs, by simp [PurchaseStage.rank], le_refl _, fun _ hacc => ⟨hacc, rfl⟩⟩

/-- One step of the `i`-th purchase in flight: the requests are kept, the `i`-th purchase
moves on and the others stay as they are, and the tickets recorded for a pool together with
those still owed do not grow; when no call fails they stay the same. -/
theorem stepAt_spec (svc : LotteryService) (env : Env) (p : String) :
    ∀ (ts : List InFlight) (i : Nat) (w : World), (∀ t ∈ ts, t.sound svc) →
    (∀ t ∈ (stepAt svc env i ts w).1, t.sound svc) ∧
    (stepAt svc env i ts w).1.map (fun t => t.data) = ts.map (fun t => t.data) ∧
    (∀ j t, ts[j]? = some t → ∃ t1, (stepAt svc env i ts w).1[j]? = some t1 ∧
      (if j = i then min 7 (t.stage.rank + 1) else t.stage.rank) ≤ t1.stage.rank) ∧
    ticketsRecorded (stepAt svc env i ts w).2 p +
        ((stepAt svc env i ts w).1.map (InFlight.owed svc p)).sum ≤
      ticketsRecorded w p + (ts.map (InFlight.owed svc p)).sum ∧
    ((∀ w0 c, env.failure w0 c = none) → (∀ t ∈ ts, t.accepted svc) →
      (∀ t ∈ (stepAt svc env i ts w).1, t.accepted svc) ∧
      ticketsRecorded (stepAt svc env i ts w).2 p +
          ((stepAt svc env i ts w).1.map (InFlight.owed svc p)).sum =
        ticketsRecorded w p + (ts.map (InFlight.owed svc p)).sum) := by
  intro ts
  induction ts with
  | nil =>
    intro i w _
    refine ⟨by simp [stepAt], by simp [stepAt], by simp, by simp [stepAt], ?_⟩
    intro _ _
    simp [stepAt]
  | cons t ts ih =>
    intro i w hs
    have hst : t.sound svc := hs t (List.mem_cons_self _ _)
    have hsts : ∀ x ∈ ts, x.sound svc := fun x hx => hs x (List.mem_cons_of_mem _ hx)
    cases i with
    | zero =>
      obtain ⟨h1, h2, h3, h4, h5⟩ := purchaseStep_spec svc env t w p hst
      simp only [stepAt, List.map_cons, List.sum_cons, List.mem_cons, forall_eq_or_imp]
      refine ⟨⟨h2, hsts⟩, by rw [h1], ?_, by omega, ?_⟩
      · intro j x hj
        cases j with
        | zero =>
          simp only [List.getElem?_cons_zero, Option.some.injEq] at hj
          subst hj
          exact ⟨(purchaseStep svc env t w).1, by simp, by simpa using h3⟩
        | succ k =>
          simp only [List.getElem?_cons_succ] at hj
          exact ⟨x, by simpa using hj, by simp⟩
      · intro hquiet hacc
        obtain ⟨h6, h7⟩ := h5 hquiet hacc.1
        exact ⟨⟨h6, hacc.2⟩, by omega⟩
    | succ k =>
      obtain ⟨h1, h2, h3, h4, h5⟩ := ih k w hsts
      simp only [stepAt, List.map_cons, List.sum_cons, List.mem_cons, forall_eq_or_imp]
      refine ⟨⟨hst, h1⟩, by rw [h2], ?_, by omega, ?_⟩
      · intro j x hj
        cases j with
        | zero =>
          simp only [List.getElem?_cons_zero, Option.some.injEq] at hj
          subst hj
          exact ⟨t, by simp, by simp⟩
        | succ m =>
          simp only [List.getElem?_cons_succ] at hj
          obtain ⟨t1, ht1, hr⟩ := h3 m x hj
          exact ⟨t1, by simpa using ht1, by simpa using hr⟩
      · intro hquiet hacc
        obtain ⟨h6, h7⟩ := h5 hquiet hacc.2
        exact ⟨⟨hacc.1, h6⟩, by omega⟩

/-- An interleaving of purchases in flight: the requests are kept, each purchase has moved on
by as many steps as the schedule gives it, and the tickets recorded for a pool together with
those still owed have not grown; when no call fails they are the same. -/
theorem interleave_spec (svc : LotteryService) (env : Env) (p : String) :
    ∀ (schedule : List Nat) (ts : List InFlight) (w : World), (∀ t ∈ ts, t.sound svc) →
    (∀ t ∈ (interleave svc env schedule ts w).1, t.sound svc) ∧
    (interleave svc env schedule ts w).1.map (fun t => t.data) = ts.map (fun t => t.data) ∧
    (∀ j t, ts[j]? = some t → ∃ t1, (interleave svc env schedule ts w).1[j]? = some t1 ∧
      min 7 (t.stage.rank + schedule.count j) ≤ t1.stage.rank) ∧
    ticketsRecorded (interleave svc env schedule ts w).2 p +
        ((interleave svc env schedule ts w).1.map (InFlight.owed svc p)).sum ≤
      ticketsRecorded w p + (ts.map (InFlight.owed svc p)).sum ∧
    ((∀ w0 c, env.failure w0 c = none) → (∀ t ∈ ts, t.accepted svc) →
      (∀ t ∈ (interleave svc env schedule ts w).1, t.accepted svc) ∧
      ticketsRecorded (interleave svc env schedule ts w).2 p +
          ((interleave svc env schedule ts w).1.map (InFlight.owed svc p)).sum =
        ticketsRecorded w p + (ts.map (InFlight.owed svc p)).sum) := by
  intro schedule
  induction schedule with
  | nil =>
    intro ts w hs
    refine ⟨hs, rfl, ?_, le_refl _, fun _ hacc => ⟨hacc, rfl⟩⟩
    intro j t hj
    exact ⟨t, hj, by simp⟩
  | cons i s ih =>
    intro ts w hs
    obtain ⟨a1, a2, a3, a4, a5⟩ := stepAt_spec svc env p ts i w hs
    obtain ⟨b1, b2, b3, b4, b5⟩ := ih (stepAt svc env i ts w).1 (stepAt svc env i ts w).2 a1
    simp only [interleave]
    refine ⟨b1, by rw [b2, a2], ?_, by omega, ?_⟩
    · intro j t hj
      obtain ⟨t1, ht1, hr1⟩ := a3 j t hj
      obtain ⟨t2, ht2, hr2⟩ := b3 j t1 ht1
      refine ⟨t2, ht2, ?_⟩
      by_cases hji : j = i
      · subst hji
        simp only [if_true] at hr1
        simp only [List.count_cons_self]
        omega
      · simp only [hji, if_false] at hr1
        have : List.count j (i :: s) = List.count j s := by
          rw [List.count_cons_of_ne hji]
        rw [this]
        omega
    · intro hquiet hacc
      obtain ⟨c1, c2⟩ := a5 hquiet hacc
      obtain ⟨e1, e2⟩ := b5 hquiet c1
      exact ⟨e1, by omega⟩

theorem interleave_append (svc : LotteryService) (env : Env) :
    ∀ (s1 s2 : List Nat) (ts : List InFlight) (w : World),
    interleave svc env (s1 ++ s2) ts w =
      interleave svc env s2 (interleave svc env s1 ts w).1 (interleave svc env s1 ts w).2 := by
  intro s1
  induction s1 with
  | nil => intro s2 ts w; rfl
  | cons i s ih =>
    intro s2 ts w
    simp only [List.cons_append, interleave]
    exact ih s2 _ _

/-- Steps of the first purchase leave the purchases behind it as they are. -/
theorem interleave_first (svc : LotteryService) (env : Env) (ts : List InFlight) :
    ∀ (n : Nat) (t : InFlight) (w : World), ∃ t1 w1,
      interleave svc env (List.replicate n 0) [t] w = ([t1], w1) ∧
      interleave svc env (List.replicate n 0) (t :: ts) w = (t1 :: ts, w1) := by
  intro n
  induction n with
  | zero => intro t w; exact ⟨t, w, rfl, rfl⟩
  | succ n ih =>
    intro t w
    simp only [List.replicate_succ, interleave_zero_cons]
    exact ih _ _

/-- Steps of the purchases behind the first leave the first as it is. -/
theorem interleave_rest (svc : LotteryService) (env : Env) (t : InFlight) :
    ∀ (s : List Nat) (ts : List InFlight) (w : World),
    interleave svc env (s.map (fun i => i + 1)) (t :: ts) w =
      (t :: (interleave svc env s ts w).1, (interleave svc env s ts w).2) := by
  intro s
  induction s with
  | nil => intro ts w; rfl
  | cons i s ih =>
    intro ts w
    simp only [List.map_cons, interleave, stepAt]
    exact ih _ _

/-- Purchases carried out strictly one after another are one of the interleavings. -/
theorem interleave_oneAfterAnother (svc : LotteryService) (env : Env) :
    ∀ (ds : List PurchaseData) (w : World),
    (interleave svc env (oneAfterAnother ds.length) (ds.map InFlight.start) w).2 =
      purchaseAll svc env ds w := by
  intro ds
  induction ds with
  | nil => intro w; rfl
  | cons d ds ih =>
    intro w
    simp only [List.length_cons, oneAfterAnother, List.map_cons, purchaseAll]
    rw [interleave_append]
    obtain ⟨t1, w1, h1, h2⟩ :=
      interleave_first svc env (ds.map InFlight.start) 7 (InFlight.start d) w
    rw [interleave_alone] at h1
    have hw : w1 = (purchaseTickets svc env d w).2 := (congrArg Prod.snd h1).symm
    rw [h2, interleave_rest, hw]
    exact ih _

theorem PurchaseStage.rank_le (s : PurchaseStage) : s.rank ≤ 7 := by
  cases s <;> simp [PurchaseStage.rank]

theorem InFlight.owed_start (svc : LotteryService) (p : String) (d : PurchaseData) :
    InFlight.owed svc p (InFlight.start d) =
      if d.poolId = p ∧ d.quantity ≤ svc.maxTicketsPerPurchase then d.quantity.toNat else 0 := by
  simp [InFlight.owed, InFlight.start, PurchaseStage.rank]

/-- A purchase that has taken seven steps has returned: with its tickets when the request is
within the ceiling and was not rejected, with an error when it is over the ceiling. -/
theorem InFlight.returned (svc : LotteryService) (p : String) (t : InFlight)
    (hs : t.sound svc) (hr : 7 ≤ t.stage.rank) :
    t.owed svc p = 0 ∧
    (∃ r, t.stage = .done r) ∧
    (svc.maxTicketsPerPurchase < t.data.quantity → ∃ e, t.stage = .done (.error e)) ∧
    (t.accepted svc → t.data.quantity ≤ svc.maxTicketsPerPurchase →
      ∃ res, t.stage = .done (.ok res) ∧ res.tickets.length = t.data.quantity.toNat) := by
  obtain ⟨d, stage⟩ := t
  cases stage with
  | done r =>
    cases r with
    | ok res =>
      simp only [InFlight.sound] at hs
      refine ⟨by simp [InFlight.owed, PurchaseStage.rank], ⟨_, rfl⟩, ?_, ?_⟩
      · intro h
        exact absurd hs.1 (not_le.2 h)
      · intro _ _
        exact ⟨res, rfl, hs.2⟩
    | error e =>
      refine ⟨by simp [InFlight.owed, PurchaseStage.rank], ⟨_, rfl⟩, fun _ => ⟨e, rfl⟩, ?_⟩
      intro hacc hq
      simp only [InFlight.accepted] at hacc
      exact absurd hq (not_le.2 hacc)
  | _ => simp [PurchaseStage.rank] at hr

/-- C8 (amended): purchaseTickets never reads the pool row and never compares a purchase with
the capacity of the pool; the only limit is the ceiling per purchase. For every world, whatever
the capacity of its pools, every finite collection of purchaseTickets requests and every
interleaving of them at their awaits (each awaited call taken as one step), strictly one after
another included: the requests are kept, and the number of tickets recorded for a pool grows by
at most the sum of the quantities of the requests for that pool that are within the ceiling.
When no external call fails and the interleaving runs every request to its end (seven steps
each), every request within the ceiling is accepted and returns as many tickets as it asked
for, every request over the ceiling is rejected, and the number of tickets recorded for the
pool has grown by exactly that sum. -/
theorem interleave_records_every_purchase (svc : LotteryService) (env : Env)
    (ds : List PurchaseData) (schedule : List Nat) (w : World) (p : String) :
    (interleave svc env (oneAfterAnother ds.length) (ds.map InFlight.start) w).2 =
      purchaseAll svc env ds w ∧
    (interleave svc env schedule (ds.map InFlight.start) w).1.map (fun t => t.data) = ds ∧
    ticketsRecorded (interleave svc env schedule (ds.map InFlight.start) w).2 p ≤
      ticketsRecorded w p +
        (ds.map (fun d =>
          if d.poolId = p ∧ d.quantity ≤ svc.maxTicketsPerPurchase
          then d.quantity.toNat else 0)).sum ∧
    ((∀ i, i < ds.length → 7 ≤ schedule.count i) →
      ∀ t ∈ (interleave svc env schedule (ds.map InFlight.start) w).1,
        (∃ r, t.stage = .done r) ∧
        (svc.maxTicketsPerPurchase < t.data.quantity → ∃ e, t.stage = .done (.error e))) ∧
    ((∀ w0 c, env.failure w0 c = none) → (∀ i, i < ds.length → 7 ≤ schedule.count i) →
      (∀ t ∈ (interleave svc env schedule (ds.map InFlight.start) w).1,
        t.data.quantity ≤ svc.maxTicketsPerPurchase →
        ∃ res, t.stage = .done (.ok res) ∧ res.tickets.length = t.data.quantity.toNat) ∧
      ticketsRecorded (interleave svc env schedule (ds.map InFlight.start) w).2 p =
        ticketsRecorded w p +
          (ds.map (fun d =>
            if d.poolId = p ∧ d.quantity ≤ svc.maxTicketsPerPurchase
            then d.quantity.toNat else 0)).sum) := by
  have hsound : ∀ t ∈ ds.map InFlight.start, t.sound svc := by
    intro t ht
    obtain ⟨d, _, rfl⟩ := List.mem_map.1 ht
    trivial
  have hacc : ∀ t ∈ ds.map InFlight.start, t.accepted svc := by
    intro t ht
    obtain ⟨d, _, rfl⟩ := List.mem_map.1 ht
    trivial
  have hsum : ((ds.map InFlight.start).map (InFlight.owed svc p)).sum =
      (ds.map (fun d =>
        if d.poolId = p ∧ d.quantity ≤ svc.maxTicketsPerPurchase
        then d.quantity.toNat else 0)).sum := by
    rw [List.map_map]
    congr 1
    apply List.map_congr_left
    intro d _
    exact InFlight.owed_start svc p d
  have hdata : (ds.map InFlight.start).map (fun t => t.data) = ds := by
    rw [List.map_map]
    exact List.map_id ds
  obtain ⟨a1, a2, a3, a4, a5⟩ :=
    interleave_spec svc env p schedule (ds.map InFlight.start) w hsound
  rw [hsum] at a4
  rw [hdata] at a2
  have hrank : (∀ i, i < ds.length → 7 ≤ schedule.count i) →
      ∀ t ∈ (interleave svc env schedule (ds.map InFlight.start) w).1, 7 ≤ t.stage.rank := by
    intro hfair t ht
    obtain ⟨j, hj⟩ := List.mem_iff_getElem?.1 ht
    have hlen : (interleave svc env schedule (ds.map InFlight.start) w).1.length = ds.length := by
      have := congrArg List.length a2
      simpa using this
    have hjlt : j < ds.length := by
      rw [← hlen]
      by_contra hge
      rw [List.getElem?_eq_none (not_lt.1 hge)] at hj
      exact Option.noConfusion hj
    have h0 : (ds.map InFlight.start)[j]? = some (InFlight.start (ds.get ⟨j, hjlt⟩)) := by
      simp [List.getElem?_eq_getElem hjlt]
    obtain ⟨t1, ht1, hr⟩ := a3 j _ h0
    rw [hj] at ht1
    cases ht1
    have := hfair j hjlt
    have hstart : (InFlight.start (ds.get ⟨j, hjlt⟩)).stage.rank = 0 := rfl
    rw [hstart] at hr
    omega
  refine ⟨interleave_oneAfterAnother svc env ds w, a2, by omega, ?_, ?_⟩
  · intro hfair t ht
    obtain ⟨_, b2, b3, _⟩ := InFlight.returned svc p t (a1 t ht) (hrank hfair t ht)
    exact ⟨b2, b3⟩
  · intro hquiet hfair
    obtain ⟨c1, c2⟩ := a5 hquiet hacc
    rw [hsum] at c2
    have hzero : ((interleave svc env schedule (ds.map InFlight.start) w).1.map
        (InFlight.owed svc p)).sum = 0 := by
      apply List.sum_eq_zero
      intro x hx
      obtain ⟨t, ht, rfl⟩ := List.mem_map.1 hx
      exact (InFlight.returned svc p t (a1 t ht) (hrank hfair t ht)).1
    rw [hzero, Nat.add_zero] at c2
    refine ⟨?_, c2⟩
    intro t ht hq
    exact (InFlight.returned svc p t (a1 t ht) (hrank hfair t ht)).2.2.2 (c1 t ht) hq

/-- C8 (amended), instance: on the pool of capacity 2, three purchases of one ticket each,
interleaved step by step in turn, are all accepted and 3 tickets are recorded. -/
theorem interleave_records_every_purchase_witness :
    (World.withPool "active").pg.pools.map (fun p => p.max_players) = [2] ∧
    (∀ t ∈ (interleave LotteryService.default Env.quiet
        ((List.range 21).map (fun i => i % 3))
        ([{ poolId := "p", buyerWallet := "A", quantity := 1 },
          { poolId := "p", buyerWallet := "B", quantity := 1 },
          { poolId := "p", buyerWallet := "C", quantity := 1 }].map InFlight.start)
        (World.withPool "active")).1,
      t.data.quantity ≤ LotteryService.default.maxTicketsPerPurchase →
      ∃ res, t.stage = .done (.ok res) ∧ res.tickets.length = t.data.quantity.toNat) ∧
    ticketsRecorded (interleave LotteryService.default Env.quiet
        ((List.range 21).map (fun i => i % 3))
        ([{ poolId := "p", buyerWallet := "A", quantity := 1 },
          { poolId := "p", buyerWallet := "B", quantity := 1 },
          { poolId := "p", buyerWallet := "C", quantity := 1 }].map InFlight.start)
        (World.withPool "active")).2 "p" = 3 := by
  have h := (interleave_records_every_purchase LotteryService.default Env.quiet
    [{ poolId := "p", buyerWallet := "A", quantity := 1 },
     { poolId := "p", buyerWallet := "B", quantity := 1 },
     { poolId := "p", buyerWallet := "C", quantity := 1 }]
    ((List.range 21).map (fun i => i % 3)) (World.withPool "active") "p").2.2.2.2
    (fun _ _ => rfl) (by decide)
  refine ⟨by simp [World.withPool, Pool.sample], h.1, ?_⟩
  rw [h.2]
  simp [ticketsRecorded, World.withPool, World.empty, default_ceiling]

end Lottery
